import Mathlib

/-!
# Verification development for the captcha engine

Shallow embedding of the verification rules of the three challenge kinds
(`character.go`, `image_select.go`, `slide.go`), of the key/value stores
(`store.go`) and of the orchestrating service (`service.go`).

Conventions of the embedding:
* Go `int` and `int64` are 64-bit two's complement integers; they are embedded
  as `Int`, and every arithmetic result that can leave the range is wrapped
  with `wrapInt64`.
* `float64(n)` for an integer `n` is embedded exactly, as the integer value of
  the nearest double (`float64OfInt`).
-/

namespace Captcha

/-! ## Machine arithmetic -/

/-- Two's complement wrap-around of a mathematical integer into the range of
a Go `int` (64 bits): the result of an overflowing `+`, `-` in Go. -/
def wrapInt64 (z : Int) : Int := (z + 2 ^ 63) % 2 ^ 64 - 2 ^ 63

/-- Magnitude of the double nearest to the natural number `n` (round to
nearest, ties to even, 53-bit significand). Every natural number below `2^53`
is a double; above, doubles are the multiples of the unit in the last place. -/
def float64OfNat (n : Nat) : Nat :=
  if n < 2 ^ 53 then n
  else
    let ulp := 2 ^ (Nat.log2 n - 52)
    let q := n / ulp
    let r := n % ulp
    if 2 * r < ulp then q * ulp
    else if ulp < 2 * r then (q + 1) * ulp
    else if q % 2 = 0 then q * ulp
    else (q + 1) * ulp

/-- Go conversion `float64(z)` of an `int`: the value of the nearest double,
which is an integer and is given here as an `Int`. -/
def float64OfInt (z : Int) : Int :=
  if z < 0 then -((float64OfNat z.natAbs : Nat) : Int) else ((float64OfNat z.natAbs : Nat) : Int)

/-! ## Slide puzzle (`slide.go`, `types.go`) -/

/-- Go struct `SlideAnswer` of `types.go`. -/
structure SlideAnswer where
  X : Int
  Track : List Int
  Duration : Int
  deriving DecidableEq, Repr

/-- Go struct `SlideConfig` of `types.go`; `ExpireTime` is a `time.Duration`
in nanoseconds. -/
structure SlideConfig where
  Width : Int
  Height : Int
  TemplateWidth : Int
  TemplateHeight : Int
  ExpireTime : Int
  ImageDir : String
  TemplateDir : String
  deriving DecidableEq, Repr

/-- Go struct `SlideCaptcha` of `slide.go`. -/
structure SlideCaptcha where
  config : SlideConfig
  deriving DecidableEq, Repr

/-- Five minutes as a `time.Duration` (nanoseconds). -/
def fiveMinutes : Int := 5 * 60 * 1000000000

/-- The constructor `NewSlideCaptcha` of `slide.go`: zero fields take defaults. -/
def NewSlideCaptcha (config : SlideConfig) : SlideCaptcha :=
  let config := if config.Width = 0 then { config with Width := 350 } else config
  let config := if config.Height = 0 then { config with Height := 200 } else config
  let config := if config.TemplateWidth = 0 then { config with TemplateWidth := 60 } else config
  let config := if config.TemplateHeight = 0 then { config with TemplateHeight := 60 } else config
  let config := if config.ExpireTime = 0 then { config with ExpireTime := fiveMinutes } else config
  { config := config }

/-- The method `SlideCaptcha.Verify` of `slide.go`. The difference
`targetX - answer.X` is an `int` subtraction (it wraps), converted to
`float64`; `math.Abs` is the absolute value. -/
def SlideCaptcha.Verify (_c : SlideCaptcha) (targetX : Int) (answer : SlideAnswer) : Bool :=
  let tolerance : Int := 5
  let diff : Int := |float64OfInt (wrapInt64 (targetX - answer.X))|
  if diff > float64OfInt tolerance then false
  else if answer.Track.length < 10 then false
  else
    let minDuration : Int := 500
    let maxDuration : Int := 10000
    if answer.Duration < minDuration ∨ answer.Duration > maxDuration then false
    else true

/-! ## Character challenge (`character.go`) -/

/-- The table behind `unicode.SimpleFold` of the Go standard library, which
`strings.EqualFold` consults for runes outside ASCII. The table itself is not
part of the repository; it is a parameter, together with the documented
contract of `SimpleFold`: the function walks each class of case-equivalent
code points as a cycle (`cycles`); among the code points equivalent to `r` it
returns the smallest one above `r` when there is one (`next_le`); and inside
ASCII the classes are the pairs of an upper-case letter and its lower-case
letter (`ascii`). -/
structure SimpleFoldTable where
  fold : Nat → Nat
  cycles : ∀ r, ∃ k, 0 < k ∧ fold^[k] r = r
  next_le : ∀ r x k, fold^[k] r = x → r < x → r < fold r ∧ fold r ≤ x
  ascii : ∀ a b, a < 128 → b < 128 → a < b →
    ((∃ k, fold^[k] a = b) ↔ (65 ≤ a ∧ a ≤ 90 ∧ b = a + 32))

/-- The inner loop of `strings.EqualFold`:
`r := unicode.SimpleFold(sr); for r != sr && r < tr { r = unicode.SimpleFold(r) }`.
The loop stops at the first iterate that is `sr` again or is not below `tr`
(there is one, because the table cycles); the value of `r` at that point is
returned. -/
def simpleFoldSearch (T : SimpleFoldTable) (sr tr : Nat) : Nat :=
  T.fold^[@Nat.find (fun j => ¬ (T.fold^[j + 1] sr ≠ sr ∧ T.fold^[j + 1] sr < tr)) _
    (by
      obtain ⟨k, hk, hfix⟩ := T.cycles sr
      refine ⟨k - 1, ?_⟩
      have hk1 : k - 1 + 1 = k := by omega
      show ¬ (T.fold^[k - 1 + 1] sr ≠ sr ∧ T.fold^[k - 1 + 1] sr < tr)
      rw [hk1, hfix]
      simp) + 1] sr

/-- The test `'A' <= sr && sr <= 'Z' && tr == sr+'a'-'A'` of
`strings.EqualFold`, applied once `sr < tr` has been arranged. -/
def asciiUpperLower (sr tr : Nat) : Bool :=
  decide (65 ≤ sr ∧ sr ≤ 90 ∧ tr = sr + 97 - 65)

/-- The second loop of `strings.EqualFold` (label `hasUnicode`), over the
runes of the two remaining strings. -/
def equalFoldUnicode (T : SimpleFoldTable) : List Nat → List Nat → Bool
  | [], t => t.isEmpty
  | _ :: _, [] => false
  | sr :: s, tr :: t =>
    if tr = sr then equalFoldUnicode T s t
    else
      let lo := if tr < sr then tr else sr
      let hi := if tr < sr then sr else tr
      if hi < 128 then
        if asciiUpperLower lo hi then equalFoldUnicode T s t else false
      else
        if simpleFoldSearch T lo hi = hi then equalFoldUnicode T s t else false

/-- The first loop of `strings.EqualFold` (ASCII fast path): it runs while
both current bytes are ASCII and jumps to the second loop at the first rune
outside ASCII; when one string is exhausted the lengths are compared. -/
def equalFoldRunes (T : SimpleFoldTable) : List Nat → List Nat → Bool
  | [], [] => true
  | [], _ :: _ => false
  | _ :: _, [] => false
  | sr :: s, tr :: t =>
    if 128 ≤ sr ∨ 128 ≤ tr then equalFoldUnicode T (sr :: s) (tr :: t)
    else if tr = sr then equalFoldRunes T s t
    else
      let lo := if tr < sr then tr else sr
      let hi := if tr < sr then sr else tr
      if asciiUpperLower lo hi then equalFoldRunes T s t else false

/-- The test that `strings.EqualFold` applies to a pair of different runes. -/
def foldPairTest (T : SimpleFoldTable) (sr tr : Nat) : Bool :=
  if (if tr < sr then sr else tr) < 128 then
    asciiUpperLower (if tr < sr then tr else sr) (if tr < sr then sr else tr)
  else
    decide (simpleFoldSearch T (if tr < sr then tr else sr) (if tr < sr then sr else tr)
      = (if tr < sr then sr else tr))

/-- The runes of a Go string, as `for range` yields them. -/
def runes (s : String) : List Nat := s.toList.map Char.toNat

/-- Go `strings.EqualFold`. -/
def EqualFold (T : SimpleFoldTable) (s t : String) : Bool :=
  equalFoldRunes T (runes s) (runes t)

/-- Go struct `CharacterConfig` of `types.go`. -/
structure CharacterConfig where
  Width : Int
  Height : Int
  Length : Int
  ExpireTime : Int
  Complexity : Int
  deriving DecidableEq, Repr

/-- Go struct `CharacterCaptcha` of `character.go`. -/
structure CharacterCaptcha where
  config : CharacterConfig
  deriving DecidableEq, Repr

/-- The constructor `NewCharacterCaptcha` of `character.go`. -/
def NewCharacterCaptcha (config : CharacterConfig) : CharacterCaptcha :=
  let config := if config.Width = 0 then { config with Width := 160 } else config
  let config := if config.Height = 0 then { config with Height := 60 } else config
  let config := if config.Length = 0 then { config with Length := 4 } else config
  let config := if config.ExpireTime = 0 then { config with ExpireTime := fiveMinutes } else config
  let config := if config.Complexity = 0 then { config with Complexity := 2 } else config
  { config := config }

/-- The method `CharacterCaptcha.Verify` of `character.go`:
`strings.EqualFold(code, answer)`. -/
def CharacterCaptcha.Verify (T : SimpleFoldTable) (_c : CharacterCaptcha)
    (code answer : String) : Bool :=
  EqualFold T code answer

/-- The generation alphabet `charset` of `CharacterCaptcha.generateCode`. -/
def charset : String := "23456789ABCDEFGHKMNPRSTUVWXYZ"

/-- Case-equivalence of two code points: they lie on the same cycle of
`unicode.SimpleFold` (simple Unicode case folding). -/
def sameFoldOrbit (T : SimpleFoldTable) (a b : Nat) : Prop := ∃ k, T.fold^[k] a = b

/-- Case-insensitive equality of two strings, as the specification words it:
the strings have the same number of characters and the characters at each
position are equal up to case. -/
def equalIgnoreCase (T : SimpleFoldTable) (s t : String) : Prop :=
  List.Forall₂ (sameFoldOrbit T) (runes s) (runes t)

/-- The string obtained from `code` by replacing the character at position
`i` with `ch` (a single-character mutation when `ch` differs from the
character it replaces). -/
def mutateAt (code : String) (i : Nat) (ch : Char) : String :=
  String.mk (code.toList.set i ch)

/-! ## Image selection (`image_select.go`) -/

/-- Go struct `ImageSelectConfig` of `types.go`. -/
structure ImageSelectConfig where
  ImageCount : Int
  SelectCount : Int
  ExpireTime : Int
  Category : String
  ImageDir : String
  deriving DecidableEq, Repr

/-- Go struct `ImageSelectCaptcha` of `image_select.go`. -/
structure ImageSelectCaptcha where
  config : ImageSelectConfig
  deriving DecidableEq, Repr

/-- The constructor `NewImageSelectCaptcha` of `image_select.go`. -/
def NewImageSelectCaptcha (config : ImageSelectConfig) : ImageSelectCaptcha :=
  let config := if config.ImageCount = 0 then { config with ImageCount := 4 } else config
  let config := if config.SelectCount = 0 then { config with SelectCount := 1 } else config
  let config := if config.ExpireTime = 0 then { config with ExpireTime := fiveMinutes } else config
  { config := config }

/-- The first loop of `ImageSelectCaptcha.Verify`: the Go map
`selectedMap`, filled with `selectedMap[idx] = true` for every selected index.
A Go `map[int]bool` reads as `false` at a missing key. -/
def buildSelectedMap (selectedIndex : List Int) : Int → Bool :=
  selectedIndex.foldl (fun m idx => fun k => if k = idx then true else m k) (fun _ => false)

/-- The second loop of `ImageSelectCaptcha.Verify`: return false at the first
target that is not in the map. -/
def allTargetsSelected (selectedMap : Int → Bool) : List Int → Bool
  | [] => true
  | targetIdx :: rest =>
    if !selectedMap targetIdx then false else allTargetsSelected selectedMap rest

/-- The method `ImageSelectCaptcha.Verify` of `image_select.go`. -/
def ImageSelectCaptcha.Verify (c : ImageSelectCaptcha) (targetIndexes selectedIndex : List Int) :
    Bool :=
  if (selectedIndex.length : Int) ≠ c.config.SelectCount then false
  else allTargetsSelected (buildSelectedMap selectedIndex) targetIndexes

/-! ## Errors (`errors.go`) -/

/-- Go error values. The first five are the sentinel errors of `errors.go`;
`redisNil` is the sentinel `redis.Nil` that the go-redis client returns for a
missing key; `library` is any other error of a library (JSON, network);
`wrap msg inner` is `fmt.Errorf(msg + ": %w", inner)`, a new error value that
is not `==` to `inner`. -/
inductive Err where
  | ErrCaptchaNotFound
  | ErrCaptchaInvalid
  | ErrCaptchaExpired
  | ErrCaptchaTypeNotSupported
  | ErrCaptchaAnswerFormatWrong
  | redisNil
  | library (msg : String)
  | wrap (msg : String) (inner : Err)
  deriving DecidableEq, Repr

/-! ## JSON documents and `encoding/json` -/

/-- A JSON document. A number is kept as `num n` when its literal is a plain
integer and as `numOther lit` when the literal has a fraction or an exponent. -/
inductive JSON where
  | null
  | bool (b : Bool)
  | num (n : Int)
  | numOther (lit : String)
  | str (s : String)
  | arr (xs : List JSON)
  | obj (kvs : List (String × JSON))

/-- A Go value of type `interface{}` as `json.Marshal` sees it: either it
prints as a JSON document, or `json.Marshal` rejects it (a channel, a
function, a NaN). -/
inductive Payload where
  | encodes (j : JSON)
  | unsupported

/-- Go `json.Marshal` on an `interface{}` value. -/
def jsonMarshal : Payload → Except Err JSON
  | .encodes j => .ok j
  | .unsupported => .error (Err.library "json: unsupported type")

/-- Go `json.Unmarshal` of one JSON value into a variable of type `int` (or
`int64`) that holds `cur`: `null` leaves the variable alone, an integer
literal in range is stored, everything else is an `UnmarshalTypeError`. -/
def unmarshalInt (cur : Int) : JSON → Option Int
  | .null => some cur
  | .num n => if -2 ^ 63 ≤ n ∧ n < 2 ^ 63 then some n else none
  | _ => none

/-- Go `json.Unmarshal` of one JSON value into a variable of type `string`. -/
def unmarshalString (cur : String) : JSON → Option String
  | .null => some cur
  | .str s => some s
  | _ => none

/-- A Go `[]int` under decoding: the visible elements and, behind them, the
rest of the backing array (elements that an earlier, longer decode left
there). -/
structure IntSlice where
  elems : List Int
  spare : List Int
  deriving DecidableEq, Repr

/-- The element loop of the array decoder of `encoding/json`: element `i` of
the document is decoded into slot `i` of the backing array (a fresh slot
holds 0). -/
def unmarshalIntElems : List Int → List JSON → Option (List Int)
  | _, [] => some []
  | backing, x :: xs =>
    match unmarshalInt (backing.headD 0) x with
    | none => none
    | some v =>
      match unmarshalIntElems backing.tail xs with
      | none => none
      | some rest => some (v :: rest)

/-- Go `json.Unmarshal` of one JSON value into a variable of type `[]int`:
`null` sets the slice to nil, an empty array sets it to a new empty slice, a
non-empty array is decoded element by element over the backing array. -/
def unmarshalIntSlice (cur : IntSlice) : JSON → Option IntSlice
  | .null => some ⟨[], []⟩
  | .arr [] => some ⟨[], []⟩
  | .arr (x :: xs) =>
    match unmarshalIntElems (cur.elems ++ cur.spare) (x :: xs) with
    | none => none
    | some vs => some ⟨vs, (cur.elems ++ cur.spare).drop (x :: xs).length⟩
  | _ => none

/-- Go `json.Unmarshal` of a document into a struct: `null` leaves the struct
alone, an object is walked key by key (`setField` decodes one value into the
field that the key names and ignores a key that names no field), any other
document is an `UnmarshalTypeError`. A decoding error makes the whole call
return an error. -/
def unmarshalStruct {σ : Type} (setField : σ → String → JSON → Option σ) (init : σ) :
    JSON → Option σ
  | .null => some init
  | .obj kvs => kvs.foldlM (fun st kv => setField st kv.1 kv.2) init
  | _ => none

/-! ## Answers and secrets (`types.go`, `service.go`) -/

/-- Go struct `CharacterAnswer` of `types.go`. -/
structure CharacterAnswer where
  Code : String
  deriving DecidableEq, Repr

/-- Go struct `ImageSelectAnswer` of `types.go`. -/
structure ImageSelectAnswer where
  SelectedIndexes : List Int
  deriving DecidableEq, Repr

/-- Go struct `CharacterData` of `service.go`. -/
structure CharacterData where
  Code : String
  deriving DecidableEq, Repr

/-- Go struct `ImageSelectData` of `service.go`. -/
structure ImageSelectData where
  TargetIndexes : List Int
  Question : String
  deriving DecidableEq, Repr

/-- Go struct `SlideData` of `service.go`. -/
structure SlideData where
  TargetX : Int
  deriving DecidableEq, Repr

/-- Whether an object key names the struct field with JSON name `name`:
`encoding/json` accepts the exact name and any name equal to it under
`EqualFold`. -/
def keyMatches (T : SimpleFoldTable) (name key : String) : Bool :=
  decide (key = name) || EqualFold T name key

/-- Decoding into `CharacterAnswer` (field `code`). -/
def unmarshalCharacterAnswer (T : SimpleFoldTable) (j : JSON) : Option CharacterAnswer :=
  unmarshalStruct
    (fun (st : CharacterAnswer) key v =>
      if keyMatches T "code" key then (unmarshalString st.Code v).map (fun c => { Code := c })
      else some st)
    { Code := "" } j

/-- Decoding into `CharacterData` (field `code`). -/
def unmarshalCharacterData (T : SimpleFoldTable) (j : JSON) : Option CharacterData :=
  unmarshalStruct
    (fun (st : CharacterData) key v =>
      if keyMatches T "code" key then (unmarshalString st.Code v).map (fun c => { Code := c })
      else some st)
    { Code := "" } j

/-- Decoding into `ImageSelectAnswer` (field `selectedIndexes`). -/
def unmarshalImageSelectAnswer (T : SimpleFoldTable) (j : JSON) : Option ImageSelectAnswer :=
  (unmarshalStruct
    (fun (st : IntSlice) key v =>
      if keyMatches T "selectedIndexes" key then unmarshalIntSlice st v else some st)
    ⟨[], []⟩ j).map (fun st => { SelectedIndexes := st.elems })

/-- Decoding into `ImageSelectData` (fields `targetIndexes`, `question`). -/
def unmarshalImageSelectData (T : SimpleFoldTable) (j : JSON) : Option ImageSelectData :=
  (unmarshalStruct
    (fun (st : IntSlice × String) key v =>
      if keyMatches T "targetIndexes" key then
        (unmarshalIntSlice st.1 v).map (fun sl => (sl, st.2))
      else if keyMatches T "question" key then
        (unmarshalString st.2 v).map (fun q => (st.1, q))
      else some st)
    (⟨[], []⟩, "") j).map (fun st => { TargetIndexes := st.1.elems, Question := st.2 })

/-- Decoding into `SlideData` (field `targetX`). -/
def unmarshalSlideData (T : SimpleFoldTable) (j : JSON) : Option SlideData :=
  unmarshalStruct
    (fun (st : SlideData) key v =>
      if keyMatches T "targetX" key then (unmarshalInt st.TargetX v).map (fun x => { TargetX := x })
      else some st)
    { TargetX := 0 } j

/-- Decoding into `SlideAnswer` (fields `x`, `track`, `duration`). -/
def unmarshalSlideAnswer (T : SimpleFoldTable) (j : JSON) : Option SlideAnswer :=
  (unmarshalStruct
    (fun (st : Int × IntSlice × Int) key v =>
      if keyMatches T "x" key then
        (unmarshalInt st.1 v).map (fun x => (x, st.2.1, st.2.2))
      else if keyMatches T "track" key then
        (unmarshalIntSlice st.2.1 v).map (fun tr => (st.1, tr, st.2.2))
      else if keyMatches T "duration" key then
        (unmarshalInt st.2.2 v).map (fun d => (st.1, st.2.1, d))
      else some st)
    (0, ⟨[], []⟩, 0) j).map
    (fun st => { X := st.1, Track := st.2.1.elems, Duration := st.2.2 })

/-- The value that `Service.Generate` hands to the store: one of the three
secret structs. -/
inductive SecretData where
  | character (d : CharacterData)
  | imageSelect (d : ImageSelectData)
  | slide (d : SlideData)
  deriving DecidableEq, Repr

/-- Go `json.Marshal` on the secret structs (it cannot fail on them). The
target indexes of a generated challenge are a non-nil slice, printed as an
array. -/
def marshalSecret : SecretData → JSON
  | .character d => .obj [("code", .str d.Code)]
  | .imageSelect d =>
    .obj [("targetIndexes", .arr (d.TargetIndexes.map JSON.num)), ("question", .str d.Question)]
  | .slide d => .obj [("targetX", .num d.TargetX)]

/-! ## Stores (`store.go`) -/

/-- The text kept under a key: either the text of a JSON document or a text
that is not JSON at all. -/
inductive Blob where
  | json (j : JSON)
  | malformed (text : String)

/-- Go struct `MemStore`: the map `data`. The list `timers` is not a field of
the Go struct: it records the goroutines that `Set` has started, each with
the identifier it will delete and the duration it sleeps before. -/
structure MemStore where
  data : String → Option Blob
  timers : List (String × Int) := []

/-- The constructor `NewMemStore`. -/
def NewMemStore : MemStore := { data := fun _ => none }

/-- The method `MemStore.Set`. The goroutine it starts deletes the key after
the expiry time; that later deletion is the separate event `MemStore.expire`. -/
def MemStore.Set (s : MemStore) (captchaID : String) (data : SecretData) (expireTime : Int) :
    Option Err × MemStore :=
  (none, { data := fun k => if k = captchaID then some (Blob.json (marshalSecret data))
                            else s.data k,
           timers := s.timers ++ [(captchaID, expireTime)] })

/-- The method `MemStore.Get`. -/
def MemStore.Get (s : MemStore) (captchaID : String) : Except Err Blob :=
  match s.data captchaID with
  | none => .error Err.ErrCaptchaNotFound
  | some value => .ok value

/-- The method `MemStore.Del`. -/
def MemStore.Del (s : MemStore) (captchaID : String) : Option Err × MemStore :=
  (none, { s with data := fun k => if k = captchaID then none else s.data k })

/-- The deletion that the expiry goroutine of `MemStore.Set` performs. -/
def MemStore.expire (s : MemStore) (captchaID : String) : MemStore :=
  { s with data := fun k => if k = captchaID then none else s.data k }

/-- The go-redis client with the server behind it: the keys of the server,
whether a `GET` or `SET` command fails to reach the server (`down`), whether
a `DEL` command fails to reach it (`delDown`: a command can fail although an
earlier one went through), and for each key the expiration that the last
`SET` of the key carried (0 means that the key does not expire). -/
structure RedisClient where
  db : String → Option Blob
  down : Bool
  expiry : String → Int := fun _ => 0
  delDown : Bool := false

/-- The command `client.Get(ctx, key).Result()` of go-redis: `redis.Nil` for
a key that does not exist. -/
def RedisClient.Get (c : RedisClient) (key : String) : Except Err Blob :=
  if c.down then .error (Err.library "redis: connection failed")
  else
    match c.db key with
    | none => .error Err.redisNil
    | some value => .ok value

/-- The command `client.Set(ctx, key, value, ttl).Err()` of go-redis. -/
def RedisClient.Set (c : RedisClient) (key : String) (value : Blob) (ttl : Int) :
    Option Err × RedisClient :=
  if c.down then (some (Err.library "redis: connection failed"), c)
  else (none, { c with db := fun k => if k = key then some value else c.db k,
                       expiry := fun k => if k = key then ttl else c.expiry k })

/-- The command `client.Del(ctx, key).Err()` of go-redis. -/
def RedisClient.Del (c : RedisClient) (key : String) : Option Err × RedisClient :=
  if c.delDown then (some (Err.library "redis: connection failed"), c)
  else (none, { c with db := fun k => if k = key then none else c.db k })

/-- Go struct `RedisStore`; the field `keyPrefix` is the Go field `prefix`. -/
structure RedisStore where
  client : RedisClient
  keyPrefix : String

/-- The constructor `NewRedisStore`. -/
def NewRedisStore (client : RedisClient) (keyPrefix : String) : RedisStore :=
  let keyPrefix := if keyPrefix = "" then "captcha:" else keyPrefix
  { client := client, keyPrefix := keyPrefix }

/-- The method `RedisStore.Set`. -/
def RedisStore.Set (s : RedisStore) (captchaID : String) (data : SecretData) (expireTime : Int) :
    Option Err × RedisStore :=
  let key := s.keyPrefix ++ captchaID
  let value := Blob.json (marshalSecret data)
  match s.client.Set key value expireTime with
  | (some err, client) => (some (Err.wrap "failed to set captcha" err), { s with client := client })
  | (none, client) => (none, { s with client := client })

/-- The method `RedisStore.Get`. -/
def RedisStore.Get (s : RedisStore) (captchaID : String) : Except Err Blob :=
  let key := s.keyPrefix ++ captchaID
  match s.client.Get key with
  | .error err => .error (Err.wrap "failed to get captcha" err)
  | .ok value => .ok value

/-- The method `RedisStore.Del`. -/
def RedisStore.Del (s : RedisStore) (captchaID : String) : Option Err × RedisStore :=
  let key := s.keyPrefix ++ captchaID
  match s.client.Del key with
  | (some err, client) =>
    (some (Err.wrap "failed to delete captcha" err), { s with client := client })
  | (none, client) => (none, { s with client := client })

/-- The Go interface `Store` with its two implementations. -/
inductive Store where
  | mem (m : MemStore)
  | redis (r : RedisStore)

/-- Interface method `Store.Set`. -/
def Store.Set (s : Store) (captchaID : String) (data : SecretData) (expireTime : Int) :
    Option Err × Store :=
  match s with
  | .mem m => ((m.Set captchaID data expireTime).1, .mem (m.Set captchaID data expireTime).2)
  | .redis r => ((r.Set captchaID data expireTime).1, .redis (r.Set captchaID data expireTime).2)

/-- Interface method `Store.Get`. -/
def Store.Get (s : Store) (captchaID : String) : Except Err Blob :=
  match s with
  | .mem m => m.Get captchaID
  | .redis r => r.Get captchaID

/-- Interface method `Store.Del`. -/
def Store.Del (s : Store) (captchaID : String) : Option Err × Store :=
  match s with
  | .mem m => ((m.Del captchaID).1, .mem (m.Del captchaID).2)
  | .redis r => ((r.Del captchaID).1, .redis (r.Del captchaID).2)

/-- The contents of a store as its clients see them through `Get`: the text
kept for each identifier. -/
def Store.contents (s : Store) (captchaID : String) : Option Blob :=
  match s with
  | .mem m => m.data captchaID
  | .redis r => r.client.db (r.keyPrefix ++ captchaID)

/-! ## Service (`service.go`) -/

/-- The constants `CaptchaTypeCharacter`, `CaptchaTypeImageSelect` and
`SlideTypeSelect` of `types.go`. -/
def CaptchaTypeCharacter : String := "character"

/-- See `CaptchaTypeCharacter`. -/
def CaptchaTypeImageSelect : String := "image_select"

/-- See `CaptchaTypeCharacter`. -/
def SlideTypeSelect : String := "slide"

/-- Go struct `VerifyRequest` of `types.go`. -/
structure VerifyRequest where
  CaptchaID : String
  CaptchaType : String
  Answer : Payload

/-- Go struct `Service`. -/
structure Service where
  store : Store
  characterConfig : CharacterConfig
  imageSelectConfig : ImageSelectConfig
  slideConfig : SlideConfig

/-- The constructor `NewService`. -/
def NewService (store : Store) (characterConfig : CharacterConfig)
    (imageSelectConfig : ImageSelectConfig) (slideConfig : SlideConfig) : Service :=
  { store := store, characterConfig := characterConfig,
    imageSelectConfig := imageSelectConfig, slideConfig := slideConfig }

/-- Go `json.Unmarshal([]byte(value), &data)` on a stored text: a text that
is not JSON is a syntax error. -/
def unmarshalStored {α : Type} (decode : JSON → Option α) : Blob → Except Err α
  | .malformed _ => .error (Err.library "json: syntax error")
  | .json j =>
    match decode j with
    | none => .error (Err.library "json: cannot unmarshal")
    | some d => .ok d

/-- The method `Service.verifyCharacter`. -/
def Service.verifyCharacter (T : SimpleFoldTable) (s : Service) (value : Blob)
    (answer : Payload) : Bool × Option Err :=
  match unmarshalStored (unmarshalCharacterData T) value with
  | .error err => (false, some (Err.wrap "failed to unmarshal captcha data" err))
  | .ok data =>
    match jsonMarshal answer with
    | .error _ => (false, some Err.ErrCaptchaAnswerFormatWrong)
    | .ok answerBytes =>
      match unmarshalCharacterAnswer T answerBytes with
      | none => (false, some Err.ErrCaptchaAnswerFormatWrong)
      | some answerData =>
        ((NewCharacterCaptcha s.characterConfig).Verify T data.Code answerData.Code, none)

/-- The method `Service.verifyImageSelect`. -/
def Service.verifyImageSelect (T : SimpleFoldTable) (s : Service) (value : Blob)
    (answer : Payload) : Bool × Option Err :=
  match unmarshalStored (unmarshalImageSelectData T) value with
  | .error err => (false, some (Err.wrap "failed to unmarshal captcha data" err))
  | .ok data =>
    match jsonMarshal answer with
    | .error _ => (false, some Err.ErrCaptchaAnswerFormatWrong)
    | .ok answerBytes =>
      match unmarshalImageSelectAnswer T answerBytes with
      | none => (false, some Err.ErrCaptchaAnswerFormatWrong)
      | some answerData =>
        ((NewImageSelectCaptcha s.imageSelectConfig).Verify data.TargetIndexes
          answerData.SelectedIndexes, none)

/-- The method `Service.verifySlide`. -/
def Service.verifySlide (T : SimpleFoldTable) (s : Service) (value : Blob)
    (answer : Payload) : Bool × Option Err :=
  match unmarshalStored (unmarshalSlideData T) value with
  | .error err => (false, some (Err.wrap "failed to unmarshal captcha data" err))
  | .ok data =>
    match jsonMarshal answer with
    | .error _ => (false, some Err.ErrCaptchaAnswerFormatWrong)
    | .ok answerBytes =>
      match unmarshalSlideAnswer T answerBytes with
      | none => (false, some Err.ErrCaptchaAnswerFormatWrong)
      | some answerData =>
        ((NewSlideCaptcha s.slideConfig).Verify data.TargetX answerData, none)

/-- The method `Service.Verify`: the pair `(bool, error)` it returns. -/
def Service.Verify (T : SimpleFoldTable) (s : Service) (req : VerifyRequest) :
    Bool × Option Err :=
  match s.store.Get req.CaptchaID with
  | .error err =>
    if err = Err.ErrCaptchaNotFound then (false, none)
    else (false, some (Err.wrap "failed to get captcha" err))
  | .ok value =>
    if req.CaptchaType = CaptchaTypeCharacter then s.verifyCharacter T value req.Answer
    else if req.CaptchaType = CaptchaTypeImageSelect then s.verifyImageSelect T value req.Answer
    else if req.CaptchaType = SlideTypeSelect then s.verifySlide T value req.Answer
    else (false, some Err.ErrCaptchaTypeNotSupported)

/-- The method `Service.VerifyAndDelete`: the pair it returns and the service
with the store as the call leaves it. The error of `Del` is discarded. -/
def Service.VerifyAndDelete (T : SimpleFoldTable) (s : Service) (req : VerifyRequest) :
    (Bool × Option Err) × Service :=
  match s.Verify T req with
  | (_, some err) => ((false, some err), s)
  | (valid, none) =>
    if valid then ((valid, none), { s with store := (s.store.Del req.CaptchaID).2 })
    else ((valid, none), s)

/-- The payload `Data` of a `CaptchaResponse`: one of the structs
`CharacterCaptchaData`, `ImageSelectCaptchaData`, `SlideCaptchaData` of
`types.go`. -/
inductive CaptchaData where
  | character (Image : String)
  | imageSelect (Question TargetType : String) (Images : List String) (SelectCount : Int)
  | slide (BackgroundImage TemplateImage : String) (TemplateY Width Height : Int)
  deriving DecidableEq, Repr

/-- Go struct `CaptchaResponse` of `types.go`. -/
structure CaptchaResponse where
  CaptchaID : String
  CaptchaType : String
  Data : CaptchaData
  ExpireTime : Int
  deriving DecidableEq, Repr

/-- What the three `Generate` methods return on one call of
`Service.Generate`. They draw random numbers and encode PNG images; their
results are taken as given here, as functions of the generator they are
called on: `(code, image)`, `(question, images, targetIndexes)` and
`(background, template, "", targetX)`, or an error. -/
structure Generators where
  character : CharacterCaptcha → Except Err (String × String)
  imageSelect : ImageSelectCaptcha → Except Err (String × List String × List Int)
  slide : SlideCaptcha → Except Err (String × String × String × Int)

/-- The method `Service.Generate`. `captchaID` is the string of `uuid.New()`,
`now` is `time.Now()` in nanoseconds since the Unix epoch; the result is the
response or the error, and the service with the store as the call leaves it. -/
def Service.Generate (s : Service) (captchaType : String) (captchaID : String) (now : Int)
    (g : Generators) : Except Err CaptchaResponse × Service :=
  let generated : Except Err (SecretData × Int × CaptchaData) :=
    if captchaType = CaptchaTypeCharacter then
      match g.character (NewCharacterCaptcha s.characterConfig) with
      | .error err => .error (Err.wrap "failed to generate character captcha" err)
      | .ok (code, image) =>
        .ok (SecretData.character { Code := code }, s.characterConfig.ExpireTime,
          CaptchaData.character image)
    else if captchaType = CaptchaTypeImageSelect then
      match g.imageSelect (NewImageSelectCaptcha s.imageSelectConfig) with
      | .error err => .error (Err.wrap "failed to generate image select captcha" err)
      | .ok (question, images, targetIndexes) =>
        .ok (SecretData.imageSelect { TargetIndexes := targetIndexes, Question := question },
          s.imageSelectConfig.ExpireTime,
          CaptchaData.imageSelect question "bus" images s.imageSelectConfig.SelectCount)
    else if captchaType = SlideTypeSelect then
      match g.slide (NewSlideCaptcha s.slideConfig) with
      | .error err => .error (Err.wrap "failed to generate slide captcha" err)
      | .ok (background, template, _, targetX) =>
        .ok (SecretData.slide { TargetX := targetX }, s.slideConfig.ExpireTime,
          CaptchaData.slide background template 0 s.slideConfig.Width s.slideConfig.Height)
    else .error Err.ErrCaptchaTypeNotSupported
  match generated with
  | .error err => (.error err, s)
  | .ok (data, expireTime, captchaData) =>
    match s.store.Set captchaID data expireTime with
    | (some err, store) => (.error (Err.wrap "failed to store captcha" err), { s with store := store })
    | (none, store) =>
      (.ok { CaptchaID := captchaID, CaptchaType := captchaType, Data := captchaData,
             ExpireTime := (now + expireTime) / 1000000000 },
        { s with store := store })

/-- One event in the life of a service: a call of `Verify`, of
`VerifyAndDelete` or of `Generate`, or the expiry of an identifier in the
store. -/
inductive Op where
  | verify (req : VerifyRequest)
  | verifyAndDelete (req : VerifyRequest)
  | generate (captchaType captchaID : String) (now : Int) (g : Generators)
  | expire (captchaID : String)

/-- Whether the event is a `Generate` call that draws the identifier `id`. -/
def Op.generates (id : String) : Op → Prop
  | .generate _ captchaID _ _ => captchaID = id
  | _ => False

/-- Expiry of an identifier: the store drops the key. -/
def Store.expire (s : Store) (captchaID : String) : Store :=
  match s with
  | .mem m => .mem (m.expire captchaID)
  | .redis r =>
    .redis { r with client := { r.client with
      db := fun k => if k = r.keyPrefix ++ captchaID then none else r.client.db k } }

/-- The service after one event. -/
def Service.step (T : SimpleFoldTable) (s : Service) : Op → Service
  | .verify _ => s
  | .verifyAndDelete req => (s.VerifyAndDelete T req).2
  | .generate captchaType captchaID now g => (s.Generate captchaType captchaID now g).2
  | .expire captchaID => { s with store := s.store.expire captchaID }

/-- The service after a sequence of events. -/
def Service.run (T : SimpleFoldTable) (s : Service) (ops : List Op) : Service :=
  ops.foldl (Service.step T) s

/-- The identifier is absent from the in-memory store of the service. -/
def Service.absentInMem (s : Service) (captchaID : String) : Prop :=
  ∃ m, s.store = Store.mem m ∧ m.data captchaID = none

/-! ## A concrete scenario -/

/-- Generator outcomes for the scenario: the code `7K4B`, targets `[2]`,
target X 100. -/
def sampleGenerators : Generators :=
  { character := fun _ => .ok ("7K4B", "data:image/png;base64,"),
    imageSelect := fun _ => .ok ("bus?", ["a", "b", "c", "d"], [2]),
    slide := fun _ => .ok ("data:image/png;base64,", "data:image/png;base64,", "", 100) }

/-- A service over an empty in-memory store, every configuration left at its
zero value. -/
def sampleService : Service :=
  NewService (Store.mem NewMemStore) ⟨0, 0, 0, 0, 0⟩ ⟨0, 0, 0, "", ""⟩ ⟨0, 0, 0, 0, 0, "", ""⟩

/-- The sample service after generating a character challenge under the
identifier `id-1`. -/
def sampleCharacterService : Service :=
  (sampleService.Generate CaptchaTypeCharacter "id-1" 0 sampleGenerators).2

/-- A correct answer to the challenge of `sampleCharacterService`, in lower
case. -/
def sampleCharacterRequest : VerifyRequest :=
  { CaptchaID := "id-1", CaptchaType := CaptchaTypeCharacter,
    Answer := Payload.encodes (JSON.obj [("code", JSON.str "7k4b")]) }

/-- A request for `id-1` with a modality tag that is none of the three. -/
def sampleUnknownTypeRequest : VerifyRequest :=
  { CaptchaID := "id-1", CaptchaType := "audio",
    Answer := Payload.encodes (JSON.obj [("code", JSON.str "7k4b")]) }

/-- A wrong answer to the challenge of `sampleCharacterService`. -/
def sampleWrongRequest : VerifyRequest :=
  { CaptchaID := "id-1", CaptchaType := CaptchaTypeCharacter,
    Answer := Payload.encodes (JSON.obj [("code", JSON.str "7K4C")]) }

/-- A service over a reachable Redis server that holds no key. -/
def sampleRedisService : Service :=
  NewService (Store.redis (NewRedisStore { db := fun _ => none, down := false } "captcha:"))
    ⟨0, 0, 0, 0, 0⟩ ⟨0, 0, 0, "", ""⟩ ⟨0, 0, 0, 0, 0, "", ""⟩

/-- A service over a Redis server that holds the challenge `id-1` with the
code `7K4B` and answers `GET` and `SET` commands, but not `DEL`. -/
def sampleRedisDelDownService : Service :=
  NewService (Store.redis (NewRedisStore
      { db := fun k =>
          if k = "captcha:id-1" then
            some (Blob.json (marshalSecret (SecretData.character { Code := "7K4B" })))
          else none,
        down := false, delDown := true } "captcha:"))
    ⟨0, 0, 0, 0, 0⟩ ⟨0, 0, 0, "", ""⟩ ⟨0, 0, 0, 0, 0, "", ""⟩

/-! ## Shapes of answer payloads -/

/-- JSON values that a Go `string` field accepts. -/
def isStringValue : JSON → Bool
  | .null => true
  | .str _ => true
  | _ => false

/-- JSON values that a Go `int` or `int64` field accepts. -/
def isIntValue : JSON → Bool
  | .null => true
  | .num n => decide (-2 ^ 63 ≤ n ∧ n < 2 ^ 63)
  | _ => false

/-- JSON values that a Go `[]int` field accepts. -/
def isIntSliceValue : JSON → Bool
  | .null => true
  | .arr xs => xs.all isIntValue
  | _ => false

/-- The fields of `CharacterAnswer`: JSON name and accepted values. -/
def characterAnswerFields : List (String × (JSON → Bool)) := [("code", isStringValue)]

/-- The fields of `ImageSelectAnswer`. -/
def imageSelectAnswerFields : List (String × (JSON → Bool)) :=
  [("selectedIndexes", isIntSliceValue)]

/-- The fields of `SlideAnswer`. -/
def slideAnswerFields : List (String × (JSON → Bool)) :=
  [("x", isIntValue), ("track", isIntSliceValue), ("duration", isIntValue)]

/-- An object entry gives a field of the struct a value of the wrong type:
its key names one of the fields and its value is not accepted there. -/
def entryWrong (T : SimpleFoldTable) (fields : List (String × (JSON → Bool)))
    (kv : String × JSON) : Prop :=
  ∃ f ∈ fields, keyMatches T f.1 kv.1 = true ∧ f.2 kv.2 = false

/-- An answer payload that does not have the shape of the struct with the
given fields: `json.Marshal` rejects it, or it is a JSON value other than an
object or `null`, or it is an object with an entry of the wrong type. An
object that lacks a field is not of this kind. -/
def payloadShapeWrong (T : SimpleFoldTable) (fields : List (String × (JSON → Bool))) :
    Payload → Prop
  | .unsupported => True
  | .encodes .null => False
  | .encodes (.obj kvs) => ∃ kv ∈ kvs, entryWrong T fields kv
  | .encodes _ => True

/-- The sample service after generating a slide challenge (target X 100)
under the identifier `id-2`. -/
def sampleSlideService : Service :=
  (sampleService.Generate SlideTypeSelect "id-2" 0 sampleGenerators).2

/-- A character answer without the field `code`: the empty object. -/
def sampleEmptyCharacterRequest : VerifyRequest :=
  { CaptchaID := "id-1", CaptchaType := CaptchaTypeCharacter,
    Answer := Payload.encodes (JSON.obj []) }

/-- A slide answer without `x`, `track` and `duration`: the empty object. -/
def sampleEmptySlideRequest : VerifyRequest :=
  { CaptchaID := "id-2", CaptchaType := SlideTypeSelect,
    Answer := Payload.encodes (JSON.obj []) }

/-- A character answer whose `code` is a number. -/
def sampleNumberCodeRequest : VerifyRequest :=
  { CaptchaID := "id-1", CaptchaType := CaptchaTypeCharacter,
    Answer := Payload.encodes (JSON.obj [("code", JSON.num 7)]) }

/-- The case folding of ASCII alone: an upper-case letter goes to its
lower-case letter and back, every other code point is alone in its class. -/
def asciiFold (r : Nat) : Nat :=
  if 65 ≤ r ∧ r ≤ 90 then r + 32
  else if 97 ≤ r ∧ r ≤ 122 then r - 32
  else r

/-- The ASCII-only folding is a table in the sense of `SimpleFoldTable`. -/
def asciiFoldTable : SimpleFoldTable where
  fold := asciiFold
  cycles := by
    intro r
    refine ⟨2, by norm_num, ?_⟩
    simp only [Function.iterate_succ, Function.iterate_zero, Function.comp_apply, id_eq]
    unfold asciiFold
    split_ifs <;> omega
  next_le := by
    intro r x k hk hlt
    have hiter : ∀ n, asciiFold^[n] r = r ∨ asciiFold^[n] r = asciiFold r := by
      intro n
      induction n with
      | zero => left; rfl
      | succ n ih =>
        rw [Function.iterate_succ_apply']
        rcases ih with h | h
        · right; rw [h]
        · left
          rw [h]
          unfold asciiFold
          split_ifs <;> omega
    rcases hiter k with h | h
    · omega
    · rw [h] at hk
      omega
  ascii := by
    intro a b _ _ hab
    have hiter : ∀ n, asciiFold^[n] a = a ∨ asciiFold^[n] a = asciiFold a := by
      intro n
      induction n with
      | zero => left; rfl
      | succ n ih =>
        rw [Function.iterate_succ_apply']
        rcases ih with h | h
        · right; rw [h]
        · left
          rw [h]
          unfold asciiFold
          split_ifs <;> omega
    constructor
    · rintro ⟨k, hk⟩
      rcases hiter k with h | h
      · omega
      · rw [h] at hk
        unfold asciiFold at hk
        split_ifs at hk <;> omega
    · rintro ⟨h1, h2, h3⟩
      refine ⟨1, ?_⟩
      simp only [Function.iterate_succ, Function.iterate_zero, Function.comp_apply, id_eq]
      unfold asciiFold
      rw [if_pos ⟨h1, h2⟩, h3]

/-! ## Random draws -/

/-- Go `rand.Intn(n)`: it panics (no result) when `n <= 0`; otherwise the
result is some number in `[0, n)`, here the raw draw `r` reduced modulo `n`,
so that every outcome in `[0, n)` arises from some draw. -/
def randIntn (r : Nat) (n : Int) : Option Int :=
  if n ≤ 0 then none else some ((r : Int) % n)

/-! ## Code generation (`character.go`) -/

/-- The method `CharacterCaptcha.generateCode`. `rnd i` is the raw draw behind
the `rand.Intn(len(charset))` of iteration `i`. `make([]byte, n)` panics for a
negative `n` (no result). -/
def CharacterCaptcha.generateCode (c : CharacterCaptcha) (rnd : Nat → Nat) : Option String :=
  if c.config.Length < 0 then none
  else
    some (String.mk ((List.range c.config.Length.toNat).map (fun i =>
      charset.toList.get ⟨rnd i % charset.toList.length,
        Nat.mod_lt _ (by decide : 0 < charset.toList.length)⟩)))

/-- The 36 characters `0`-`9` and `A`-`Z`. -/
def digitsAndUpper : String := "0123456789ABCDEFGHIJKLMNOPQRSTUVWXYZ"

/-! ## Target selection (`image_select.go`) -/

/-- The swap `allIndexes[i], allIndexes[j] = allIndexes[j], allIndexes[i]`. -/
def swapAt (l : List Int) (i j : Nat) : List Int :=
  (l.set i (l.getD j 0)).set j (l.getD i 0)

/-- The loop of Go `rand.Shuffle(n, swap)`: for `i` from `n-1` down to 1 it
draws `j` in `[0, i]` and calls `swap(i, j)`. The function is the loop from
position `i` downwards; `rnd k` is the raw draw of the `k`-th iteration. -/
def shuffleFrom (rnd : Nat → Nat) (n : Nat) : Nat → List Int → List Int
  | 0, l => l
  | i + 1, l => shuffleFrom rnd n i (swapAt l (i + 1) (rnd (n - 1 - (i + 1)) % (i + 2)))

/-- The method `ImageSelectCaptcha.selectTargetIndexes`. `make([]int, n)`
panics for a negative `n` and the slice expression `allIndexes[:k]` panics
unless `0 <= k <= n` (no result). -/
def ImageSelectCaptcha.selectTargetIndexes (c : ImageSelectCaptcha) (rnd : Nat → Nat) :
    Option (List Int) :=
  if c.config.ImageCount < 0 then none
  else
    let n := c.config.ImageCount.toNat
    let allIndexes : List Int := (List.range n).map Int.ofNat
    let allIndexes := shuffleFrom rnd n (n - 1) allIndexes
    if c.config.SelectCount < 0 ∨ c.config.ImageCount < c.config.SelectCount then none
    else some (allIndexes.take c.config.SelectCount.toNat)

/-- The time-to-live under which the store keeps an identifier: the duration
given to the last `Set` of the identifier (for the in-memory store the sleep
of the goroutine started last, for Redis the expiration of the key). -/
def Store.lastTTL (s : Store) (captchaID : String) : Option Int :=
  match s with
  | .mem m => ((m.timers.filter (fun t => t.1 = captchaID)).getLast?).map (fun t => t.2)
  | .redis r =>
    match r.client.db (r.keyPrefix ++ captchaID) with
    | none => none
    | some _ => some (r.client.expiry (r.keyPrefix ++ captchaID))

/-- The slide challenge `id-2` submitted as a character challenge with an
empty code. -/
def sampleSlideAsCharacterRequest : VerifyRequest :=
  { CaptchaID := "id-2", CaptchaType := CaptchaTypeCharacter,
    Answer := Payload.encodes (JSON.obj [("code", JSON.str "")]) }

/-- The slide challenge `id-2` submitted as an image-select challenge with
one selected index (the select count of the sample service is the default 1). -/
def sampleSlideAsImageSelectRequest : VerifyRequest :=
  { CaptchaID := "id-2", CaptchaType := CaptchaTypeImageSelect,
    Answer := Payload.encodes (JSON.obj [("selectedIndexes", JSON.arr [JSON.num 0])]) }

/-- The character challenge `id-1` submitted as a slide challenge with X = 0,
ten track samples and a duration of one second. -/
def sampleCharacterAsSlideRequest : VerifyRequest :=
  { CaptchaID := "id-1", CaptchaType := SlideTypeSelect,
    Answer := Payload.encodes (JSON.obj [("x", JSON.num 0),
      ("track", JSON.arr (List.replicate 10 (JSON.num 1))), ("duration", JSON.num 1000)]) }

/-! ## Images (`image`, `image/color`, `image/png`) -/

/-- Go `color.RGBA`: four `uint8` channels. -/
structure RGBA where
  R : Nat
  G : Nat
  B : Nat
  A : Nat
  deriving DecidableEq, Repr

/-- Go `*image.RGBA`: the rectangle `Rect` (`Min` inclusive, `Max` exclusive)
and the pixels. Memory is not a concern of the embedding: `make` succeeds for
every non-negative length. -/
structure Image where
  minX : Int
  minY : Int
  maxX : Int
  maxY : Int
  pix : Int → Int → RGBA

/-- Go `Rectangle.Dx`. -/
def Image.Dx (img : Image) : Int := wrapInt64 (img.maxX - img.minX)

/-- Go `Rectangle.Dy`. -/
def Image.Dy (img : Image) : Int := wrapInt64 (img.maxY - img.minY)

/-- Go `Point{x, y}.In(img.Rect)`. -/
def Image.inBounds (img : Image) (x y : Int) : Bool :=
  decide (img.minX ≤ x ∧ x < img.maxX ∧ img.minY ≤ y ∧ y < img.maxY)

/-- Go `(*image.RGBA).Set`: a point outside the rectangle is ignored. -/
def Image.Set (img : Image) (x y : Int) (c : RGBA) : Image :=
  if img.inBounds x y then
    { img with pix := fun a b => if a = x ∧ b = y then c else img.pix a b }
  else img

/-- The nested loops
`for y := y0; y < y1; y++ { for x := x0; x < x1; x++ { if ... { img.Set(x, y, c) } } }`
where the condition and the colour at `(x, y)` are given by `f` (`none`: the
pixel is not set). Every point is visited once, so the order plays no role. -/
def Image.paint (img : Image) (x0 x1 y0 y1 : Int) (f : Int → Int → Option RGBA) : Image :=
  { img with pix := fun a b =>
      if x0 ≤ a ∧ a < x1 ∧ y0 ≤ b ∧ b < y1 ∧ img.inBounds a b = true then
        match f a b with
        | some c => c
        | none => img.pix a b
      else img.pix a b }

/-- The function `mul3NonNeg` of package `image`: the product of three
non-negative numbers, or -1 when an argument is negative or a product
overflows. -/
def mul3NonNeg (x y z : Int) : Int :=
  if x < 0 ∨ y < 0 ∨ z < 0 then -1
  else if 2 ^ 64 ≤ x * y then -1
  else if 2 ^ 64 ≤ x * y * z then -1
  else if 2 ^ 63 ≤ x * y * z then -1
  else x * y * z

/-- The constant `maxAlloc` of the Go runtime on 64-bit platforms: `make`
panics for a slice of more bytes. -/
def maxAlloc : Int := 2 ^ 48

/-- Go `image.NewRGBA(image.Rect(x0, y0, x1, y1))`: `Rect` orders the
corners; `NewRGBA` panics (no result) when the size of the pixel buffer
overflows, and its `make([]uint8, 4*w*h)` panics when the buffer is larger
than `maxAlloc`. A buffer within `maxAlloc` is taken to be available. The new
image is transparent black. -/
def NewRGBA (x0 y0 x1 y1 : Int) : Option Image :=
  let minX := if x0 > x1 then x1 else x0
  let maxX := if x0 > x1 then x0 else x1
  let minY := if y0 > y1 then y1 else y0
  let maxY := if y0 > y1 then y0 else y1
  if mul3NonNeg 4 (wrapInt64 (maxX - minX)) (wrapInt64 (maxY - minY)) < 0 then none
  else if mul3NonNeg 4 (wrapInt64 (maxX - minX)) (wrapInt64 (maxY - minY)) > maxAlloc then none
  else some { minX := minX, minY := minY, maxX := maxX, maxY := maxY,
              pix := fun _ _ => ⟨0, 0, 0, 0⟩ }

/-- Go conversion `uint8(v)` of an `int`. -/
def uint8 (v : Int) : Nat := (v % 256).toNat

/-- The functions of the image libraries whose output is data that the
repository does not hold: `png img` is the base64 text of the PNG file that
`png.Encode` writes for a valid image, and `drawString img c s x y` is the
pixel array after `font.Drawer{Dst: img, Src: uniform c, Face:
basicfont.Face7x13, Dot: (x, y)}.DrawString(s)`. -/
structure ImageLib where
  png : Image → String
  drawString : Image → RGBA → String → Int → Int → (Int → Int → RGBA)

/-- Go `png.Encode` into a `bytes.Buffer`, followed by base64: the encoder
rejects an image whose width or height is not in `[1, 2^32)`; a buffer never
fails to take the bytes. -/
def pngEncode (lib : ImageLib) (img : Image) : Except Err String :=
  if img.Dx ≤ 0 ∨ img.Dy ≤ 0 ∨ 2 ^ 32 ≤ img.Dx ∨ 2 ^ 32 ≤ img.Dy then
    .error (Err.library "png: invalid format: invalid image size")
  else .ok (lib.png img)

/-- The test `math.Sqrt(float64(n)) <= float64(r)` on two `int`s, with the
square root rounded to the nearest double. `math.Sqrt` of a negative number is
NaN, which compares false. Below the rounding point between `float64(r)` and
the next double the root rounds to at most `float64(r)`. -/
def sqrtFloatLe (n r : Int) : Bool :=
  let f := float64OfInt n
  let R := float64OfInt r
  if f < 0 then false
  else if R < 0 then false
  else if R = 0 then decide (f = 0)
  else
    let e := Nat.log2 R.toNat
    if e ≤ 52 then decide (f * (2 ^ (53 - e)) ^ 2 < (R * 2 ^ (53 - e) + 1) ^ 2)
    else decide (f < (R + 2 ^ (e - 53)) ^ 2)

/-! ## Slide puzzle generation (`slide.go`) -/

/-- The noise loop of `SlideCaptcha.createBackgroundImage`, with `k`
iterations to go from iteration `i`; iteration `i` uses the draws
`rnd (5i) .. rnd (5i+4)`. -/
def SlideCaptcha.noiseLoop (c : SlideCaptcha) (rnd : Nat → Nat) : Nat → Nat → Image → Option Image
  | 0, _, img => some img
  | k + 1, i, img =>
    match randIntn (rnd (5 * i)) c.config.Width with
    | none => none
    | some x =>
      match randIntn (rnd (5 * i + 1)) c.config.Height with
      | none => none
      | some y =>
        match randIntn (rnd (5 * i + 2)) 256, randIntn (rnd (5 * i + 3)) 256,
            randIntn (rnd (5 * i + 4)) 256 with
        | some r, some g, some b =>
          SlideCaptcha.noiseLoop c rnd k (i + 1)
            (img.Set x y ⟨uint8 r, uint8 g, uint8 b, 255⟩)
        | _, _, _ => none

/-- The method `SlideCaptcha.createBackgroundImage`. -/
def SlideCaptcha.createBackgroundImage (c : SlideCaptcha) (rnd : Nat → Nat) : Option Image :=
  match NewRGBA 0 0 c.config.Width c.config.Height with
  | none => none
  | some img =>
    let img := img.paint 0 c.config.Width 0 c.config.Height (fun x y =>
      some ⟨uint8 (wrapInt64 (100 + Int.tdiv (wrapInt64 (x * 255)) c.config.Width)),
            uint8 (wrapInt64 (150 + Int.tdiv (wrapInt64 (y * 255)) c.config.Height)),
            200, 255⟩)
    SlideCaptcha.noiseLoop c rnd 100 0 img

/-- The circle test of `createTemplateImage` and `cutHole` at the point
`(x, y)` of a `width` by `height` box: centre `(width/2, height/2)`, radius
`width/2`. -/
def insideCircle (width height x y : Int) : Bool :=
  let centerX := Int.tdiv width 2
  let centerY := Int.tdiv height 2
  let radius := Int.tdiv width 2
  let dx := wrapInt64 (x - centerX)
  let dy := wrapInt64 (y - centerY)
  sqrtFloatLe (wrapInt64 (wrapInt64 (dx * dx) + wrapInt64 (dy * dy))) radius

/-- The method `SlideCaptcha.addBorder`. -/
def SlideCaptcha.addBorder (img : Image) (borderColor : RGBA) : Image :=
  let width := img.Dx
  let height := img.Dy
  let img := img.paint 0 width 0 1 (fun _ _ => some borderColor)
  let img := img.paint 0 width (wrapInt64 (height - 1)) (wrapInt64 (height - 1) + 1)
    (fun _ _ => some borderColor)
  let img := img.paint 0 1 0 height (fun _ _ => some borderColor)
  img.paint (wrapInt64 (width - 1)) (wrapInt64 (width - 1) + 1) 0 height
    (fun _ _ => some borderColor)

/-- The method `SlideCaptcha.createTemplateImage`; `r` is the raw draw behind
`rand.Intn(Height - TemplateHeight - 20)`. -/
def SlideCaptcha.createTemplateImage (c : SlideCaptcha) (r : Nat) : Option (Image × Int) :=
  match randIntn r (wrapInt64 (wrapInt64 (c.config.Height - c.config.TemplateHeight) - 20)) with
  | none => none
  | some d =>
    let templateY := wrapInt64 (d + 10)
    match NewRGBA 0 0 c.config.TemplateWidth c.config.TemplateHeight with
    | none => none
    | some img =>
      let img := img.paint 0 c.config.TemplateWidth 0 c.config.TemplateHeight (fun x y =>
        if insideCircle c.config.TemplateWidth c.config.TemplateHeight x y then
          some ⟨255, 255, 255, 200⟩
        else some ⟨0, 0, 0, 0⟩)
      some (SlideCaptcha.addBorder img ⟨100, 100, 100, 255⟩, templateY)

/-- The method `SlideCaptcha.cutHole`. The result has the rectangle of the
background; `draw.Draw(result, result.Bounds(), background, image.Point{},
draw.Src)` copies the background pixel at `(a - Min.X, b - Min.Y)` to `(a, b)`
where the background has such a pixel; then the points `(x + px, y + py)` of
the circle are made dark, as far as they lie left of `Width` and above
`Height`. -/
def SlideCaptcha.cutHole (c : SlideCaptcha) (background : Image) (x y width height : Int) :
    Image :=
  { background with pix := fun a b =>
      let px := wrapInt64 (a - x)
      let py := wrapInt64 (b - y)
      if 0 ≤ px ∧ px < width ∧ 0 ≤ py ∧ py < height ∧ insideCircle width height px py = true ∧
          a < c.config.Width ∧ b < c.config.Height ∧ background.inBounds a b = true then
        ⟨50, 50, 50, 150⟩
      else if background.inBounds (a - background.minX) (b - background.minY) = true then
        background.pix (a - background.minX) (b - background.minY)
      else ⟨0, 0, 0, 0⟩ }

/-- The value `int(float64(z) * k)` for the double `k = mant / 2^e`: the
product is rounded to the nearest double and truncated towards zero. -/
def truncMulFloat (z : Int) (mant e : Nat) : Int :=
  let f := float64OfInt z
  let t : Int := ((float64OfNat (f.natAbs * mant) / 2 ^ e : Nat) : Int)
  if f < 0 then -t else t

/-- The method `SlideCaptcha.randomPosition`; `r` is the raw draw behind
`rand.Intn(maxPos - min)`. The doubles nearest to 0.3 and 0.7 are
`5404319552844595 / 2^54` and `6305039478318694 / 2^53`. -/
def SlideCaptcha.randomPosition (_c : SlideCaptcha) (r : Nat) (max : Int) : Option Int :=
  let min := truncMulFloat max 5404319552844595 54
  let maxPos := truncMulFloat max 6305039478318694 53
  match randIntn r (wrapInt64 (maxPos - min)) with
  | none => none
  | some d => some (wrapInt64 (min + d))

/-- The method `SlideCaptcha.encodeImageToBase64`. -/
def SlideCaptcha.encodeImageToBase64 (lib : ImageLib) (_c : SlideCaptcha) (img : Image) :
    Except Err String :=
  match pngEncode lib img with
  | .error err => .error (Err.wrap "failed to encode image" err)
  | .ok base64Str => .ok ("data:image/png;base64," ++ base64Str)

/-- The body of `SlideCaptcha.Generate` with the template Y kept in the
result: `(background, template, templateY, captchaX)`. The background noise
uses the draws `rnd 0 .. rnd 499`, the template Y the draw `rnd 500` and the
notch position the draw `rnd 501`. A panic is `none`. -/
def SlideCaptcha.generateTrace (lib : ImageLib) (c : SlideCaptcha) (rnd : Nat → Nat) :
    Option (Except Err (String × String × Int × Int)) :=
  match c.createBackgroundImage rnd with
  | none => none
  | some backgroundImg =>
    match c.createTemplateImage (rnd 500) with
    | none => none
    | some (templateImg, templateY) =>
      match c.randomPosition (rnd 501) (wrapInt64 (c.config.Width - c.config.TemplateWidth)) with
      | none => none
      | some captchaX =>
        let backgroundWithHole := c.cutHole backgroundImg captchaX templateY
          c.config.TemplateWidth c.config.TemplateHeight
        match c.encodeImageToBase64 lib backgroundWithHole with
        | .error err => some (.error err)
        | .ok backgroundBase64 =>
          match c.encodeImageToBase64 lib templateImg with
          | .error err => some (.error err)
          | .ok templateBase64 =>
            some (.ok (backgroundBase64, templateBase64, templateY, captchaX))

/-- The method `SlideCaptcha.Generate`: it returns
`(background, template, "", captchaX)`, the template Y is not returned. -/
def SlideCaptcha.Generate (lib : ImageLib) (c : SlideCaptcha) (rnd : Nat → Nat) :
    Option (Except Err (String × String × String × Int)) :=
  match c.generateTrace lib rnd with
  | none => none
  | some (.error err) => some (.error err)
  | some (.ok (backgroundBase64, templateBase64, _, captchaX)) =>
    some (.ok (backgroundBase64, templateBase64, "", captchaX))

/-- A sample image library: the PNG text is empty and `DrawString` leaves the
pixels as they are. -/
def sampleImageLib : ImageLib :=
  { png := fun _ => "", drawString := fun img _ _ _ _ => img.pix }

/-- The rectangle of an image as `(Min.X, Min.Y, Max.X, Max.Y)`. -/
def Image.rect (img : Image) : Int × Int × Int × Int :=
  (img.minX, img.minY, img.maxX, img.maxY)

/-- The slide configuration of the repository's example: canvas 350 by 200,
template 60 by 60. -/
def sampleSlideCaptcha : SlideCaptcha :=
  NewSlideCaptcha ⟨350, 200, 60, 60, 0, "", ""⟩

/-- The values of a Go `int`. -/
def isGoInt (z : Int) : Prop := -2 ^ 63 ≤ z ∧ z < 2 ^ 63

/-- Generator outcomes in which the slide outcome is what
`SlideCaptcha.Generate` returns with the library `lib` and the draws `rnd`
(where that call panics the outcome of `g` is kept). -/
def Generators.withSlide (g : Generators) (lib : ImageLib) (rnd : Nat → Nat) : Generators :=
  { g with slide := fun c =>
      match c.Generate lib rnd with
      | some r => r
      | none => g.slide c }

/-- A service over an empty in-memory store whose slide configuration is the
one of the repository's example (350 by 200, template 60 by 60). -/
def sampleSlideConfigService : Service :=
  NewService (Store.mem NewMemStore) ⟨0, 0, 0, 0, 0⟩ ⟨0, 0, 0, "", ""⟩
    ⟨350, 200, 60, 60, 0, "", ""⟩

/-! ## Placeholder images (`image_select.go`) -/

/-- The function `drawCircle` of `image_select.go`: the filled circle, clipped
to the 200 by 150 canvas. -/
def drawCircle (img : Image) (centerX centerY radius : Int) (c : RGBA) : Image :=
  img.paint (centerX - radius) (centerX + radius + 1) (centerY - radius) (centerY + radius + 1)
    (fun x y =>
      let dx := x - centerX
      let dy := y - centerY
      if dx * dx + dy * dy ≤ radius * radius ∧ y ≥ 0 ∧ y < 150 ∧ x ≥ 0 ∧ x < 200 then some c
      else none)

/-- A rectangle loop `for y := y0; y < y1; y++ { for x := x0; x < x1; x++ {
img.Set(x, y, c) } }`. -/
def fillRect (img : Image) (x0 x1 y0 y1 : Int) (c : RGBA) : Image :=
  img.paint x0 x1 y0 y1 (fun _ _ => some c)

/-- The `switch i` of `generatePlaceholderImages`: bus, bicycle, traffic
light, car; no drawing for any other index. -/
def placeholderIcon (i : Nat) (img : Image) : Image :=
  match i with
  | 0 =>
    let img := fillRect img 30 170 50 100 ⟨200, 50, 50, 255⟩
    let img := fillRect img 40 80 55 75 ⟨135, 206, 250, 255⟩
    let img := fillRect img 90 160 55 75 ⟨135, 206, 250, 255⟩
    let img := drawCircle img 60 100 15 ⟨50, 50, 50, 255⟩
    drawCircle img 140 100 15 ⟨50, 50, 50, 255⟩
  | 1 =>
    let img := drawCircle img 50 90 18 ⟨50, 50, 50, 255⟩
    let img := drawCircle img 150 90 18 ⟨50, 50, 50, 255⟩
    let img := fillRect img 95 105 70 90 ⟨100, 150, 255, 255⟩
    let img := fillRect img 80 110 68 72 ⟨100, 150, 255, 255⟩
    fillRect img 145 155 55 72 ⟨100, 150, 255, 255⟩
  | 2 =>
    let img := fillRect img 85 115 30 120 ⟨80, 80, 80, 255⟩
    let img := drawCircle img 100 50 12 ⟨255, 0, 0, 255⟩
    let img := drawCircle img 100 75 12 ⟨255, 255, 0, 255⟩
    drawCircle img 100 100 12 ⟨0, 255, 0, 255⟩
  | 3 =>
    let img := fillRect img 40 160 60 110 ⟨50, 100, 200, 255⟩
    let img := fillRect img 60 140 45 65 ⟨50, 100, 200, 255⟩
    let img := fillRect img 70 100 50 60 ⟨135, 206, 250, 255⟩
    let img := fillRect img 110 130 50 60 ⟨135, 206, 250, 255⟩
    let img := drawCircle img 70 110 12 ⟨30, 30, 30, 255⟩
    drawCircle img 130 110 12 ⟨30, 30, 30, 255⟩
  | _ => img

/-- The slice `labels` of `generatePlaceholderImages`. -/
def placeholderLabels : List String := ["BUS", "BIKE", "LIGHT", "CAR"]

/-- The method `ImageSelectCaptcha.encodeImageToBase64`. -/
def ImageSelectCaptcha.encodeImageToBase64 (lib : ImageLib) (_c : ImageSelectCaptcha)
    (img : Image) (_index : Nat) : Except Err String :=
  match pngEncode lib img with
  | .error err => .error (Err.wrap "failed to encode image" err)
  | .ok base64Str => .ok ("data:image/png;base64," ++ base64Str)

/-- The loop of `generatePlaceholderImages` with `k` iterations to go from
index `i`. The index expression `labels[i]` panics (no result) for `i >= 4`. -/
def ImageSelectCaptcha.placeholderLoop (lib : ImageLib) (c : ImageSelectCaptcha) :
    Nat → Nat → List String → Option (Except Err (List String))
  | 0, _, images => some (.ok images)
  | k + 1, i, images =>
    match NewRGBA 0 0 200 150 with
    | none => none
    | some img =>
      let img := fillRect img img.minX img.maxX img.minY img.maxY ⟨255, 255, 255, 255⟩
      let img := placeholderIcon i img
      match placeholderLabels[i]? with
      | none => none
      | some label =>
        let img := { img with pix := lib.drawString img ⟨0, 0, 0, 255⟩ label 85 135 }
        match c.encodeImageToBase64 lib img i with
        | .error err => some (.error err)
        | .ok base64Img =>
          ImageSelectCaptcha.placeholderLoop lib c k (i + 1) (images ++ [base64Img])

/-- The method `ImageSelectCaptcha.generatePlaceholderImages`. -/
def ImageSelectCaptcha.generatePlaceholderImages (lib : ImageLib) (c : ImageSelectCaptcha) :
    Option (Except Err (List String)) :=
  ImageSelectCaptcha.placeholderLoop lib c c.config.ImageCount.toNat 0 []

/-! ## Interference lines (`character.go`) -/

/-- The function `abs` of `character.go`, on Go `int`: the negation wraps. -/
def abs (x : Int) : Int :=
  if x < 0 then wrapInt64 (-x) else x

/-- The `for` loop of `CharacterCaptcha.drawLine`, with the loop variables
`x1`, `y1`, `err` and the image as arguments. An iteration budget stands for
the unbounded loop: `none` means that the budget was used up before the
`break`. -/
def CharacterCaptcha.drawLineLoop (c : CharacterCaptcha) (lineColor : RGBA)
    (x2 y2 dx dy sx sy : Int) : Nat → Image → Int → Int → Int → Option Image
  | 0, _, _, _, _ => none
  | fuel + 1, img, x1, y1, err =>
    let img :=
      if x1 ≥ 0 ∧ x1 < c.config.Width ∧ y1 ≥ 0 ∧ y1 < c.config.Height then
        img.Set x1 y1 lineColor
      else img
    if x1 = x2 ∧ y1 = y2 then some img
    else
      let e2 := wrapInt64 (2 * err)
      let errx := if e2 > wrapInt64 (-dy) then wrapInt64 (err - dy) else err
      let x1x := if e2 > wrapInt64 (-dy) then wrapInt64 (x1 + sx) else x1
      let erry := if e2 < dx then wrapInt64 (errx + dx) else errx
      let y1y := if e2 < dx then wrapInt64 (y1 + sy) else y1
      CharacterCaptcha.drawLineLoop c lineColor x2 y2 dx dy sx sy fuel img x1x y1y erry

/-- The method `CharacterCaptcha.drawLine`, with an iteration budget for its
loop. -/
def CharacterCaptcha.drawLine (c : CharacterCaptcha) (img : Image) (x1 y1 x2 y2 : Int)
    (lineColor : RGBA) (fuel : Nat) : Option Image :=
  let dx := abs (wrapInt64 (x2 - x1))
  let dy := abs (wrapInt64 (y2 - y1))
  let sx : Int := if x1 > x2 then -1 else 1
  let sy : Int := if y1 > y2 then -1 else 1
  let err := wrapInt64 (dx - dy)
  CharacterCaptcha.drawLineLoop c lineColor x2 y2 dx dy sx sy fuel img x1 y1 err

/-- A white 200 by 80 canvas, the default size of the character challenge. -/
def sampleLineCanvas : Image :=
  ⟨0, 0, 200, 80, fun _ _ => ⟨255, 255, 255, 255⟩⟩

/-! ## Image-select generation (`image_select.go`) -/

/-- Go `os.DirEntry`, as far as `loadRealImages` reads it. -/
structure DirEntry where
  Name : String
  IsDir : Bool
  deriving DecidableEq, Repr

/-- The file system and the library functions on paths and files that
`loadRealImages` calls: `filepath.Join`, `os.ReadDir`, `strings.ToLower`,
`os.Open` (the result is the contents of the file) and `image.Decode` (the
decoded picture as a raster). -/
structure FileSystem where
  Join : String → String → String
  ReadDir : String → Except Err (List DirEntry)
  ToLower : String → String
  Open : String → Except Err String
  Decode : String → Except Err Image

/-- Go `strings.HasSuffix`. -/
def HasSuffix (s suffix : String) : Bool :=
  suffix.toList.isSuffixOf s.toList

/-- The method `ImageSelectCaptcha.loadAndEncodeImage`. -/
def ImageSelectCaptcha.loadAndEncodeImage (lib : ImageLib) (fs : FileSystem)
    (c : ImageSelectCaptcha) (filePath : String) : Except Err String :=
  match fs.Open filePath with
  | .error err => .error (Err.wrap "打开文件失败" err)
  | .ok file =>
    match fs.Decode file with
    | .error err => .error (Err.wrap "解码图片失败" err)
    | .ok img => c.encodeImageToBase64 lib img 0

/-- The slice `imageTypes` of `loadRealImages`. -/
def imageTypes : List String := ["bus", "car", "bike", "light"]

/-- The body of the loop of `loadRealImages` for the directory `dirName`;
`r` is the raw draw behind `rand.Intn(len(imageFiles))`. Every failure is a
`continue`. -/
def ImageSelectCaptcha.loadRealImage (lib : ImageLib) (fs : FileSystem) (c : ImageSelectCaptcha)
    (loadedImages : List String) (dirName : String) (r : Nat) : List String :=
  let dirPath := fs.Join c.config.ImageDir dirName
  match fs.ReadDir dirPath with
  | .error _ => loadedImages
  | .ok files =>
    let imageFiles := (files.filter (fun file =>
        !file.IsDir &&
          (HasSuffix (fs.ToLower file.Name) ".jpg" || HasSuffix (fs.ToLower file.Name) ".jpeg" ||
            HasSuffix (fs.ToLower file.Name) ".png"))).map
      (fun file => fs.Join dirPath file.Name)
    if imageFiles.length = 0 then loadedImages
    else
      let selectedFile := imageFiles.getD (r % imageFiles.length) ""
      match c.loadAndEncodeImage lib fs selectedFile with
      | .error _ => loadedImages
      | .ok base64Img => loadedImages ++ [base64Img]

/-- The method `ImageSelectCaptcha.loadRealImages`; `rnd k` is the raw draw
for the `k`-th image type. -/
def ImageSelectCaptcha.loadRealImages (lib : ImageLib) (fs : FileSystem) (c : ImageSelectCaptcha)
    (rnd : Nat → Nat) : Except Err (List String) :=
  let loadedImages := imageTypes.enum.foldl
    (fun loaded kd => c.loadRealImage lib fs loaded kd.2 (rnd kd.1)) []
  if loadedImages.length = 0 then .error (Err.library "没有成功加载任何图片")
  else .ok loadedImages

/-- The method `ImageSelectCaptcha.loadImages`: the argument `targetIndexes`
is not used. A panic of the placeholder path is `none`. -/
def ImageSelectCaptcha.loadImages (lib : ImageLib) (fs : FileSystem) (c : ImageSelectCaptcha)
    (_targetIndexes : List Int) (rnd : Nat → Nat) : Option (Except Err (List String)) :=
  match c.loadRealImages lib fs rnd with
  | .ok realImages =>
    if realImages.length > 0 then some (.ok realImages) else c.generatePlaceholderImages lib
  | .error _ => c.generatePlaceholderImages lib

/-- The method `ImageSelectCaptcha.generateQuestion`; `r` is the raw draw
behind `rand.Intn(len(questions))`. -/
def ImageSelectCaptcha.generateQuestion (_c : ImageSelectCaptcha) (r : Nat) : String :=
  let questions := ["请选择所有的公交车", "请选择所有的红绿灯", "请选择所有的自行车",
    "请选择所有的汽车"]
  questions.getD (r % questions.length) ""

/-- The method `ImageSelectCaptcha.Generate`: `(question, images,
targetIndexes)` or an error, `none` for a panic. The draws of the shuffle
(`rndT`), of the file choice (`rndF`) and of the question (`rq`) are separate
arguments. -/
def ImageSelectCaptcha.Generate (lib : ImageLib) (fs : FileSystem) (c : ImageSelectCaptcha)
    (rndT rndF : Nat → Nat) (rq : Nat) :
    Option (Except Err (String × List String × List Int)) :=
  match c.selectTargetIndexes rndT with
  | none => none
  | some targetIndexes =>
    match c.loadImages lib fs targetIndexes rndF with
    | none => none
    | some (.error err) => some (.error (Err.wrap "failed to load images" err))
    | some (.ok images) =>
      let question := c.generateQuestion rq
      some (.ok (question, images, targetIndexes))

/-- What the client sees of an outcome of `ImageSelectCaptcha.Generate`: the
question and the images (or the error, or the panic), not the target
indexes. -/
def visiblePayload :
    Option (Except Err (String × List String × List Int)) →
      Option (Except Err (String × List String))
  | none => none
  | some (.error err) => some (.error err)
  | some (.ok (question, images, _)) => some (.ok (question, images))

/-- Generator outcomes in which the image-select outcome is what
`ImageSelectCaptcha.Generate` returns with the library `lib`, the file system
`fs` and the given draws (where that call panics the outcome of `g` is
kept). -/
def Generators.withImageSelect (g : Generators) (lib : ImageLib) (fs : FileSystem)
    (rndT rndF : Nat → Nat) (rq : Nat) : Generators :=
  { g with imageSelect := fun c =>
      match c.Generate lib fs rndT rndF rq with
      | some r => r
      | none => g.imageSelect c }

/-! ## Text rendering (`character.go`) -/

/-- Go `a / b` on `int`: a zero divisor panics (no result), the quotient is
truncated towards zero and wraps. -/
def intDiv (a b : Int) : Option Int :=
  if b = 0 then none else some (wrapInt64 (a.tdiv b))

/-- Go `(*image.RGBA).At`: the zero colour outside the rectangle. -/
def Image.At (img : Image) (x y : Int) : RGBA :=
  if img.inBounds x y then img.pix x y else ⟨0, 0, 0, 0⟩

/-- The alpha value that `color.RGBA.RGBA()` returns: the 8-bit channel
spread to 16 bits. -/
def RGBA.alpha16 (c : RGBA) : Nat := c.A * 257

/-- The two innermost loops of `drawText` for the source pixel `(tx, ty)`:
`sy` and `sx` run below `int(scale)`, which is 2 for `scale := 2.5`, and
`int(float64(t) * scale)` is the product with the double `5 / 2^1`,
truncated. -/
def CharacterCaptcha.stampPixel (c : CharacterCaptcha) (textColor : RGBA) (x y : Int)
    (tx ty : Nat) (img : Image) : Image :=
  (List.range 2).foldl (fun (img : Image) (sy : Nat) =>
    (List.range 2).foldl (fun (img : Image) (sx : Nat) =>
      let targetX := wrapInt64 (wrapInt64 (x + truncMulFloat (tx : Int) 5 1) + (sx : Int))
      let targetY := wrapInt64 (wrapInt64 (y + truncMulFloat (ty : Int) 5 1) + (sy : Int))
      if targetX < c.config.Width ∧ targetY < c.config.Height ∧ targetY ≥ 0 then
        img.Set targetX targetY textColor
      else img) img) img

/-- The loops of `drawText` over the 8 by 13 temporary image `tmpImg`: every
source pixel with a positive alpha is stamped at the origin `(x, y)`. -/
def CharacterCaptcha.stampGlyph (c : CharacterCaptcha) (img tmpImg : Image) (x y : Int)
    (textColor : RGBA) : Image :=
  (List.range 13).foldl (fun (img : Image) (ty : Nat) =>
    (List.range 8).foldl (fun (img : Image) (tx : Nat) =>
      if (tmpImg.At (tx : Int) (ty : Int)).alpha16 > 0 then
        c.stampPixel textColor x y tx ty img
      else img) img) img

/-- The loop `for i, ch := range code` of `drawText`: `k` counts the
characters, `i` is the byte offset of the character in the string. The
character `k` uses the draws `rnd (5 k) .. rnd (5 k + 4)`: the offsets of `x`
and `y` and the three colour channels. -/
def CharacterCaptcha.drawTextLoop (lib : ImageLib) (c : CharacterCaptcha)
    (charWidth charHeight : Int) (rnd : Nat → Nat) : List Char → Nat → Nat → Image → Option Image
  | [], _, _, img => some img
  | ch :: rest, k, i, img => do
    let dx ← randIntn (rnd (5 * k)) 10
    let x := wrapInt64 (wrapInt64 (10 + wrapInt64 ((i : Int) * charWidth)) + dx)
    let dy ← randIntn (rnd (5 * k + 1)) 5
    let y := wrapInt64 (charHeight + dy)
    let r ← randIntn (rnd (5 * k + 2)) 128
    let g ← randIntn (rnd (5 * k + 3)) 128
    let b ← randIntn (rnd (5 * k + 4)) 128
    let textColor : RGBA := ⟨uint8 r, uint8 g, uint8 b, 255⟩
    let tmpImg ← NewRGBA 0 0 8 13
    let tmpImg := { tmpImg with pix := lib.drawString tmpImg textColor (String.singleton ch) 0 12 }
    CharacterCaptcha.drawTextLoop lib c charWidth charHeight rnd rest (k + 1) (i + ch.utf8Size)
      (c.stampGlyph img tmpImg x y textColor)

/-- The method `CharacterCaptcha.drawText`. A panic is `none`. -/
def CharacterCaptcha.drawText (lib : ImageLib) (c : CharacterCaptcha) (img : Image)
    (code : String) (rnd : Nat → Nat) : Option Image := do
  let charWidth ← intDiv (wrapInt64 (c.config.Width - 20)) c.config.Length
  let charHeight ← intDiv c.config.Height 4
  CharacterCaptcha.drawTextLoop lib c charWidth charHeight rnd code.toList 0 0 img

/-- What it means that `res` is `img` with the points of `Q` inside the image
set to `col`: same rectangle, the colour `col` on `Q`, the old pixel
elsewhere. -/
def Image.paintedBy (res img : Image) (col : RGBA) (Q : Int → Int → Prop) : Prop :=
  res.rect = img.rect ∧
  ∀ a b, (Q a b ∧ img.inBounds a b = true → res.pix a b = col) ∧
    (¬ (Q a b ∧ img.inBounds a b = true) → res.pix a b = img.pix a b)

/-- An image library whose `DrawString` inks every pixel of the destination
with the source colour. -/
def solidImageLib : ImageLib :=
  { png := fun _ => "", drawString := fun _ c _ _ _ => fun _ _ => c }

/-- A white 160 by 60 canvas, the default size of the character challenge. -/
def sampleTextCanvas : Image :=
  ⟨0, 0, 160, 60, fun _ _ => ⟨255, 255, 255, 255⟩⟩

/-! ## Theorems -/

theorem float64OfNat_small (n : Nat) (h : n < 2 ^ 53) : float64OfNat n = n := by
  unfold float64OfNat
  rw [if_pos h]

theorem float64OfNat_large (n : Nat) (h : 2 ^ 53 ≤ n) : 2 ^ 52 ≤ float64OfNat n := by
  have hn : n ≠ 0 := by
    intro h0
    rw [h0] at h
    norm_num at h
  have hlog : 2 ^ Nat.log2 n ≤ n := Nat.log2_self_le hn
  have h53 : 53 ≤ Nat.log2 n := by
    rw [Nat.log2_eq_log_two]
    exact Nat.le_log_of_pow_le (by norm_num) h
  have hsplit : 2 ^ 52 * 2 ^ (Nat.log2 n - 52) = 2 ^ Nat.log2 n := by
    rw [← pow_add]
    congr 1
    omega
  have hpos : 0 < 2 ^ (Nat.log2 n - 52) := pow_pos (by norm_num) _
  have hq : 2 ^ 52 ≤ n / 2 ^ (Nat.log2 n - 52) := by
    rw [Nat.le_div_iff_mul_le hpos, hsplit]
    exact hlog
  have hone : 1 ≤ 2 ^ (Nat.log2 n - 52) := hpos
  have hbase : 2 ^ 52 ≤ n / 2 ^ (Nat.log2 n - 52) * 2 ^ (Nat.log2 n - 52) :=
    le_trans hq (Nat.le_mul_of_pos_right _ hpos)
  have hstep : n / 2 ^ (Nat.log2 n - 52) * 2 ^ (Nat.log2 n - 52)
      ≤ (n / 2 ^ (Nat.log2 n - 52) + 1) * 2 ^ (Nat.log2 n - 52) :=
    Nat.mul_le_mul_right _ (Nat.le_succ _)
  unfold float64OfNat
  rw [if_neg (by omega)]
  simp only []
  split_ifs
  · exact hbase
  · exact le_trans hbase hstep
  · exact hbase
  · exact le_trans hbase hstep

theorem float64OfNat_gt_five (n : Nat) : 5 < float64OfNat n ↔ 5 < n := by
  by_cases h : n < 2 ^ 53
  · rw [float64OfNat_small n h]
  · have h1 : 2 ^ 53 ≤ n := by omega
    have h2 := float64OfNat_large n h1
    constructor
    · intro _
      omega
    · intro _
      omega

theorem abs_float64OfInt (z : Int) : |float64OfInt z| = ((float64OfNat z.natAbs : Nat) : Int) := by
  unfold float64OfInt
  split_ifs
  · rw [abs_neg]
    exact abs_of_nonneg (Int.ofNat_nonneg _)
  · exact abs_of_nonneg (Int.ofNat_nonneg _)

theorem abs_float64OfInt_gt_five (z : Int) : 5 < |float64OfInt z| ↔ 5 < |z| := by
  rw [abs_float64OfInt, Int.abs_eq_natAbs]
  have h := float64OfNat_gt_five z.natAbs
  constructor
  · intro h1
    have h2 : 5 < float64OfNat z.natAbs := by exact_mod_cast h1
    have h3 := h.mp h2
    omega
  · intro h1
    have h3 : 5 < z.natAbs := by omega
    have h2 := h.mpr h3
    exact_mod_cast h2

theorem float64OfInt_five : float64OfInt 5 = 5 := by
  unfold float64OfInt
  rw [if_neg (by norm_num)]
  have : (5 : Int).natAbs = 5 := rfl
  rw [this, float64OfNat_small 5 (by norm_num)]
  rfl

theorem wrapInt64_of_range (z : Int) (h1 : -2 ^ 63 ≤ z) (h2 : z < 2 ^ 63) : wrapInt64 z = z := by
  unfold wrapInt64
  rw [Int.emod_eq_of_lt (by omega) (by omega)]
  omega

/-- The tolerance test of `SlideCaptcha.Verify`, on the wrapped difference. -/
theorem slide_verify_eq (c : SlideCaptcha) (targetX : Int) (a : SlideAnswer) :
    c.Verify targetX a = true ↔
      |wrapInt64 (targetX - a.X)| ≤ 5 ∧ 10 ≤ a.Track.length ∧
        500 ≤ a.Duration ∧ a.Duration ≤ 10000 := by
  unfold SlideCaptcha.Verify
  simp only [float64OfInt_five, gt_iff_lt, abs_float64OfInt_gt_five]
  split_ifs with h1 h2 h3
  · constructor
    · intro h; exact absurd h (by simp)
    · intro h; omega
  · constructor
    · intro h; exact absurd h (by simp)
    · intro h; omega
  · constructor
    · intro h; exact absurd h (by simp)
    · intro h; omega
  · constructor
    · intro _
      refine ⟨by omega, by omega, by omega, by omega⟩
    · intro _; rfl

/-- A secret and a submitted X at the two ends of the `int` range: the
subtraction wraps to 1, so the tolerance test passes although the true
distance is `2^64 - 1`. -/
theorem slide_verify_wraps :
    (-2 ^ 63 ≤ (-2 ^ 63 : Int) ∧ (2 ^ 63 - 1 : Int) < 2 ^ 63) ∧
    (NewSlideCaptcha ⟨350, 200, 60, 60, 0, "", ""⟩).Verify (-2 ^ 63)
        ⟨2 ^ 63 - 1, List.replicate 10 0, 500⟩ = true ∧
    ¬ (|(-2 ^ 63 : Int) - (2 ^ 63 - 1)| ≤ 5 ∧ 10 ≤ (List.replicate 10 (0 : Int)).length ∧
        (500 : Int) ≤ 500 ∧ (500 : Int) ≤ 10000) := by
  refine ⟨⟨by norm_num, by norm_num⟩, ?_, ?_⟩
  · rw [slide_verify_eq]
    refine ⟨?_, by simp, by norm_num, by norm_num⟩
    have h : wrapInt64 (-2 ^ 63 - (2 ^ 63 - 1)) = 1 := by
      unfold wrapInt64
      norm_num
    rw [h]
    norm_num
  · intro h
    have h1 := h.1
    rw [abs_le] at h1
    norm_num at h1

/-- C1 (amended): for every secret `targetX` that is at least 5 above the
smallest and at least 6 below the largest `int` (every secret the generator
produces) and every answer whose `X` is an `int`, `SlideCaptcha.Verify`
returns true exactly when `|targetX - X| ≤ 5`, the track has at least 10
samples and the duration lies in `[500, 10000]`. The subtraction may wrap; in
that range a wrapped difference is never within the tolerance. -/
theorem slide_verify_iff (c : SlideCaptcha) (targetX : Int) (a : SlideAnswer)
    (hX : isGoInt a.X) (hlo : -2 ^ 63 + 5 ≤ targetX) (hhi : targetX ≤ 2 ^ 63 - 6) :
    c.Verify targetX a = true ↔
      |targetX - a.X| ≤ 5 ∧ 10 ≤ a.Track.length ∧ 500 ≤ a.Duration ∧ a.Duration ≤ 10000 := by
  unfold isGoInt at hX
  have hw : |wrapInt64 (targetX - a.X)| ≤ 5 ↔ |targetX - a.X| ≤ 5 := by
    rw [abs_le, abs_le]
    unfold wrapInt64
    omega
  rw [slide_verify_eq, hw]

/-- The amended C1 at the boundary values named by the specification: secret
100, `X = 95` (distance 5), 10 track samples and duration 500 pass; with the
same secret the answer `X = -2^63`, for which the subtraction wraps, is
rejected. -/
theorem slide_verify_iff_witness :
    (NewSlideCaptcha ⟨350, 200, 60, 60, 0, "", ""⟩).Verify 100
        ⟨95, List.replicate 10 0, 500⟩ = true ∧
    ¬ ((NewSlideCaptcha ⟨350, 200, 60, 60, 0, "", ""⟩).Verify 100
        ⟨-2 ^ 63, List.replicate 10 0, 500⟩ = true) :=
  ⟨(slide_verify_iff (NewSlideCaptcha ⟨350, 200, 60, 60, 0, "", ""⟩) 100
      ⟨95, List.replicate 10 0, 500⟩ (by norm_num [isGoInt]) (by norm_num) (by norm_num)).mpr
    ⟨by norm_num [abs_le], by simp, by norm_num, by norm_num⟩,
   fun h => absurd
     ((slide_verify_iff (NewSlideCaptcha ⟨350, 200, 60, 60, 0, "", ""⟩) 100
      ⟨-2 ^ 63, List.replicate 10 0, 500⟩ (by norm_num [isGoInt]) (by norm_num)
      (by norm_num)).mp h).1 (by norm_num [abs_le])⟩

/-! ### Case folding -/

theorem sameFoldOrbit_refl (T : SimpleFoldTable) (a : Nat) : sameFoldOrbit T a a := ⟨0, rfl⟩

theorem sameFoldOrbit_symm (T : SimpleFoldTable) {a b : Nat} (h : sameFoldOrbit T a b) :
    sameFoldOrbit T b a := by
  obtain ⟨k, hk⟩ := h
  obtain ⟨m, hm, hfix⟩ := T.cycles a
  have hmul : ∀ n, T.fold^[n * m] a = a := by
    intro n
    induction n with
    | zero => simp
    | succ n ih =>
      have e : (n + 1) * m = n * m + m := by ring
      rw [e, Function.iterate_add_apply, hfix, ih]
  have hle : k ≤ k * m := Nat.le_mul_of_pos_right k hm
  refine ⟨k * m - k, ?_⟩
  rw [← hk, ← Function.iterate_add_apply]
  have e : k * m - k + k = k * m := by omega
  rw [e, hmul]

theorem sameFoldOrbit_step (T : SimpleFoldTable) {r hi : Nat} (h : sameFoldOrbit T r hi)
    (hlt : r < hi) : r < T.fold r ∧ T.fold r ≤ hi ∧ sameFoldOrbit T (T.fold r) hi := by
  obtain ⟨k, hk⟩ := h
  have hb := T.next_le r hi k hk hlt
  refine ⟨hb.1, hb.2, ?_⟩
  cases k with
  | zero =>
    simp at hk
    omega
  | succ k =>
    rw [Function.iterate_succ_apply] at hk
    exact ⟨k, hk⟩

/-- The inner loop of `strings.EqualFold` ends on `hi` exactly when `lo` and
`hi` are case-equivalent. -/
theorem simpleFoldSearch_eq_iff (T : SimpleFoldTable) (lo hi : Nat) (h : lo < hi) :
    simpleFoldSearch T lo hi = hi ↔ sameFoldOrbit T lo hi := by
  unfold simpleFoldSearch
  generalize_proofs hstop
  constructor
  · intro heq
    exact ⟨_, heq⟩
  · intro horb
    have inv : ∀ j, j ≤ Nat.find hstop →
        lo < T.fold^[j + 1] lo ∧ T.fold^[j + 1] lo ≤ hi ∧
          sameFoldOrbit T (T.fold^[j + 1] lo) hi := by
      intro j
      induction j with
      | zero =>
        intro _
        simpa using sameFoldOrbit_step T horb h
      | succ j ih =>
        intro hj
        have hjlt : j < Nat.find hstop := by omega
        have hnot : ¬ ¬ (T.fold^[j + 1] lo ≠ lo ∧ T.fold^[j + 1] lo < hi) :=
          Nat.find_min hstop hjlt
        rw [not_not] at hnot
        obtain ⟨h1, _, h3⟩ := ih (by omega)
        have hs := sameFoldOrbit_step T h3 hnot.2
        rw [Function.iterate_succ_apply']
        exact ⟨by omega, hs.2.1, hs.2.2⟩
    obtain ⟨h1, h2, _⟩ := inv (Nat.find hstop) (le_refl _)
    have hspec : ¬ (T.fold^[Nat.find hstop + 1] lo ≠ lo ∧ T.fold^[Nat.find hstop + 1] lo < hi) :=
      Nat.find_spec hstop
    have h3 : ¬ (T.fold^[Nat.find hstop + 1] lo < hi) := fun hc => hspec ⟨by omega, hc⟩
    omega

theorem asciiUpperLower_iff (T : SimpleFoldTable) (lo hi : Nat) (h : lo < hi) (h128 : hi < 128) :
    asciiUpperLower lo hi = true ↔ sameFoldOrbit T lo hi := by
  unfold asciiUpperLower sameFoldOrbit
  rw [T.ascii lo hi (by omega) h128 h, decide_eq_true_iff]
  constructor
  · rintro ⟨h1, h2, h3⟩
    exact ⟨h1, h2, by omega⟩
  · rintro ⟨h1, h2, h3⟩
    exact ⟨h1, h2, by omega⟩

theorem foldPairTest_iff (T : SimpleFoldTable) (sr tr : Nat) (hne : tr ≠ sr) :
    foldPairTest T sr tr = true ↔ sameFoldOrbit T sr tr := by
  unfold foldPairTest
  by_cases hlt : tr < sr
  · simp only [hlt, if_true]
    have hsym : sameFoldOrbit T tr sr ↔ sameFoldOrbit T sr tr :=
      ⟨sameFoldOrbit_symm T, sameFoldOrbit_symm T⟩
    split_ifs with h128
    · rw [asciiUpperLower_iff T tr sr hlt h128, hsym]
    · rw [decide_eq_true_iff, simpleFoldSearch_eq_iff T tr sr hlt, hsym]
  · simp only [hlt, if_false]
    have hlt2 : sr < tr := by omega
    split_ifs with h128
    · rw [asciiUpperLower_iff T sr tr hlt2 h128]
    · rw [decide_eq_true_iff, simpleFoldSearch_eq_iff T sr tr hlt2]

theorem foldPair_iff (T : SimpleFoldTable) (sr tr : Nat) :
    (decide (tr = sr) || foldPairTest T sr tr) = true ↔ sameFoldOrbit T sr tr := by
  by_cases h : tr = sr
  · subst h
    simp [sameFoldOrbit_refl]
  · simp only [h, decide_False, Bool.false_or]
    exact foldPairTest_iff T sr tr h

theorem equalFoldUnicode_cons (T : SimpleFoldTable) (sr tr : Nat) (s t : List Nat) :
    equalFoldUnicode T (sr :: s) (tr :: t) =
      ((decide (tr = sr) || foldPairTest T sr tr) && equalFoldUnicode T s t) := by
  rw [equalFoldUnicode]
  unfold foldPairTest
  by_cases h : tr = sr
  · simp [h]
  · simp only [h, if_false, decide_False, Bool.false_or]
    split_ifs <;> simp_all

theorem equalFoldUnicode_iff (T : SimpleFoldTable) (s t : List Nat) :
    equalFoldUnicode T s t = true ↔ List.Forall₂ (sameFoldOrbit T) s t := by
  induction s generalizing t with
  | nil =>
    cases t with
    | nil => simp [equalFoldUnicode]
    | cons tr t => simp [equalFoldUnicode]
  | cons sr s ih =>
    cases t with
    | nil => simp [equalFoldUnicode]
    | cons tr t =>
      rw [equalFoldUnicode_cons, Bool.and_eq_true, foldPair_iff, ih, List.forall₂_cons]

theorem equalFoldRunes_cons (T : SimpleFoldTable) (sr tr : Nat) (s t : List Nat) :
    equalFoldRunes T (sr :: s) (tr :: t) =
      ((decide (tr = sr) || foldPairTest T sr tr) &&
        (if 128 ≤ sr ∨ 128 ≤ tr then equalFoldUnicode T s t else equalFoldRunes T s t)) := by
  rw [equalFoldRunes]
  by_cases h128 : 128 ≤ sr ∨ 128 ≤ tr
  · rw [if_pos h128, if_pos h128, equalFoldUnicode_cons]
  · rw [if_neg h128, if_neg h128]
    have h1 : sr < 128 := by omega
    have h2 : tr < 128 := by omega
    unfold foldPairTest
    by_cases h : tr = sr
    · simp [h]
    · simp only [h, if_false, decide_False, Bool.false_or]
      split_ifs <;> simp_all

/-- Go `strings.EqualFold` on rune sequences decides position-wise
case-equivalence. -/
theorem equalFoldRunes_iff (T : SimpleFoldTable) (s t : List Nat) :
    equalFoldRunes T s t = true ↔ List.Forall₂ (sameFoldOrbit T) s t := by
  induction s generalizing t with
  | nil =>
    cases t with
    | nil => simp [equalFoldRunes]
    | cons tr t => simp [equalFoldRunes]
  | cons sr s ih =>
    cases t with
    | nil => simp [equalFoldRunes]
    | cons tr t =>
      rw [equalFoldRunes_cons, Bool.and_eq_true, foldPair_iff, List.forall₂_cons]
      split_ifs
      · rw [equalFoldUnicode_iff]
      · rw [ih]

/-! ### Character verification -/

/-- C2: for every stored code and every submitted answer,
`CharacterCaptcha.Verify(code, answer)` is true exactly when the answer equals
the code under case-insensitive comparison (simple Unicode case folding,
character by character); in particular `Verify("7K4B", "7k4b")` is true and
`Verify("7K4B", "7K4C")` is false. -/
theorem character_verify_iff (T : SimpleFoldTable) (c : CharacterCaptcha) (code answer : String) :
    (c.Verify T code answer = true ↔ equalIgnoreCase T code answer) ∧
    c.Verify T "7K4B" "7k4b" = true ∧ c.Verify T "7K4B" "7K4C" = false := by
  refine ⟨?_, ?_, ?_⟩
  · unfold CharacterCaptcha.Verify EqualFold equalIgnoreCase
    exact equalFoldRunes_iff T _ _
  · simp [CharacterCaptcha.Verify, EqualFold, runes, equalFoldRunes, asciiUpperLower]
  · simp [CharacterCaptcha.Verify, EqualFold, runes, equalFoldRunes, asciiUpperLower]

theorem forall₂_set_get {R : Nat → Nat → Prop} (l : List Nat) (i x old : Nat)
    (hold : l[i]? = some old) (h : List.Forall₂ R l (l.set i x)) : R old x := by
  induction l generalizing i with
  | nil => simp at hold
  | cons a l ih =>
    cases i with
    | zero =>
      simp only [List.set_cons_zero, List.forall₂_cons] at h
      simp only [List.getElem?_cons_zero, Option.some.injEq] at hold
      rw [← hold]
      exact h.1
    | succ i =>
      simp only [List.set_cons_succ, List.forall₂_cons] at h
      simp only [List.getElem?_cons_succ] at hold
      exact ih i hold h.2

/-- The code `7K4B` is drawn from the generation alphabet and `7k4B` differs
from it in exactly one character (`k` for `K`), yet verification succeeds,
whatever the folding table. -/
theorem character_verify_accepts_case_mutation :
    (∀ ch ∈ "7K4B".toList, ch ∈ charset.toList) ∧
    "7K4B".toList[1]? = some 'K' ∧ 'k' ≠ 'K' ∧ mutateAt "7K4B" 1 'k' = "7k4B" ∧
    ∀ (T : SimpleFoldTable) (c : CharacterCaptcha),
      c.Verify T "7K4B" (mutateAt "7K4B" 1 'k') = true := by
  refine ⟨by decide, by decide, by decide, by decide, ?_⟩
  intro T c
  simp [CharacterCaptcha.Verify, EqualFold, runes, equalFoldRunes, asciiUpperLower, mutateAt]

/-- C3 (amended): replacing one character of a code by a character that is
not case-equivalent to it makes `CharacterCaptcha.Verify` return false. -/
theorem character_verify_rejects_mutation (T : SimpleFoldTable) (c : CharacterCaptcha)
    (code : String) (i : Nat) (old new : Char) (hold : code.toList[i]? = some old)
    (hnew : ¬ sameFoldOrbit T old.toNat new.toNat) :
    c.Verify T code (mutateAt code i new) = false := by
  rw [← Bool.not_eq_true]
  intro h
  unfold CharacterCaptcha.Verify EqualFold at h
  rw [equalFoldRunes_iff] at h
  have hr : runes (mutateAt code i new) = (runes code).set i new.toNat := by
    unfold runes mutateAt
    simp [List.map_set]
  rw [hr] at h
  have hold2 : (runes code)[i]? = some old.toNat := by
    unfold runes
    rw [List.getElem?_map, hold]
    rfl
  exact hnew (forall₂_set_get _ i _ _ hold2 h)

/-- The amended C3 on the code `7K4B` with its last character replaced by
`C`, under the ASCII folding table. -/
theorem character_verify_rejects_mutation_witness :
    (NewCharacterCaptcha ⟨0, 0, 0, 0, 0⟩).Verify asciiFoldTable "7K4B"
      (mutateAt "7K4B" 3 'C') = false :=
  character_verify_rejects_mutation asciiFoldTable (NewCharacterCaptcha ⟨0, 0, 0, 0, 0⟩)
    "7K4B" 3 'B' 'C' (by decide)
    (by
      intro h
      have h2 := (asciiFoldTable.ascii 66 67 (by norm_num) (by norm_num) (by norm_num)).mp h
      omega)

/-! ### Image selection -/

theorem buildSelectedMap_iff (S : List Int) (k : Int) : buildSelectedMap S k = true ↔ k ∈ S := by
  unfold buildSelectedMap
  have gen : ∀ (l : List Int) (m : Int → Bool),
      l.foldl (fun m idx => fun k => if k = idx then true else m k) m k = true ↔
        (k ∈ l ∨ m k = true) := by
    intro l
    induction l with
    | nil => intro m; simp
    | cons a l ih =>
      intro m
      rw [List.foldl_cons, ih]
      by_cases h : k = a
      · simp [h]
      · simp [h]
  rw [gen]
  simp

theorem allTargetsSelected_iff (m : Int → Bool) (T : List Int) :
    allTargetsSelected m T = true ↔ ∀ t ∈ T, m t = true := by
  induction T with
  | nil => simp [allTargetsSelected]
  | cons a T ih =>
    rw [allTargetsSelected]
    by_cases h : m a = true
    · simp [h, ih]
    · simp [h]

/-- Characterisation of `ImageSelectCaptcha.Verify`, shared by the results
on image selection. -/
theorem imageSelect_verify_spec (c : ImageSelectCaptcha) (T S : List Int) :
    c.Verify T S = true ↔ ((S.length : Int) = c.config.SelectCount ∧ ∀ t ∈ T, t ∈ S) := by
  unfold ImageSelectCaptcha.Verify
  by_cases h : (S.length : Int) = c.config.SelectCount
  · simp only [h, ne_eq, not_true_eq_false, if_false, true_and]
    rw [allTargetsSelected_iff]
    simp only [buildSelectedMap_iff]
  · simp [h]

/-- C4: `ImageSelectCaptcha.Verify(T, S)` is true exactly when the submitted
list has the configured select count as its length and every target occurs in
it; submitted indexes that are not targets play no role. -/
theorem imageSelect_verify_iff (c : ImageSelectCaptcha) (T S : List Int) :
    c.Verify T S = true ↔ ((S.length : Int) = c.config.SelectCount ∧ ∀ t ∈ T, t ∈ S) :=
  imageSelect_verify_spec c T S

/-- C5: when the targets are `k` pairwise distinct indexes and the select
count is `k`, `ImageSelectCaptcha.Verify(T, S)` is true exactly when `S` is a
rearrangement of `T`; it is false when a target is missing from `S` and when
the length of `S` is not `k`. -/
theorem imageSelect_verify_exact (c : ImageSelectCaptcha) (T S : List Int) (k : Nat)
    (hk : 1 ≤ k) (hlen : T.length = k) (hnodup : T.Nodup) (hcount : c.config.SelectCount = k) :
    (c.Verify T S = true ↔ S.Perm T) ∧
    ((∃ t ∈ T, t ∉ S) → c.Verify T S = false) ∧
    (S.length ≠ k → c.Verify T S = false) := by
  have _ := hk
  have key := imageSelect_verify_spec c T S
  rw [hcount] at key
  refine ⟨?_, ?_, ?_⟩
  · rw [key]
    constructor
    · rintro ⟨h1, h2⟩
      have hl : S.length = k := by exact_mod_cast h1
      have hsub : T ⊆ S := fun t ht => h2 t ht
      have hsp : T.Subperm S := List.subperm_of_subset hnodup hsub
      exact (hsp.perm_of_length_le (by omega)).symm
    · intro hp
      refine ⟨?_, fun t ht => hp.symm.subset ht⟩
      have := hp.length_eq
      exact_mod_cast (by omega : S.length = k)
  · rintro ⟨t, ht, hts⟩
    rw [← Bool.not_eq_true, key]
    rintro ⟨_, h2⟩
    exact hts (h2 t ht)
  · intro hne
    rw [← Bool.not_eq_true, key]
    rintro ⟨h1, _⟩
    exact hne (by exact_mod_cast h1)

/-- The statement of C5 for targets `[2, 0]` and select count 2: the
submission `[0, 2]` is a rearrangement of the targets and is accepted. -/
theorem imageSelect_verify_exact_witness :
    (NewImageSelectCaptcha ⟨4, 2, 0, "traffic", ""⟩).Verify [2, 0] [0, 2] = true :=
  (imageSelect_verify_exact (NewImageSelectCaptcha ⟨4, 2, 0, "traffic", ""⟩) [2, 0] [0, 2] 2
    (by decide) (by decide) (by decide) (by decide)).1.mpr (by decide)

/-! ### Service: one-time use and frame -/

theorem verify_of_absentInMem (T : SimpleFoldTable) (s : Service) (req : VerifyRequest)
    (h : s.absentInMem req.CaptchaID) : s.Verify T req = (false, none) := by
  obtain ⟨m, hm, hnone⟩ := h
  unfold Service.Verify
  rw [hm]
  simp only [Store.Get, MemStore.Get, hnone]
  rfl

theorem verifyAndDelete_of_absentInMem (T : SimpleFoldTable) (s : Service) (req : VerifyRequest)
    (h : s.absentInMem req.CaptchaID) : s.VerifyAndDelete T req = ((false, none), s) := by
  unfold Service.VerifyAndDelete
  rw [verify_of_absentInMem T s req h]
  rfl

/-- The three ways `Service.VerifyAndDelete` can end. -/
theorem verifyAndDelete_cases (T : SimpleFoldTable) (s : Service) (req : VerifyRequest) :
    ((s.VerifyAndDelete T req).1 = (true, none) ∧ s.Verify T req = (true, none) ∧
        (s.VerifyAndDelete T req).2 = { s with store := (s.store.Del req.CaptchaID).2 }) ∨
    ((s.VerifyAndDelete T req).1 = (false, none) ∧ s.Verify T req = (false, none) ∧
        (s.VerifyAndDelete T req).2 = s) ∨
    (∃ err, (s.VerifyAndDelete T req).1 = (false, some err) ∧ (s.Verify T req).2 = some err ∧
        (s.VerifyAndDelete T req).2 = s) := by
  unfold Service.VerifyAndDelete
  rcases hv : s.Verify T req with ⟨valid, err⟩
  cases err with
  | some e =>
    right; right
    exact ⟨e, rfl, rfl, rfl⟩
  | none =>
    cases valid with
    | true => left; exact ⟨rfl, rfl, rfl⟩
    | false => right; left; exact ⟨rfl, rfl, rfl⟩

theorem absentInMem_del (s : Service) (m : MemStore) (hm : s.store = Store.mem m)
    (id : String) :
    Service.absentInMem { s with store := (s.store.Del id).2 } id := by
  refine ⟨(m.Del id).2, ?_, ?_⟩
  · show (s.store.Del id).2 = _
    rw [hm]
    rfl
  · simp [MemStore.Del]

theorem absentInMem_del_other (s : Service) (id other : String) (h : s.absentInMem id) :
    Service.absentInMem { s with store := (s.store.Del other).2 } id := by
  obtain ⟨m, hm, hnone⟩ := h
  refine ⟨(m.Del other).2, ?_, ?_⟩
  · show (s.store.Del other).2 = _
    rw [hm]
    rfl
  · simp only [MemStore.Del]
    split_ifs
    · rfl
    · exact hnone

theorem absentInMem_set_other (s : Service) (id other : String) (data : SecretData)
    (expireTime : Int) (hne : other ≠ id) (h : s.absentInMem id) :
    Service.absentInMem { s with store := (s.store.Set other data expireTime).2 } id := by
  obtain ⟨m, hm, hnone⟩ := h
  refine ⟨(m.Set other data expireTime).2, ?_, ?_⟩
  · show (s.store.Set other data expireTime).2 = _
    rw [hm]
    rfl
  · simp only [MemStore.Set]
    rw [if_neg (fun h => hne h.symm)]
    exact hnone

/-- The store after `Service.Generate`: untouched, or after one `Set` under
the drawn identifier. -/
theorem generate_store (s : Service) (captchaType captchaID : String) (now : Int)
    (g : Generators) :
    (s.Generate captchaType captchaID now g).2 = s ∨
    ∃ data expireTime, (s.Generate captchaType captchaID now g).2 =
      { s with store := (s.store.Set captchaID data expireTime).2 } := by
  unfold Service.Generate
  simp only []
  split
  · left; rfl
  · rename_i data expireTime captchaData _
    right
    refine ⟨data, expireTime, ?_⟩
    split
    · rename_i err store heq
      have : store = (s.store.Set captchaID data expireTime).2 := by rw [heq]
      rw [this]
    · rename_i store heq
      have : store = (s.store.Set captchaID data expireTime).2 := by rw [heq]
      rw [this]

theorem absentInMem_step (T : SimpleFoldTable) (s : Service) (id : String) (op : Op)
    (hfresh : ¬ op.generates id) (h : s.absentInMem id) : (s.step T op).absentInMem id := by
  cases op with
  | verify req => exact h
  | verifyAndDelete req =>
    show Service.absentInMem (s.VerifyAndDelete T req).2 id
    rcases verifyAndDelete_cases T s req with ⟨_, _, h2⟩ | ⟨_, _, h2⟩ | ⟨_, _, _, h2⟩
    · rw [h2]
      exact absentInMem_del_other s id req.CaptchaID h
    · rw [h2]; exact h
    · rw [h2]; exact h
  | generate captchaType captchaID now g =>
    show Service.absentInMem (s.Generate captchaType captchaID now g).2 id
    have hne : captchaID ≠ id := fun e => hfresh e
    rcases generate_store s captchaType captchaID now g with h2 | ⟨data, expireTime, h2⟩
    · rw [h2]; exact h
    · rw [h2]
      exact absentInMem_set_other s id captchaID data expireTime hne h
  | expire captchaID =>
    obtain ⟨m, hm, hnone⟩ := h
    refine ⟨m.expire captchaID, ?_, ?_⟩
    · show s.store.expire captchaID = _
      rw [hm]
      rfl
    · simp only [MemStore.expire]
      split_ifs
      · rfl
      · exact hnone

theorem absentInMem_run (T : SimpleFoldTable) (id : String) (ops : List Op) :
    ∀ s : Service, (∀ op ∈ ops, ¬ op.generates id) → s.absentInMem id →
      (s.run T ops).absentInMem id := by
  induction ops with
  | nil => intro s _ h; exact h
  | cons op ops ih =>
    intro s hfresh h
    show Service.absentInMem (Service.run T (s.step T op) ops) id
    exact ih (s.step T op) (fun o ho => hfresh o (List.mem_cons_of_mem _ ho))
      (absentInMem_step T s id op (hfresh op (List.mem_cons_self _ _)) h)

/-- C6: over the in-memory store, once `VerifyAndDelete` has returned true
for an identifier, every later `Verify` and `VerifyAndDelete` with that
identifier returns `(false, nil)`, whatever the answer and whatever calls and
expiries happen in between (no later `Generate` draws the same identifier
again). -/
theorem one_time_use (T : SimpleFoldTable) (s : Service) (m : MemStore)
    (hmem : s.store = Store.mem m) (req : VerifyRequest)
    (hok : (s.VerifyAndDelete T req).1 = (true, none))
    (ops : List Op) (hfresh : ∀ op ∈ ops, ¬ op.generates req.CaptchaID)
    (later : VerifyRequest) (hid : later.CaptchaID = req.CaptchaID) :
    ((s.VerifyAndDelete T req).2.run T ops).Verify T later = (false, none) ∧
    (((s.VerifyAndDelete T req).2.run T ops).VerifyAndDelete T later).1 = (false, none) := by
  have habs : Service.absentInMem (s.VerifyAndDelete T req).2 req.CaptchaID := by
    rcases verifyAndDelete_cases T s req with ⟨_, _, h2⟩ | ⟨h1, _, _⟩ | ⟨err, h1, _, _⟩
    · rw [h2]
      exact absentInMem_del s m hmem req.CaptchaID
    · rw [h1] at hok
      exact absurd hok (by simp)
    · rw [h1] at hok
      exact absurd hok (by simp)
  have hrun := absentInMem_run T req.CaptchaID ops _ hfresh habs
  rw [← hid] at hrun
  exact ⟨verify_of_absentInMem T _ later hrun, by rw [verifyAndDelete_of_absentInMem T _ later hrun]⟩

/-- The scenario of C6: a character challenge is generated under `id-1`, a
correct answer is verified and deleted, and a second verification of the same
request, after another `Verify` call, is a miss. -/
theorem one_time_use_witness :
    (sampleCharacterService.VerifyAndDelete asciiFoldTable sampleCharacterRequest).1
        = (true, none) ∧
    (((sampleCharacterService.VerifyAndDelete asciiFoldTable sampleCharacterRequest).2.run
        asciiFoldTable [Op.verify sampleCharacterRequest]).Verify asciiFoldTable
        sampleCharacterRequest = (false, none)) :=
  ⟨by decide,
   (one_time_use asciiFoldTable sampleCharacterService
      (NewMemStore.Set "id-1" (SecretData.character { Code := "7K4B" }) 0).2 rfl
      sampleCharacterRequest (by decide) [Op.verify sampleCharacterRequest]
      (by
        intro op hop
        rw [List.mem_singleton] at hop
        subst hop
        exact fun h => h)
      sampleCharacterRequest rfl).1⟩

theorem verify_true_get_ok (T : SimpleFoldTable) (s : Service) (req : VerifyRequest)
    (h : (s.Verify T req).1 = true) : ∃ value, s.store.Get req.CaptchaID = .ok value := by
  unfold Service.Verify at h
  rcases hg : s.store.Get req.CaptchaID with err | value
  · rw [hg] at h
    simp only [] at h
    split_ifs at h
  · exact ⟨value, rfl⟩

theorem string_append_left_cancel (a b c : String) (h : a ++ b = a ++ c) : b = c := by
  have h2 := congrArg String.data h
  simp only [String.data_append] at h2
  exact String.ext (List.append_cancel_left h2)

theorem contents_del_other (st : Store) (id k : String) (hk : k ≠ id) :
    (st.Del id).2.contents k = st.contents k := by
  cases st with
  | mem m => simp [Store.Del, Store.contents, MemStore.Del, hk]
  | redis r =>
    have hne : r.keyPrefix ++ k ≠ r.keyPrefix ++ id :=
      fun e => hk (string_append_left_cancel _ _ _ e)
    cases hd : r.client.delDown <;>
      simp [Store.Del, Store.contents, RedisStore.Del, RedisClient.Del, hd, hne]

theorem contents_del_ok (st : Store) (id : String) (h : (st.Del id).1 = none) :
    (st.Del id).2.contents id = none := by
  cases st with
  | mem m => simp [Store.Del, Store.contents, MemStore.Del]
  | redis r =>
    cases hd : r.client.delDown with
    | false => simp [Store.Del, Store.contents, RedisStore.Del, RedisClient.Del, hd]
    | true => simp [Store.Del, RedisStore.Del, RedisClient.Del, hd] at h

theorem del_failed (st : Store) (id : String) (h : (st.Del id).1 ≠ none) :
    (st.Del id).2 = st := by
  cases st with
  | mem m => exact absurd rfl h
  | redis r =>
    cases hd : r.client.delDown with
    | false => simp [Store.Del, RedisStore.Del, RedisClient.Del, hd] at h
    | true => simp [Store.Del, RedisStore.Del, RedisClient.Del, hd]

/-- C7 (counterexample): over a Redis server that answers `GET` but not
`DEL`, `VerifyAndDelete` with the correct answer returns `(true, nil)`, the
error of `Del` being discarded, and the identifier is still stored. -/
theorem verifyAndDelete_true_keeps_key :
    (sampleRedisDelDownService.VerifyAndDelete asciiFoldTable sampleCharacterRequest).1
      = (true, none) ∧
    ((sampleRedisDelDownService.VerifyAndDelete asciiFoldTable
        sampleCharacterRequest).2.store.contents "id-1").isSome = true ∧
    (sampleRedisDelDownService.store.contents "id-1").isSome = true :=
  ⟨by decide, by decide, by decide⟩

/-- C7 (amended): `Service.VerifyAndDelete` leaves the service, store
included, exactly as it was when it returns false or an error, so the
challenge stays verifiable. When it returns true it has called `Del` once for
the identifier and nothing else: every other identifier keeps its contents;
the identifier is gone when `Del` reports no error, which is always so over
the in-memory store; when `Del` fails its error is discarded and the store is
as it was. -/
theorem verifyAndDelete_frame (T : SimpleFoldTable) (s : Service) (req : VerifyRequest) :
    ((s.VerifyAndDelete T req).1.1 = false → (s.VerifyAndDelete T req).2 = s) ∧
    ((s.VerifyAndDelete T req).1.2 ≠ none → (s.VerifyAndDelete T req).2 = s) ∧
    ((s.VerifyAndDelete T req).1.1 = true →
      (s.VerifyAndDelete T req).2 = { s with store := (s.store.Del req.CaptchaID).2 } ∧
      (∀ k, k ≠ req.CaptchaID →
        (s.VerifyAndDelete T req).2.store.contents k = s.store.contents k) ∧
      ((s.store.Del req.CaptchaID).1 = none →
        (s.VerifyAndDelete T req).2.store.contents req.CaptchaID = none) ∧
      ((s.store.Del req.CaptchaID).1 ≠ none → (s.VerifyAndDelete T req).2 = s) ∧
      (∀ m, s.store = Store.mem m →
        (s.VerifyAndDelete T req).2.store.contents req.CaptchaID = none)) := by
  rcases verifyAndDelete_cases T s req with ⟨h1, _, h2⟩ | ⟨h1, _, h2⟩ | ⟨err, h1, _, h2⟩
  · refine ⟨?_, ?_, ?_⟩
    · intro h; rw [h1] at h; exact absurd h (by simp)
    · intro h; rw [h1] at h; exact absurd rfl h
    · intro _
      rw [h2]
      refine ⟨rfl, fun k hk => contents_del_other s.store req.CaptchaID k hk,
        fun hok => contents_del_ok s.store req.CaptchaID hok, ?_, ?_⟩
      · intro hfail
        rw [del_failed s.store req.CaptchaID hfail]
      · intro m hm
        apply contents_del_ok s.store req.CaptchaID
        rw [hm]
        rfl
  · refine ⟨fun _ => h2, fun _ => h2, ?_⟩
    intro h; rw [h1] at h; exact absurd h (by simp)
  · refine ⟨fun _ => h2, fun _ => h2, ?_⟩
    intro h; rw [h1] at h; exact absurd h (by simp)

/-- The three cases of the amended C7 on the sample service over the
in-memory store: a wrong answer and an unsupported type leave the service as
it was, the correct answer removes `id-1`. -/
theorem verifyAndDelete_frame_witness :
    (sampleCharacterService.VerifyAndDelete asciiFoldTable sampleWrongRequest).2
        = sampleCharacterService ∧
    (sampleCharacterService.VerifyAndDelete asciiFoldTable sampleUnknownTypeRequest).2
        = sampleCharacterService ∧
    (sampleCharacterService.VerifyAndDelete asciiFoldTable
        sampleCharacterRequest).2.store.contents "id-1" = none :=
  ⟨(verifyAndDelete_frame asciiFoldTable sampleCharacterService sampleWrongRequest).1
      (by decide),
   (verifyAndDelete_frame asciiFoldTable sampleCharacterService sampleUnknownTypeRequest).2.1
      (by decide),
   ((verifyAndDelete_frame asciiFoldTable sampleCharacterService sampleCharacterRequest).2.2
      (by decide)).2.2.1 (by decide)⟩

/-- C8 (the code at the failing input): over a reachable Redis server that
does not hold the key, `RedisStore.Get` returns `redis.Nil` wrapped by
`fmt.Errorf`, which is not `ErrCaptchaNotFound`, and `Service.Verify` returns
that error wrapped once more instead of `(false, nil)`. -/
theorem redis_miss_is_error :
    (NewRedisStore { db := fun _ => none, down := false } "captcha:").Get "id-1"
        = .error (Err.wrap "failed to get captcha" Err.redisNil) ∧
    Err.wrap "failed to get captcha" Err.redisNil ≠ Err.ErrCaptchaNotFound ∧
    ∀ T : SimpleFoldTable,
      sampleRedisService.Verify T sampleCharacterRequest
        = (false, some (Err.wrap "failed to get captcha"
            (Err.wrap "failed to get captcha" Err.redisNil))) := by
  refine ⟨rfl, by decide, ?_⟩
  intro T
  rfl

/-- A request with an unrecognised modality tag for an identifier that the
in-memory store does not hold: `Service.Verify` reads the store first and
returns `(false, nil)`, not `ErrCaptchaTypeNotSupported`. -/
theorem verify_unknown_type_absent :
    sampleUnknownTypeRequest.CaptchaType ≠ CaptchaTypeCharacter ∧
    sampleUnknownTypeRequest.CaptchaType ≠ CaptchaTypeImageSelect ∧
    sampleUnknownTypeRequest.CaptchaType ≠ SlideTypeSelect ∧
    (∀ T : SimpleFoldTable, sampleService.Verify T sampleUnknownTypeRequest = (false, none)) ∧
    (false, (none : Option Err)) ≠ (false, some Err.ErrCaptchaTypeNotSupported) := by
  refine ⟨by decide, by decide, by decide, ?_, by decide⟩
  intro T
  rfl

/-- C9 (amended): `Service.Verify` reads the store before it looks at the
modality tag. For a tag that is none of the three it fails with
`ErrCaptchaTypeNotSupported` whenever the store returns a value for the
identifier; when the store reports `ErrCaptchaNotFound` the result is
`(false, nil)`, and any other store error is returned wrapped. -/
theorem verify_unsupported_type (T : SimpleFoldTable) (s : Service) (req : VerifyRequest)
    (h1 : req.CaptchaType ≠ CaptchaTypeCharacter)
    (h2 : req.CaptchaType ≠ CaptchaTypeImageSelect)
    (h3 : req.CaptchaType ≠ SlideTypeSelect) :
    (∀ value, s.store.Get req.CaptchaID = .ok value →
      s.Verify T req = (false, some Err.ErrCaptchaTypeNotSupported)) ∧
    (s.store.Get req.CaptchaID = .error Err.ErrCaptchaNotFound →
      s.Verify T req = (false, none)) ∧
    (∀ err, err ≠ Err.ErrCaptchaNotFound → s.store.Get req.CaptchaID = .error err →
      s.Verify T req = (false, some (Err.wrap "failed to get captcha" err))) := by
  refine ⟨?_, ?_, ?_⟩
  · intro value hget
    unfold Service.Verify
    rw [hget]
    simp only [if_neg h1, if_neg h2, if_neg h3]
  · intro hget
    unfold Service.Verify
    rw [hget]
    simp
  · intro err hne hget
    unfold Service.Verify
    rw [hget]
    simp only [if_neg hne]

/-- The amended C9 on the sample service: the identifier `id-1` is stored,
the tag `audio` is unknown, and `Verify` fails with
`ErrCaptchaTypeNotSupported`. -/
theorem verify_unsupported_type_witness :
    sampleCharacterService.Verify asciiFoldTable sampleUnknownTypeRequest
      = (false, some Err.ErrCaptchaTypeNotSupported) :=
  (verify_unsupported_type asciiFoldTable sampleCharacterService sampleUnknownTypeRequest
    (by decide) (by decide) (by decide)).1
    (Blob.json (marshalSecret (SecretData.character { Code := "7K4B" }))) rfl

/-! ### Decoding of answer payloads -/

theorem unmarshalString_isSome (cur : String) (v : JSON) :
    (unmarshalString cur v).isSome = isStringValue v := by
  cases v <;> rfl

theorem unmarshalInt_isSome (cur : Int) (v : JSON) :
    (unmarshalInt cur v).isSome = isIntValue v := by
  cases v with
  | num n =>
    show (if -2 ^ 63 ≤ n ∧ n < 2 ^ 63 then some n else none).isSome
      = decide (-2 ^ 63 ≤ n ∧ n < 2 ^ 63)
    by_cases h : -2 ^ 63 ≤ n ∧ n < 2 ^ 63
    · rw [if_pos h, decide_eq_true h]
      rfl
    · rw [if_neg h, decide_eq_false h]
      rfl
  | _ => rfl

theorem unmarshalIntElems_isSome (xs : List JSON) :
    ∀ backing : List Int, (unmarshalIntElems backing xs).isSome = xs.all isIntValue := by
  induction xs with
  | nil => intro backing; rfl
  | cons x xs ih =>
    intro backing
    rw [unmarshalIntElems, List.all_cons, ← unmarshalInt_isSome (backing.headD 0) x,
      ← ih backing.tail]
    cases unmarshalInt (backing.headD 0) x with
    | none => rfl
    | some v =>
      cases unmarshalIntElems backing.tail xs with
      | none => rfl
      | some rest => rfl

theorem unmarshalIntSlice_isSome (cur : IntSlice) (v : JSON) :
    (unmarshalIntSlice cur v).isSome = isIntSliceValue v := by
  cases v with
  | arr xs =>
    cases xs with
    | nil => rfl
    | cons x xs =>
      rw [unmarshalIntSlice]
      have h := unmarshalIntElems_isSome (x :: xs) (cur.elems ++ cur.spare)
      show _ = (x :: xs).all isIntValue
      rw [← h]
      cases unmarshalIntElems (cur.elems ++ cur.spare) (x :: xs) with
      | none => rfl
      | some vs => rfl
  | _ => rfl

theorem foldlM_none_of_mem {σ α : Type} (f : σ → α → Option σ) (l : List α) (x : α)
    (hx : x ∈ l) (hbad : ∀ st, f st x = none) : ∀ init, l.foldlM f init = none := by
  induction l with
  | nil => simp at hx
  | cons a l ih =>
    intro init
    rw [List.foldlM_cons]
    rcases List.mem_cons.mp hx with h | h
    · subst h
      rw [hbad init]
      rfl
    · cases f init a with
      | none => rfl
      | some st => exact ih h st

theorem foldlM_isSome {σ α : Type} (f : σ → α → Option σ) (l : List α)
    (hgood : ∀ x ∈ l, ∀ st, (f st x).isSome = true) :
    ∀ init, (l.foldlM f init).isSome = true := by
  induction l with
  | nil => intro init; rfl
  | cons a l ih =>
    intro init
    rw [List.foldlM_cons]
    have h := hgood a (List.mem_cons_self _ _) init
    cases hfa : f init a with
    | none => rw [hfa] at h; simp at h
    | some st => exact ih (fun x hx => hgood x (List.mem_cons_of_mem _ hx)) st

/-- When every object entry either always fails or always succeeds,
`unmarshalStruct` fails exactly on the documents that are neither an object
nor `null` and on the objects with a failing entry. -/
theorem unmarshalStruct_none_iff {σ : Type} (setField : σ → String → JSON → Option σ)
    (init : σ) (bad : String × JSON → Prop)
    (hbad : ∀ kv, bad kv → ∀ st, setField st kv.1 kv.2 = none)
    (hgood : ∀ kv, ¬ bad kv → ∀ st, (setField st kv.1 kv.2).isSome = true) (j : JSON) :
    unmarshalStruct setField init j = none ↔
      (j ≠ JSON.null ∧ ∀ kvs, j = JSON.obj kvs → ∃ kv ∈ kvs, bad kv) := by
  cases j with
  | null => simp [unmarshalStruct]
  | obj kvs =>
    simp only [unmarshalStruct, ne_eq, not_false_eq_true, JSON.obj.injEq,
      forall_eq', true_and, reduceCtorEq]
    constructor
    · intro hnone
      by_contra hno
      have hall : ∀ kv ∈ kvs, ∀ st, (setField st kv.1 kv.2).isSome = true :=
        fun kv hkv => hgood kv (fun hb => hno ⟨kv, hkv, hb⟩)
      have := foldlM_isSome (fun st kv => setField st kv.1 kv.2) kvs hall init
      rw [hnone] at this
      simp at this
    · rintro ⟨kv, hkv, hb⟩
      exact foldlM_none_of_mem (fun st kv => setField st kv.1 kv.2) kvs kv hkv (hbad kv hb) init
  | bool b => simp [unmarshalStruct]
  | num n => simp [unmarshalStruct]
  | numOther lit => simp [unmarshalStruct]
  | str t => simp [unmarshalStruct]
  | arr xs => simp [unmarshalStruct]

theorem keyMatches_length (T : SimpleFoldTable) (name key : String)
    (h : keyMatches T name key = true) : (runes key).length = (runes name).length := by
  unfold keyMatches at h
  rw [Bool.or_eq_true] at h
  rcases h with h | h
  · rw [decide_eq_true_iff] at h
    rw [h]
  · unfold EqualFold at h
    rw [equalFoldRunes_iff] at h
    exact h.length_eq.symm

theorem option_map_eq_none {α β : Type} (f : α → β) (o : Option α) :
    o.map f = none ↔ o = none := by
  cases o <;> simp

theorem option_map_isSome {α β : Type} (f : α → β) (o : Option α) :
    (o.map f).isSome = o.isSome := by
  cases o <;> rfl

theorem isSome_false_eq_none {α : Type} (o : Option α) (h : o.isSome = false) : o = none := by
  cases o with
  | none => rfl
  | some a => simp at h

theorem unmarshalCharacterAnswer_none_iff (T : SimpleFoldTable) (j : JSON) :
    unmarshalCharacterAnswer T j = none ↔
      (j ≠ JSON.null ∧
        ∀ kvs, j = JSON.obj kvs → ∃ kv ∈ kvs, entryWrong T characterAnswerFields kv) := by
  unfold unmarshalCharacterAnswer
  apply unmarshalStruct_none_iff
  · rintro kv ⟨f, hf, hmatch, hval⟩ st
    simp only [characterAnswerFields, List.mem_singleton] at hf
    subst hf
    simp only [] at hmatch hval
    rw [if_pos hmatch, option_map_eq_none]
    apply isSome_false_eq_none
    rw [unmarshalString_isSome, hval]
  · intro kv hgood st
    by_cases hmatch : keyMatches T "code" kv.1 = true
    · rw [if_pos hmatch, option_map_isSome, unmarshalString_isSome]
      by_contra hval
      exact hgood ⟨("code", isStringValue), by simp [characterAnswerFields], hmatch,
        by simpa using hval⟩
    · rw [if_neg hmatch]
      rfl

theorem unmarshalImageSelectAnswer_none_iff (T : SimpleFoldTable) (j : JSON) :
    unmarshalImageSelectAnswer T j = none ↔
      (j ≠ JSON.null ∧
        ∀ kvs, j = JSON.obj kvs → ∃ kv ∈ kvs, entryWrong T imageSelectAnswerFields kv) := by
  unfold unmarshalImageSelectAnswer
  rw [option_map_eq_none]
  apply unmarshalStruct_none_iff
  · rintro kv ⟨f, hf, hmatch, hval⟩ st
    simp only [imageSelectAnswerFields, List.mem_singleton] at hf
    subst hf
    simp only [] at hmatch hval
    rw [if_pos hmatch]
    apply isSome_false_eq_none
    rw [unmarshalIntSlice_isSome, hval]
  · intro kv hgood st
    by_cases hmatch : keyMatches T "selectedIndexes" kv.1 = true
    · rw [if_pos hmatch, unmarshalIntSlice_isSome]
      by_contra hval
      exact hgood ⟨("selectedIndexes", isIntSliceValue), by simp [imageSelectAnswerFields],
        hmatch, by simpa using hval⟩
    · rw [if_neg hmatch]
      rfl

theorem unmarshalSlideAnswer_none_iff (T : SimpleFoldTable) (j : JSON) :
    unmarshalSlideAnswer T j = none ↔
      (j ≠ JSON.null ∧
        ∀ kvs, j = JSON.obj kvs → ∃ kv ∈ kvs, entryWrong T slideAnswerFields kv) := by
  unfold unmarshalSlideAnswer
  rw [option_map_eq_none]
  have hx : (runes "x").length = 1 := by decide
  have ht : (runes "track").length = 5 := by decide
  have hd : (runes "duration").length = 8 := by decide
  apply unmarshalStruct_none_iff
  · rintro kv ⟨f, hf, hmatch, hval⟩ st
    simp only [slideAnswerFields, List.mem_cons, List.mem_singleton, List.not_mem_nil,
      or_false] at hf
    rcases hf with hf | hf | hf
    · subst hf
      simp only [] at hmatch hval
      rw [if_pos hmatch, option_map_eq_none]
      apply isSome_false_eq_none
      rw [unmarshalInt_isSome, hval]
    · subst hf
      simp only [] at hmatch hval
      have hnx : ¬ keyMatches T "x" kv.1 = true := by
        intro h
        have h1 := keyMatches_length T _ _ h
        have h2 := keyMatches_length T _ _ hmatch
        omega
      rw [if_neg hnx, if_pos hmatch, option_map_eq_none]
      apply isSome_false_eq_none
      rw [unmarshalIntSlice_isSome, hval]
    · subst hf
      simp only [] at hmatch hval
      have hnx : ¬ keyMatches T "x" kv.1 = true := by
        intro h
        have h1 := keyMatches_length T _ _ h
        have h2 := keyMatches_length T _ _ hmatch
        omega
      have hnt : ¬ keyMatches T "track" kv.1 = true := by
        intro h
        have h1 := keyMatches_length T _ _ h
        have h2 := keyMatches_length T _ _ hmatch
        omega
      rw [if_neg hnx, if_neg hnt, if_pos hmatch, option_map_eq_none]
      apply isSome_false_eq_none
      rw [unmarshalInt_isSome, hval]
  · intro kv hgood st
    by_cases hmx : keyMatches T "x" kv.1 = true
    · rw [if_pos hmx, option_map_isSome, unmarshalInt_isSome]
      by_contra hval
      exact hgood ⟨("x", isIntValue), by simp [slideAnswerFields], hmx, by simpa using hval⟩
    · rw [if_neg hmx]
      by_cases hmt : keyMatches T "track" kv.1 = true
      · rw [if_pos hmt, option_map_isSome, unmarshalIntSlice_isSome]
        by_contra hval
        exact hgood ⟨("track", isIntSliceValue), by simp [slideAnswerFields], hmt,
          by simpa using hval⟩
      · rw [if_neg hmt]
        by_cases hmd : keyMatches T "duration" kv.1 = true
        · rw [if_pos hmd, option_map_isSome, unmarshalInt_isSome]
          by_contra hval
          exact hgood ⟨("duration", isIntValue), by simp [slideAnswerFields], hmd,
            by simpa using hval⟩
        · rw [if_neg hmd]
          rfl

/-- A payload has the wrong shape exactly when `json.Marshal` rejects it or
the decoder of the struct fails on its document. -/
theorem payloadShapeWrong_iff (T : SimpleFoldTable) (fields : List (String × (JSON → Bool)))
    {α : Type} (decode : JSON → Option α)
    (h : ∀ j, decode j = none ↔
      (j ≠ JSON.null ∧ ∀ kvs, j = JSON.obj kvs → ∃ kv ∈ kvs, entryWrong T fields kv))
    (answer : Payload) :
    payloadShapeWrong T fields answer ↔
      (answer = Payload.unsupported ∨ ∃ j, answer = Payload.encodes j ∧ decode j = none) := by
  cases answer with
  | unsupported => simp [payloadShapeWrong]
  | encodes j =>
    simp only [reduceCtorEq, Payload.encodes.injEq, exists_eq_left', false_or]
    rw [h j]
    cases j <;> simp [payloadShapeWrong]

/-! ### Service: answer format -/

theorem verifyCharacter_format (T : SimpleFoldTable) (s : Service) (value : Blob)
    (answer : Payload) (data : CharacterData)
    (hstored : unmarshalStored (unmarshalCharacterData T) value = .ok data) :
    (payloadShapeWrong T characterAnswerFields answer →
      s.verifyCharacter T value answer = (false, some Err.ErrCaptchaAnswerFormatWrong)) ∧
    (¬ payloadShapeWrong T characterAnswerFields answer →
      (s.verifyCharacter T value answer).2 = none) := by
  rw [payloadShapeWrong_iff T _ _ (unmarshalCharacterAnswer_none_iff T)]
  unfold Service.verifyCharacter
  rw [hstored]
  cases answer with
  | unsupported => simp [jsonMarshal]
  | encodes j =>
    cases hdec : unmarshalCharacterAnswer T j with
    | none => simp [jsonMarshal, hdec]
    | some a => simp [jsonMarshal, hdec]

theorem verifyImageSelect_format (T : SimpleFoldTable) (s : Service) (value : Blob)
    (answer : Payload) (data : ImageSelectData)
    (hstored : unmarshalStored (unmarshalImageSelectData T) value = .ok data) :
    (payloadShapeWrong T imageSelectAnswerFields answer →
      s.verifyImageSelect T value answer = (false, some Err.ErrCaptchaAnswerFormatWrong)) ∧
    (¬ payloadShapeWrong T imageSelectAnswerFields answer →
      (s.verifyImageSelect T value answer).2 = none) := by
  rw [payloadShapeWrong_iff T _ _ (unmarshalImageSelectAnswer_none_iff T)]
  unfold Service.verifyImageSelect
  rw [hstored]
  cases answer with
  | unsupported => simp [jsonMarshal]
  | encodes j =>
    cases hdec : unmarshalImageSelectAnswer T j with
    | none => simp [jsonMarshal, hdec]
    | some a => simp [jsonMarshal, hdec]

theorem verifySlide_format (T : SimpleFoldTable) (s : Service) (value : Blob)
    (answer : Payload) (data : SlideData)
    (hstored : unmarshalStored (unmarshalSlideData T) value = .ok data) :
    (payloadShapeWrong T slideAnswerFields answer →
      s.verifySlide T value answer = (false, some Err.ErrCaptchaAnswerFormatWrong)) ∧
    (¬ payloadShapeWrong T slideAnswerFields answer →
      (s.verifySlide T value answer).2 = none) := by
  rw [payloadShapeWrong_iff T _ _ (unmarshalSlideAnswer_none_iff T)]
  unfold Service.verifySlide
  rw [hstored]
  cases answer with
  | unsupported => simp [jsonMarshal]
  | encodes j =>
    cases hdec : unmarshalSlideAnswer T j with
    | none => simp [jsonMarshal, hdec]
    | some a => simp [jsonMarshal, hdec]

theorem verify_dispatch (T : SimpleFoldTable) (s : Service) (req : VerifyRequest) (value : Blob)
    (hget : s.store.Get req.CaptchaID = .ok value) :
    (req.CaptchaType = CaptchaTypeCharacter →
      s.Verify T req = s.verifyCharacter T value req.Answer) ∧
    (req.CaptchaType = CaptchaTypeImageSelect →
      s.Verify T req = s.verifyImageSelect T value req.Answer) ∧
    (req.CaptchaType = SlideTypeSelect →
      s.Verify T req = s.verifySlide T value req.Answer) := by
  unfold Service.Verify
  rw [hget]
  refine ⟨?_, ?_, ?_⟩
  · intro h
    simp only [if_pos h]
  · intro h
    have h1 : req.CaptchaType ≠ CaptchaTypeCharacter := by rw [h]; decide
    simp only [if_neg h1, if_pos h]
  · intro h
    have h1 : req.CaptchaType ≠ CaptchaTypeCharacter := by rw [h]; decide
    have h2 : req.CaptchaType ≠ CaptchaTypeImageSelect := by rw [h]; decide
    simp only [if_neg h1, if_neg h2, if_pos h]

/-- A character answer and a slide answer that lack every field of their
shape (the empty object), against stored secrets of their own modality:
`Service.Verify` decodes them to zero values and returns `(false, nil)`, a
validity result, not `ErrCaptchaAnswerFormatWrong`. -/
theorem verify_missing_fields_no_error :
    (∀ T : SimpleFoldTable,
      sampleCharacterService.Verify T sampleEmptyCharacterRequest = (false, none)) ∧
    (∀ T : SimpleFoldTable,
      sampleSlideService.Verify T sampleEmptySlideRequest = (false, none)) ∧
    (false, (none : Option Err)) ≠ (false, some Err.ErrCaptchaAnswerFormatWrong) := by
  refine ⟨?_, ?_, by decide⟩
  · intro T
    rfl
  · intro T
    rfl

/-- C10 (amended): for a stored secret that decodes for the modality of the
request, `Service.Verify` fails with `ErrCaptchaAnswerFormatWrong` when the
answer payload is rejected by `json.Marshal`, is a JSON value other than an
object or `null`, or gives one of the answer's fields a value of the wrong
type; for every other payload, in particular an object that lacks fields,
it returns a validity result without error. -/
theorem verify_answer_format (T : SimpleFoldTable) (s : Service) (req : VerifyRequest)
    (value : Blob) (hget : s.store.Get req.CaptchaID = .ok value) :
    (req.CaptchaType = CaptchaTypeCharacter →
      (∃ d, unmarshalStored (unmarshalCharacterData T) value = .ok d) →
      (payloadShapeWrong T characterAnswerFields req.Answer →
        s.Verify T req = (false, some Err.ErrCaptchaAnswerFormatWrong)) ∧
      (¬ payloadShapeWrong T characterAnswerFields req.Answer → (s.Verify T req).2 = none)) ∧
    (req.CaptchaType = CaptchaTypeImageSelect →
      (∃ d, unmarshalStored (unmarshalImageSelectData T) value = .ok d) →
      (payloadShapeWrong T imageSelectAnswerFields req.Answer →
        s.Verify T req = (false, some Err.ErrCaptchaAnswerFormatWrong)) ∧
      (¬ payloadShapeWrong T imageSelectAnswerFields req.Answer → (s.Verify T req).2 = none)) ∧
    (req.CaptchaType = SlideTypeSelect →
      (∃ d, unmarshalStored (unmarshalSlideData T) value = .ok d) →
      (payloadShapeWrong T slideAnswerFields req.Answer →
        s.Verify T req = (false, some Err.ErrCaptchaAnswerFormatWrong)) ∧
      (¬ payloadShapeWrong T slideAnswerFields req.Answer → (s.Verify T req).2 = none)) := by
  obtain ⟨hc, hi, hs⟩ := verify_dispatch T s req value hget
  refine ⟨?_, ?_, ?_⟩
  · rintro htype ⟨d, hd⟩
    rw [hc htype]
    exact verifyCharacter_format T s value req.Answer d hd
  · rintro htype ⟨d, hd⟩
    rw [hi htype]
    exact verifyImageSelect_format T s value req.Answer d hd
  · rintro htype ⟨d, hd⟩
    rw [hs htype]
    exact verifySlide_format T s value req.Answer d hd

/-- The amended C10 on the sample service: the stored code is `7K4B`; an
answer whose `code` is the number 7 fails with `ErrCaptchaAnswerFormatWrong`,
and the empty object is answered without error. -/
theorem verify_answer_format_witness :
    sampleCharacterService.Verify asciiFoldTable sampleNumberCodeRequest
        = (false, some Err.ErrCaptchaAnswerFormatWrong) ∧
    (sampleCharacterService.Verify asciiFoldTable sampleEmptyCharacterRequest).2 = none :=
  ⟨((verify_answer_format asciiFoldTable sampleCharacterService sampleNumberCodeRequest
      (Blob.json (marshalSecret (SecretData.character { Code := "7K4B" }))) rfl).1 rfl
      ⟨{ Code := "7K4B" }, rfl⟩).1
      ⟨("code", JSON.num 7), by simp, ("code", isStringValue), by simp [characterAnswerFields],
        by decide, rfl⟩,
   ((verify_answer_format asciiFoldTable sampleCharacterService sampleEmptyCharacterRequest
      (Blob.json (marshalSecret (SecretData.character { Code := "7K4B" }))) rfl).1 rfl
      ⟨{ Code := "7K4B" }, rfl⟩).2
      (by
        rintro ⟨kv, hkv, _⟩
        simp at hkv)⟩

/-! ### Code generation -/

theorem generateCode_spec (c : CharacterCaptcha) (rnd : Nat → Nat) (h : 0 ≤ c.config.Length) :
    ∃ code, c.generateCode rnd = some code ∧ (code.length : Int) = c.config.Length ∧
      ∀ ch ∈ code.toList, ch ∈ charset.toList := by
  unfold CharacterCaptcha.generateCode
  rw [if_neg (by omega)]
  refine ⟨_, rfl, ?_, ?_⟩
  · simp only [String.length, List.length_map, List.length_range]
    omega
  · intro ch hch
    simp only [String.toList, List.mem_map] at hch
    obtain ⟨i, _, hi⟩ := hch
    rw [← hi]
    exact List.get_mem _ _ _

/-- C12: for every `Length >= 0` and every sequence of draws,
`CharacterCaptcha.generateCode` returns a string of exactly `Length`
characters, each a member of the alphabet `23456789ABCDEFGHKMNPRSTUVWXYZ`. -/
theorem generateCode_length_alphabet (c : CharacterCaptcha) (rnd : Nat → Nat)
    (h : 0 ≤ c.config.Length) :
    ∃ code, c.generateCode rnd = some code ∧ (code.length : Int) = c.config.Length ∧
      ∀ ch ∈ code.toList, ch ∈ "23456789ABCDEFGHKMNPRSTUVWXYZ".toList :=
  generateCode_spec c rnd h

/-- C12 on the default generator (length 4) with the draws `5, 15, 2, 9`:
the code is `7K4B`. -/
theorem generateCode_length_alphabet_witness :
    ∃ code, (NewCharacterCaptcha ⟨0, 0, 0, 0, 0⟩).generateCode
        (fun i => [5, 15, 2, 9].getD i 0) = some code ∧
      (code.length : Int) = 4 ∧ ∀ ch ∈ code.toList, ch ∈ "23456789ABCDEFGHKMNPRSTUVWXYZ".toList :=
  generateCode_length_alphabet (NewCharacterCaptcha ⟨0, 0, 0, 0, 0⟩)
    (fun i => [5, 15, 2, 9].getD i 0) (by decide)

/-- The letter `J` is none of `0, 1, I, L, O, Q`, yet it is not in the
generation alphabet and no generated code contains it. -/
theorem generateCode_never_J :
    'J' ∈ digitsAndUpper.toList ∧ 'J' ∉ ['0', '1', 'I', 'L', 'O', 'Q'] ∧
    'J' ∉ charset.toList ∧
    ∀ (c : CharacterCaptcha) (rnd : Nat → Nat) (code : String),
      c.generateCode rnd = some code → 'J' ∉ code.toList := by
  refine ⟨by decide, by decide, by decide, ?_⟩
  intro c rnd code hcode hJ
  by_cases hlen : 0 ≤ c.config.Length
  · obtain ⟨code2, h1, _, h3⟩ := generateCode_spec c rnd hlen
    rw [hcode] at h1
    cases h1
    exact absurd (h3 'J' hJ) (by decide)
  · unfold CharacterCaptcha.generateCode at hcode
    rw [if_pos (by omega)] at hcode
    cases hcode

/-- C13 (amended): among the 36 characters `0`-`9` and `A`-`Z`, the ones that
never appear in a code produced by `CharacterCaptcha.generateCode` are exactly
`0, 1, I, J, L, O, Q`; every other digit and upper-case letter appears in
some generated code. -/
theorem generateCode_excluded_set (ch : Char) (hch : ch ∈ digitsAndUpper.toList) :
    (∃ (c : CharacterCaptcha) (rnd : Nat → Nat) (code : String),
        c.generateCode rnd = some code ∧ ch ∈ code.toList) ↔
      ch ∉ ['0', '1', 'I', 'J', 'L', 'O', 'Q'] := by
  have hsplit : ∀ x ∈ digitsAndUpper.toList,
      (x ∈ charset.toList ↔ x ∉ ['0', '1', 'I', 'J', 'L', 'O', 'Q']) := by decide
  rw [← hsplit ch hch]
  constructor
  · rintro ⟨c, rnd, code, hcode, hmem⟩
    by_cases hlen : 0 ≤ c.config.Length
    · obtain ⟨code2, h1, _, h3⟩ := generateCode_spec c rnd hlen
      rw [hcode] at h1
      cases h1
      exact h3 ch hmem
    · unfold CharacterCaptcha.generateCode at hcode
      rw [if_pos (by omega)] at hcode
      cases hcode
  · intro hmem
    obtain ⟨k, hk⟩ := List.get_of_mem hmem
    have hk2 : charset.toList.get ⟨k.val % charset.toList.length,
        Nat.mod_lt _ (by decide : 0 < charset.toList.length)⟩ = ch := by
      rw [← hk]
      congr 1
      exact Fin.ext (Nat.mod_eq_of_lt k.isLt)
    refine ⟨⟨⟨160, 60, 1, fiveMinutes, 2⟩⟩, fun _ => k.val, _, rfl, ?_⟩
    exact List.mem_map.mpr ⟨0, by decide, hk2⟩

/-- The amended C13 at the letter `K`: it is none of the seven excluded
characters and the code drawn with index 15 contains it. -/
theorem generateCode_excluded_set_witness :
    ∃ (c : CharacterCaptcha) (rnd : Nat → Nat) (code : String),
      c.generateCode rnd = some code ∧ 'K' ∈ code.toList :=
  (generateCode_excluded_set 'K' (by decide)).mpr (by decide)

/-- C14: `NewCharacterCaptcha` keeps every non-zero field of the
configuration and replaces a zero `Width`, `Height`, `Length`, `Complexity`
and `ExpireTime` by 160, 60, 4, 2 and five minutes. -/
theorem newCharacterCaptcha_defaults (cfg : CharacterConfig) :
    (NewCharacterCaptcha cfg).config.Width = (if cfg.Width = 0 then 160 else cfg.Width) ∧
    (NewCharacterCaptcha cfg).config.Height = (if cfg.Height = 0 then 60 else cfg.Height) ∧
    (NewCharacterCaptcha cfg).config.Length = (if cfg.Length = 0 then 4 else cfg.Length) ∧
    (NewCharacterCaptcha cfg).config.Complexity
      = (if cfg.Complexity = 0 then 2 else cfg.Complexity) ∧
    (NewCharacterCaptcha cfg).config.ExpireTime
      = (if cfg.ExpireTime = 0 then 5 * 60 * 1000000000 else cfg.ExpireTime) := by
  rcases cfg with ⟨w, h, l, e, cx⟩
  simp only [NewCharacterCaptcha, fiveMinutes]
  by_cases hw : w = 0 <;> by_cases hh : h = 0 <;> by_cases hl : l = 0 <;>
    by_cases he : e = 0 <;> by_cases hc : cx = 0 <;> simp [hw, hh, hl, he, hc]

/-! ### Target selection -/

theorem swapAt_perm (l : List Int) (i j : Nat) (hi : i < l.length) (hj : j < l.length) :
    (swapAt l i j).Perm l := by
  unfold swapAt
  have hgi : l.getD i 0 = l[i] := by
    rw [List.getD_eq_getElem?_getD, List.getElem?_eq_getElem hi]
    rfl
  have hgj : l.getD j 0 = l[j] := by
    rw [List.getD_eq_getElem?_getD, List.getElem?_eq_getElem hj]
    rfl
  rw [hgi, hgj, List.perm_iff_count]
  intro b
  have hj2 : j < (l.set i l[j]).length := by rw [List.length_set]; exact hj
  rw [List.count_set _ _ _ _ hj2, List.count_set _ _ _ _ hi]
  have hget : (l.set i l[j])[j] = l[j] := by
    rw [List.getElem_set]
    split_ifs with h
    · rfl
    · rfl
  rw [hget]
  have hci : (if (l[i] == b) = true then 1 else 0) ≤ List.count b l := by
    split_ifs with h
    · have hb : l[i] = b := by simpa using h
      rw [← hb]
      exact List.count_pos_iff.mpr (List.getElem_mem _)
    · exact Nat.zero_le _
  have hcj : (if (l[j] == b) = true then 1 else 0) ≤ List.count b l := by
    split_ifs with h
    · have hb : l[j] = b := by simpa using h
      rw [← hb]
      exact List.count_pos_iff.mpr (List.getElem_mem _)
    · exact Nat.zero_le _
  omega

theorem shuffleFrom_perm (rnd : Nat → Nat) (n : Nat) :
    ∀ (i : Nat) (l : List Int), i < l.length → (shuffleFrom rnd n i l).Perm l := by
  intro i
  induction i with
  | zero => intro l _; exact List.Perm.refl l
  | succ i ih =>
    intro l hl
    rw [shuffleFrom]
    have hj : rnd (n - 1 - (i + 1)) % (i + 2) < l.length := by
      have := Nat.mod_lt (rnd (n - 1 - (i + 1))) (by omega : 0 < i + 2)
      omega
    have hp := swapAt_perm l (i + 1) (rnd (n - 1 - (i + 1)) % (i + 2)) hl hj
    have hlen : i < (swapAt l (i + 1) (rnd (n - 1 - (i + 1)) % (i + 2))).length := by
      rw [hp.length_eq]
      omega
    exact (ih _ hlen).trans hp

theorem shuffleFrom_perm_all (rnd : Nat → Nat) (n : Nat) (l : List Int) (hl : l.length = n) :
    (shuffleFrom rnd n (n - 1) l).Perm l := by
  cases n with
  | zero => exact List.Perm.refl l
  | succ n => exact shuffleFrom_perm rnd (n + 1) n l (by omega)

/-- Characterisation of `ImageSelectCaptcha.selectTargetIndexes`, shared by
the results on target selection. -/
theorem selectTargetIndexes_spec (c : ImageSelectCaptcha) (rnd : Nat → Nat)
    (hk : 0 ≤ c.config.SelectCount) (hkn : c.config.SelectCount ≤ c.config.ImageCount) :
    ∃ (res p : List Int), c.selectTargetIndexes rnd = some res ∧
      p.Perm ((List.range c.config.ImageCount.toNat).map Int.ofNat) ∧
      res = p.take c.config.SelectCount.toNat ∧
      (res.length : Int) = c.config.SelectCount ∧ res.Nodup ∧
      ∀ x ∈ res, 0 ≤ x ∧ x < c.config.ImageCount := by
  unfold ImageSelectCaptcha.selectTargetIndexes
  rw [if_neg (by omega)]
  simp only []
  rw [if_neg (by omega)]
  have hperm := shuffleFrom_perm_all rnd c.config.ImageCount.toNat
    ((List.range c.config.ImageCount.toNat).map Int.ofNat) (by simp)
  have hnodup : ((List.range c.config.ImageCount.toNat).map Int.ofNat).Nodup :=
    (List.nodup_range _).map (fun a b h => Int.ofNat.inj h)
  refine ⟨_, _, rfl, hperm, rfl, ?_, ?_, ?_⟩
  · rw [List.length_take, hperm.length_eq, List.length_map, List.length_range]
    omega
  · exact (hperm.nodup_iff.mpr hnodup).sublist (List.take_sublist _ _)
  · intro x hx
    have hx2 := hperm.subset (List.mem_of_mem_take hx)
    rw [List.mem_map] at hx2
    obtain ⟨i, hi, hix⟩ := hx2
    rw [List.mem_range] at hi
    have hix2 : x = (i : Int) := hix.symm
    omega

/-- C16: for `0 <= k <= n` and every shuffle outcome,
`ImageSelectCaptcha.selectTargetIndexes` returns the first `k` entries of a
permutation of `0..n-1`: exactly `k` indexes, pairwise distinct, each in
`[0, n)`. -/
theorem selectTargetIndexes_prefix_of_permutation (c : ImageSelectCaptcha) (rnd : Nat → Nat)
    (hk : 0 ≤ c.config.SelectCount) (hkn : c.config.SelectCount ≤ c.config.ImageCount) :
    ∃ (res p : List Int), c.selectTargetIndexes rnd = some res ∧
      p.Perm ((List.range c.config.ImageCount.toNat).map Int.ofNat) ∧
      res = p.take c.config.SelectCount.toNat ∧
      (res.length : Int) = c.config.SelectCount ∧ res.Nodup ∧
      ∀ x ∈ res, 0 ≤ x ∧ x < c.config.ImageCount :=
  selectTargetIndexes_spec c rnd hk hkn

/-- C16 on four images and two targets with the draws `1, 0, 1` of the
shuffle. -/
theorem selectTargetIndexes_prefix_of_permutation_witness :
    ∃ (res p : List Int), (NewImageSelectCaptcha ⟨4, 2, 0, "traffic", ""⟩).selectTargetIndexes
        (fun i => [1, 0, 1].getD i 0) = some res ∧
      p.Perm ((List.range 4).map Int.ofNat) ∧ res = p.take 2 ∧
      (res.length : Int) = 2 ∧ res.Nodup ∧ ∀ x ∈ res, 0 ≤ x ∧ x < 4 :=
  selectTargetIndexes_prefix_of_permutation (NewImageSelectCaptcha ⟨4, 2, 0, "traffic", ""⟩)
    (fun i => [1, 0, 1].getD i 0) (by decide) (by decide)

/-! ### Service: time-to-live -/

/-- C15 (the code at the failing input): the sample service has a character
configuration whose `ExpireTime` is zero. The generator built from it has the
default of five minutes, yet `Service.Generate` hands the store the raw value
0 as time-to-live and answers with the generation time itself as expiry. -/
theorem generate_ttl_not_defaulted (now : Int) :
    sampleService.characterConfig.ExpireTime = 0 ∧
    (NewCharacterCaptcha sampleService.characterConfig).config.ExpireTime
      = 5 * 60 * 1000000000 ∧
    (sampleService.Generate CaptchaTypeCharacter "id-1" now sampleGenerators).1
      = .ok { CaptchaID := "id-1", CaptchaType := CaptchaTypeCharacter,
              Data := CaptchaData.character "data:image/png;base64,",
              ExpireTime := now / 1000000000 } ∧
    (sampleService.Generate CaptchaTypeCharacter "id-1" now sampleGenerators).2.store.lastTTL
      "id-1" = some 0 := by
  refine ⟨rfl, rfl, ?_, rfl⟩
  show Except.ok _ = Except.ok _
  congr 2
  show (now + 0) / 1000000000 = now / 1000000000
  rw [add_zero]

/-! ### Service: modality of the stored secret -/

/-- C19 (the code at the failing inputs): the stored secret carries no
modality tag and the decoders ignore keys they do not know. The slide
challenge `id-2` is passed as a character challenge with the empty code and
as an image-select challenge with any one index; the character challenge
`id-1` is passed as a slide challenge with X = 0. -/
theorem verify_passes_under_other_modality (T : SimpleFoldTable) :
    sampleSlideService.Verify T sampleSlideAsCharacterRequest = (true, none) ∧
    sampleSlideService.Verify T sampleSlideAsImageSelectRequest = (true, none) ∧
    sampleCharacterService.Verify T sampleCharacterAsSlideRequest = (true, none) := by
  exact ⟨rfl, rfl, rfl⟩

/-! ### Rounding to the nearest double -/

/-- The unit in the last place of the doubles around `n`, for `n >= 2^53`. -/
theorem float64_ulp_facts (n : Nat) (h : 2 ^ 53 ≤ n) :
    0 < 2 ^ (Nat.log2 n - 52) ∧ 2 ^ 52 * 2 ^ (Nat.log2 n - 52) = 2 ^ Nat.log2 n ∧
    2 ^ Nat.log2 n ≤ n ∧ n < 2 * 2 ^ Nat.log2 n ∧ 53 ≤ Nat.log2 n := by
  have hn : n ≠ 0 := by
    intro h0
    rw [h0] at h
    norm_num at h
  have h53 : 53 ≤ Nat.log2 n := by
    rw [Nat.log2_eq_log_two]
    exact Nat.le_log_of_pow_le (by norm_num) h
  refine ⟨pow_pos (by norm_num) _, ?_, Nat.log2_self_le hn, ?_, h53⟩
  · rw [← pow_add]
    congr 1
    omega
  · have := Nat.lt_log2_self (n := n)
    rw [pow_succ] at this
    omega

/-- For `n >= 2^53` the nearest double is one of the two multiples of the unit
in the last place around `n`: the lower one when `n` is itself a multiple,
the upper one when `n` is past the midpoint. -/
theorem float64OfNat_round (n : Nat) (h : 2 ^ 53 ≤ n) :
    n / 2 ^ (Nat.log2 n - 52) * 2 ^ (Nat.log2 n - 52) ≤ float64OfNat n ∧
    float64OfNat n ≤ (n / 2 ^ (Nat.log2 n - 52) + 1) * 2 ^ (Nat.log2 n - 52) ∧
    (n % 2 ^ (Nat.log2 n - 52) = 0 →
      float64OfNat n = n / 2 ^ (Nat.log2 n - 52) * 2 ^ (Nat.log2 n - 52)) ∧
    (2 ^ (Nat.log2 n - 52) < 2 * (n % 2 ^ (Nat.log2 n - 52)) →
      float64OfNat n = (n / 2 ^ (Nat.log2 n - 52) + 1) * 2 ^ (Nat.log2 n - 52)) := by
  have hpos : 0 < 2 ^ (Nat.log2 n - 52) := pow_pos (by norm_num) _
  have hstep : n / 2 ^ (Nat.log2 n - 52) * 2 ^ (Nat.log2 n - 52)
      ≤ (n / 2 ^ (Nat.log2 n - 52) + 1) * 2 ^ (Nat.log2 n - 52) :=
    Nat.mul_le_mul_right _ (Nat.le_succ _)
  unfold float64OfNat
  rw [if_neg (by omega)]
  simp only []
  refine ⟨?_, ?_, ?_, ?_⟩
  · split_ifs
    · exact le_refl _
    · exact hstep
    · exact le_refl _
    · exact hstep
  · split_ifs
    · exact hstep
    · exact le_refl _
    · exact hstep
    · exact le_refl _
  · intro hr
    rw [if_pos (by omega)]
  · intro hr
    rw [if_neg (by omega), if_pos hr]

/-- Rounding does not go below a double that is below the number. -/
theorem float64OfNat_ge (n k e : Nat) (hk : k < 2 ^ 53) (h : k * 2 ^ e ≤ n) :
    k * 2 ^ e ≤ float64OfNat n := by
  by_cases hn : n < 2 ^ 53
  · rw [float64OfNat_small n hn]
    exact h
  · have hn2 : 2 ^ 53 ≤ n := by omega
    obtain ⟨hpos, hsplit, hlo, _, h53⟩ := float64_ulp_facts n hn2
    obtain ⟨hge, _, _, _⟩ := float64OfNat_round n hn2
    refine le_trans ?_ hge
    by_cases he : Nat.log2 n - 52 ≤ e
    · have hpow : 2 ^ e = 2 ^ (e - (Nat.log2 n - 52)) * 2 ^ (Nat.log2 n - 52) := by
        rw [← pow_add]
        congr 1
        omega
      rw [hpow, ← Nat.mul_assoc]
      apply Nat.mul_le_mul_right
      rw [Nat.le_div_iff_mul_le hpos, Nat.mul_assoc, ← hpow]
      exact h
    · have he2 : e + 53 ≤ Nat.log2 n := by omega
      have h1 : k * 2 ^ e ≤ 2 ^ 53 * 2 ^ e := Nat.mul_le_mul_right _ (le_of_lt hk)
      have h2 : 2 ^ 53 * 2 ^ e ≤ 2 ^ Nat.log2 n := by
        rw [← pow_add]
        exact Nat.pow_le_pow_right (by norm_num) (by omega)
      have h3 : 2 ^ 52 ≤ n / 2 ^ (Nat.log2 n - 52) := by
        rw [Nat.le_div_iff_mul_le hpos, hsplit]
        exact hlo
      calc k * 2 ^ e ≤ 2 ^ Nat.log2 n := le_trans h1 h2
        _ = 2 ^ 52 * 2 ^ (Nat.log2 n - 52) := hsplit.symm
        _ ≤ n / 2 ^ (Nat.log2 n - 52) * 2 ^ (Nat.log2 n - 52) := Nat.mul_le_mul_right _ h3

/-- Rounding does not go above a double that is above the number. -/
theorem float64OfNat_le (n k e : Nat) (hk : k ≤ 2 ^ 53) (h : n ≤ k * 2 ^ e) :
    float64OfNat n ≤ k * 2 ^ e := by
  by_cases hn : n < 2 ^ 53
  · rw [float64OfNat_small n hn]
    exact h
  · have hn2 : 2 ^ 53 ≤ n := by omega
    obtain ⟨hpos, hsplit, hlo, _, h53⟩ := float64_ulp_facts n hn2
    obtain ⟨_, hle, hexact, _⟩ := float64OfNat_round n hn2
    have hdm := Nat.div_add_mod n (2 ^ (Nat.log2 n - 52))
    by_cases he : Nat.log2 n - 52 ≤ e
    · have hpow : 2 ^ e = 2 ^ (e - (Nat.log2 n - 52)) * 2 ^ (Nat.log2 n - 52) := by
        rw [← pow_add]
        congr 1
        omega
      by_cases hr : n % 2 ^ (Nat.log2 n - 52) = 0
      · rw [hexact hr]
        refine le_trans ?_ h
        rw [hr, add_zero, Nat.mul_comm] at hdm
        omega
      · refine le_trans hle ?_
        rw [hpow, ← Nat.mul_assoc]
        apply Nat.mul_le_mul_right
        have hlt : n / 2 ^ (Nat.log2 n - 52) * 2 ^ (Nat.log2 n - 52)
            < k * 2 ^ (e - (Nat.log2 n - 52)) * 2 ^ (Nat.log2 n - 52) := by
          rw [Nat.mul_assoc, ← hpow]
          have hrpos : 0 < n % 2 ^ (Nat.log2 n - 52) := Nat.pos_of_ne_zero hr
          rw [Nat.mul_comm] at hdm
          omega
        exact Nat.succ_le_of_lt (Nat.lt_of_mul_lt_mul_right hlt)
    · have he2 : e + 53 ≤ Nat.log2 n := by omega
      have h1 : k * 2 ^ e ≤ 2 ^ 53 * 2 ^ e := Nat.mul_le_mul_right _ hk
      have h2 : 2 ^ 53 * 2 ^ e ≤ 2 ^ Nat.log2 n := by
        rw [← pow_add]
        exact Nat.pow_le_pow_right (by norm_num) (by omega)
      have hneq : n = 2 ^ 52 * 2 ^ (Nat.log2 n - 52) := by
        rw [hsplit]
        omega
      have hr : n % 2 ^ (Nat.log2 n - 52) = 0 :=
        Nat.mod_eq_zero_of_dvd ⟨2 ^ 52, by rw [Nat.mul_comm]; exact hneq⟩
      rw [hexact hr]
      refine le_trans ?_ h
      rw [hr, add_zero, Nat.mul_comm] at hdm
      omega

/-- The product of `m` with the double nearest to 0.3, rounded and truncated
as `int(float64(m) * 0.3)` does, is not below `floor(3m/10)` (for `m < 2^53`).
The double nearest to 0.3 is `5404319552844595 / 2^54`. -/
theorem trunc_three_tenths_lower (m : Nat) (hm : m < 2 ^ 53) :
    3 * m / 10 ≤ float64OfNat (m * 5404319552844595) / 2 ^ 54 := by
  rw [Nat.le_div_iff_mul_le (by norm_num)]
  by_cases hmod : 3 * m % 10 = 0
  · by_cases hj0 : m / 10 = 0
    · have : 3 * m / 10 = 0 := by omega
      rw [this]
      exact Nat.zero_le _
    · have hm10 : m = 10 * (m / 10) := by omega
      have hI : 3 * m / 10 = 3 * (m / 10) := by omega
      generalize hjdef : m / 10 = j at hm10 hI hj0
      generalize hndef : m * 5404319552844595 = n
      have hn_eq : n + 2 * j = 3 * j * 2 ^ 54 := by
        norm_num
        omega
      have hn53 : 2 ^ 53 ≤ n := by
        norm_num at hn_eq ⊢
        omega
      have hnlt : n < 2 ^ 106 := by
        norm_num at hn_eq hm ⊢
        omega
      obtain ⟨hpos, hsplit, hlo, hhi, h53⟩ := float64_ulp_facts n hn53
      have hn0 : n ≠ 0 := by omega
      have hL : Nat.log2 n < 106 := (Nat.log2_lt hn0).mpr hnlt
      obtain ⟨_, _, _, hup⟩ := float64OfNat_round n hn53
      have hpow : (2 : Nat) ^ 54 = 2 ^ (106 - Nat.log2 n) * 2 ^ (Nat.log2 n - 52) := by
        rw [← pow_add]
        congr 1
        omega
      generalize hudef : 2 ^ (Nat.log2 n - 52) = ulp at hpos hsplit hup hpow
      generalize hPdef : 2 ^ Nat.log2 n = P at hsplit hlo hhi
      generalize hJdef : 3 * j * 2 ^ (106 - Nat.log2 n) = J
      have hJ : J * ulp = n + 2 * j := by
        rw [hn_eq, ← hJdef, Nat.mul_assoc, ← hpow]
      have h4j : 4 * j < ulp := by
        norm_num at hn_eq hsplit
        omega
      have hJpos : 1 ≤ J := by
        rcases Nat.eq_zero_or_pos J with h0 | h0
        · rw [h0, Nat.zero_mul] at hJ
          omega
        · exact h0
      have hJ1 : (J - 1) * ulp + ulp = J * ulp := by
        rw [← Nat.succ_mul]
        congr 1
        omega
      have hq : n / ulp = J - 1 := by
        apply Nat.div_eq_of_lt_le
        · omega
        · have : (J - 1 + 1) * ulp = J * ulp := by
            congr 1
            omega
          rw [this]
          omega
      have hdm := Nat.div_add_mod n ulp
      rw [hq, Nat.mul_comm] at hdm
      have hr : n % ulp = ulp - 2 * j := by omega
      have hfl : float64OfNat n = (n / ulp + 1) * ulp := hup (by rw [hr]; omega)
      rw [hfl, hq, hI]
      have : (J - 1 + 1) * ulp = J * ulp := by
        congr 1
        omega
      rw [this, hJ, hn_eq]
  · apply float64OfNat_ge _ _ _ (by omega)
    norm_num
    omega

/-- The product of `m` with the double nearest to 0.7, rounded and truncated
as `int(float64(m) * 0.7)` does, is at most `floor(7m/10) + 1` (for
`m < 2^53`). The double nearest to 0.7 is `6305039478318694 / 2^53`. -/
theorem trunc_seven_tenths_upper (m : Nat) (hm : m < 2 ^ 53) :
    float64OfNat (m * 6305039478318694) / 2 ^ 53 ≤ 7 * m / 10 + 1 := by
  apply Nat.div_le_of_le_mul
  rw [Nat.mul_comm (2 ^ 53) (7 * m / 10 + 1)]
  apply float64OfNat_le _ _ _ (by norm_num at hm ⊢; omega)
  norm_num
  omega

/-! ### Slide puzzle generation -/

theorem Image.rect_Set (img : Image) (x y : Int) (c : RGBA) : (img.Set x y c).rect = img.rect := by
  unfold Image.Set
  split_ifs <;> rfl

theorem Image.rect_paint (img : Image) (x0 x1 y0 y1 : Int) (f : Int → Int → Option RGBA) :
    (img.paint x0 x1 y0 y1 f).rect = img.rect := rfl

theorem Image.Dx_of_rect (img : Image) (a b c d : Int) (h : img.rect = (a, b, c, d)) :
    img.Dx = wrapInt64 (c - a) ∧ img.Dy = wrapInt64 (d - b) := by
  unfold Image.rect at h
  simp only [Prod.mk.injEq] at h
  obtain ⟨h1, h2, h3, h4⟩ := h
  unfold Image.Dx Image.Dy
  rw [h1, h2, h3, h4]
  exact ⟨rfl, rfl⟩

theorem randIntn_some (r : Nat) (n d : Int) (h : randIntn r n = some d) :
    0 < n ∧ 0 ≤ d ∧ d < n := by
  unfold randIntn at h
  split_ifs at h with hn
  simp only [Option.some.injEq] at h
  rw [← h]
  exact ⟨by omega, Int.emod_nonneg _ (by omega), Int.emod_lt_of_pos _ (by omega)⟩

theorem randIntn_of_pos (r : Nat) (n : Int) (h : 0 < n) : randIntn r n = some ((r : Int) % n) := by
  unfold randIntn
  rw [if_neg (by omega)]

theorem noiseLoop_some (c : SlideCaptcha) (rnd : Nat → Nat) :
    ∀ (k i : Nat) (img res : Image), SlideCaptcha.noiseLoop c rnd k i img = some res →
      res.rect = img.rect ∧ (0 < k → 0 < c.config.Width ∧ 0 < c.config.Height) := by
  intro k
  induction k with
  | zero =>
    intro i img res h
    rw [SlideCaptcha.noiseLoop] at h
    cases h
    exact ⟨rfl, fun h => absurd h (by omega)⟩
  | succ k ih =>
    intro i img res h
    rw [SlideCaptcha.noiseLoop] at h
    cases hx : randIntn (rnd (5 * i)) c.config.Width with
    | none => rw [hx] at h; cases h
    | some x =>
      rw [hx] at h
      cases hy : randIntn (rnd (5 * i + 1)) c.config.Height with
      | none => rw [hy] at h; cases h
      | some y =>
        rw [hy] at h
        simp only [randIntn_of_pos _ 256 (by norm_num)] at h
        obtain ⟨h1, _⟩ := ih _ _ _ h
        rw [Image.rect_Set] at h1
        exact ⟨h1, fun _ => ⟨(randIntn_some _ _ _ hx).1, (randIntn_some _ _ _ hy).1⟩⟩

theorem noiseLoop_of_pos (c : SlideCaptcha) (rnd : Nat → Nat) (hW : 0 < c.config.Width)
    (hH : 0 < c.config.Height) :
    ∀ (k i : Nat) (img : Image), ∃ res, SlideCaptcha.noiseLoop c rnd k i img = some res := by
  intro k
  induction k with
  | zero => intro i img; exact ⟨img, rfl⟩
  | succ k ih =>
    intro i img
    rw [SlideCaptcha.noiseLoop]
    simp only [randIntn_of_pos _ _ hW, randIntn_of_pos _ _ hH,
      randIntn_of_pos _ 256 (by norm_num)]
    exact ih _ _

theorem NewRGBA_some (x1 y1 : Int) (img : Image) (h : NewRGBA 0 0 x1 y1 = some img) :
    img.rect = (min 0 x1, min 0 y1, max 0 x1, max 0 y1) := by
  unfold NewRGBA at h
  simp only [] at h
  split_ifs at h <;> simp only [Option.some.injEq] at h <;> rw [← h] <;>
    simp only [Image.rect, Prod.mk.injEq] <;>
    refine ⟨?_, ?_, ?_, ?_⟩ <;> omega

theorem NewRGBA_of_small (x1 y1 : Int) (hx : 0 ≤ x1 ∧ x1 < 2 ^ 23) (hy : 0 ≤ y1 ∧ y1 < 2 ^ 23) :
    ∃ img, NewRGBA 0 0 x1 y1 = some img := by
  have hxy : x1 * y1 < 2 ^ 23 * 2 ^ 23 :=
    lt_of_le_of_lt (Int.mul_le_mul_of_nonneg_right (le_of_lt hx.2) hy.1)
      (Int.mul_lt_mul_of_pos_left hy.2 (by norm_num))
  have hxy0 : 0 ≤ x1 * y1 := Int.mul_nonneg hx.1 hy.1
  have hval : mul3NonNeg 4 x1 y1 = 4 * (x1 * y1) := by
    unfold mul3NonNeg
    have h4 : 4 * x1 * y1 = 4 * (x1 * y1) := by ring
    rw [if_neg (by omega), if_neg (by omega), if_neg (by rw [h4]; norm_num at hxy ⊢; omega),
      if_neg (by rw [h4]; norm_num at hxy ⊢; omega), h4]
  have hm : ¬ mul3NonNeg 4 x1 y1 < 0 := by
    rw [hval]
    omega
  have hm2 : ¬ mul3NonNeg 4 x1 y1 > maxAlloc := by
    rw [hval]
    unfold maxAlloc
    norm_num at hxy ⊢
    omega
  have e1 : (if (0 : Int) > x1 then x1 else 0) = 0 := if_neg (by omega)
  have e2 : (if (0 : Int) > x1 then 0 else x1) = x1 := if_neg (by omega)
  have e3 : (if (0 : Int) > y1 then y1 else 0) = 0 := if_neg (by omega)
  have e4 : (if (0 : Int) > y1 then 0 else y1) = y1 := if_neg (by omega)
  unfold NewRGBA
  simp only [e1, e2, e3, e4, sub_zero]
  rw [wrapInt64_of_range x1 (by omega) (by omega), wrapInt64_of_range y1 (by omega) (by omega),
    if_neg hm, if_neg hm2]
  exact ⟨_, rfl⟩

theorem float64OfInt_of_small (z : Int) (h0 : 0 ≤ z) (h : z < 2 ^ 53) : float64OfInt z = z := by
  unfold float64OfInt
  rw [if_neg (by omega), float64OfNat_small _ (by omega)]
  omega

theorem truncMulFloat_of_small (M mant e : Nat) (h : M < 2 ^ 53) :
    truncMulFloat (M : Int) mant e = ((float64OfNat (M * mant) / 2 ^ e : Nat) : Int) := by
  unfold truncMulFloat
  simp only []
  rw [float64OfInt_of_small (M : Int) (by omega) (by exact_mod_cast h), if_neg (by omega)]
  rfl

/-- The position drawn by `SlideCaptcha.randomPosition(m)` lies between
`floor(3m/10)` and `floor(7m/10)` when `2 <= m < 2^53`. -/
theorem randomPosition_range (c : SlideCaptcha) (r : Nat) (m x : Int)
    (h : c.randomPosition r m = some x) (hm : 0 ≤ m) (hm2 : m < 2 ^ 53) :
    3 * m / 10 ≤ x ∧ x ≤ 7 * m / 10 := by
  obtain ⟨M, rfl⟩ := Int.eq_ofNat_of_zero_le hm
  have hM : M < 2 ^ 53 := by exact_mod_cast hm2
  unfold SlideCaptcha.randomPosition at h
  simp only [truncMulFloat_of_small M _ _ hM] at h
  have hlo := trunc_three_tenths_lower M hM
  have hhi := trunc_seven_tenths_upper M hM
  have hminle : float64OfNat (M * 5404319552844595) / 2 ^ 54 ≤ M := by
    apply Nat.div_le_of_le_mul
    rw [Nat.mul_comm (2 ^ 54) M]
    exact float64OfNat_le _ _ _ (le_of_lt hM) (Nat.mul_le_mul_left _ (by norm_num))
  generalize float64OfNat (M * 5404319552844595) / 2 ^ 54 = lo at h hlo hminle
  generalize float64OfNat (M * 6305039478318694) / 2 ^ 53 = hi at h hhi
  norm_num at hM
  rw [wrapInt64_of_range _ (by omega) (by omega)] at h
  cases hd : randIntn r ((hi : Int) - (lo : Int)) with
  | none => rw [hd] at h; cases h
  | some d =>
    rw [hd] at h
    simp only [Option.some.injEq] at h
    obtain ⟨_, hd0, hd1⟩ := randIntn_some _ _ _ hd
    rw [wrapInt64_of_range _ (by omega) (by omega)] at h
    omega

theorem createBackgroundImage_some (c : SlideCaptcha) (rnd : Nat → Nat) (img : Image)
    (h : c.createBackgroundImage rnd = some img) :
    0 < c.config.Width ∧ 0 < c.config.Height ∧
      img.rect = (0, 0, c.config.Width, c.config.Height) := by
  unfold SlideCaptcha.createBackgroundImage at h
  cases hn : NewRGBA 0 0 c.config.Width c.config.Height with
  | none => rw [hn] at h; cases h
  | some img0 =>
    rw [hn] at h
    simp only [] at h
    obtain ⟨hr, hpos⟩ := noiseLoop_some c rnd 100 0 _ _ h
    obtain ⟨hW, hH⟩ := hpos (by norm_num)
    rw [Image.rect_paint, NewRGBA_some _ _ _ hn] at hr
    rw [hr]
    simp only [Prod.mk.injEq]
    refine ⟨hW, hH, ?_, ?_, ?_, ?_⟩ <;> omega

theorem createBackgroundImage_of_small (c : SlideCaptcha) (rnd : Nat → Nat)
    (hW : 0 < c.config.Width ∧ c.config.Width < 2 ^ 23)
    (hH : 0 < c.config.Height ∧ c.config.Height < 2 ^ 23) :
    ∃ img, c.createBackgroundImage rnd = some img := by
  obtain ⟨img0, h0⟩ := NewRGBA_of_small c.config.Width c.config.Height
    ⟨le_of_lt hW.1, hW.2⟩ ⟨le_of_lt hH.1, hH.2⟩
  unfold SlideCaptcha.createBackgroundImage
  rw [h0]
  exact noiseLoop_of_pos c rnd hW.1 hH.1 _ _ _

theorem createTemplateImage_some (c : SlideCaptcha) (r : Nat) (img : Image) (templateY : Int)
    (h : c.createTemplateImage r = some (img, templateY)) :
    img.rect = (min 0 c.config.TemplateWidth, min 0 c.config.TemplateHeight,
        max 0 c.config.TemplateWidth, max 0 c.config.TemplateHeight) ∧
    ∃ d, randIntn r (wrapInt64 (wrapInt64 (c.config.Height - c.config.TemplateHeight) - 20))
        = some d ∧ templateY = wrapInt64 (d + 10) := by
  unfold SlideCaptcha.createTemplateImage at h
  cases hd : randIntn r (wrapInt64 (wrapInt64 (c.config.Height - c.config.TemplateHeight) - 20)) with
  | none => rw [hd] at h; cases h
  | some d =>
    rw [hd] at h
    simp only [] at h
    cases hn : NewRGBA 0 0 c.config.TemplateWidth c.config.TemplateHeight with
    | none => rw [hn] at h; cases h
    | some img0 =>
      rw [hn] at h
      simp only [Option.some.injEq, Prod.mk.injEq] at h
      obtain ⟨h1, h2⟩ := h
      refine ⟨?_, d, rfl, h2.symm⟩
      rw [← h1]
      have hb : ∀ (i : Image) (col : RGBA), (SlideCaptcha.addBorder i col).rect = i.rect :=
        fun _ _ => rfl
      rw [hb, Image.rect_paint]
      exact NewRGBA_some _ _ _ hn

theorem createTemplateImage_of_small (c : SlideCaptcha) (r : Nat)
    (hTW : 0 ≤ c.config.TemplateWidth ∧ c.config.TemplateWidth < 2 ^ 23)
    (hTH : 0 ≤ c.config.TemplateHeight ∧ c.config.TemplateHeight < 2 ^ 23)
    (hH : 0 < c.config.Height ∧ c.config.Height < 2 ^ 23)
    (hY : 20 < c.config.Height - c.config.TemplateHeight) :
    ∃ img templateY, c.createTemplateImage r = some (img, templateY) := by
  obtain ⟨img0, h0⟩ := NewRGBA_of_small c.config.TemplateWidth c.config.TemplateHeight hTW hTH
  unfold SlideCaptcha.createTemplateImage
  rw [wrapInt64_of_range (c.config.Height - c.config.TemplateHeight) (by omega) (by omega),
    wrapInt64_of_range (c.config.Height - c.config.TemplateHeight - 20) (by omega) (by omega),
    randIntn_of_pos _ _ (by omega), h0]
  exact ⟨_, _, rfl⟩

theorem encodeImageToBase64_ok (lib : ImageLib) (c : SlideCaptcha) (img : Image) (s : String)
    (h : c.encodeImageToBase64 lib img = .ok s) :
    0 < img.Dx ∧ img.Dx < 2 ^ 32 ∧ 0 < img.Dy ∧ img.Dy < 2 ^ 32 := by
  unfold SlideCaptcha.encodeImageToBase64 pngEncode at h
  split_ifs at h with hbad
  omega

theorem encodeImageToBase64_of_size (lib : ImageLib) (c : SlideCaptcha) (img : Image)
    (h : 0 < img.Dx ∧ img.Dx < 2 ^ 32 ∧ 0 < img.Dy ∧ img.Dy < 2 ^ 32) :
    ∃ s, c.encodeImageToBase64 lib img = .ok s := by
  unfold SlideCaptcha.encodeImageToBase64 pngEncode
  rw [if_neg (by omega)]
  exact ⟨_, rfl⟩

/-- What a successful run of `SlideCaptcha.Generate` tells about the
configuration and about the two numbers it has drawn. -/
theorem generateTrace_ok (lib : ImageLib) (c : SlideCaptcha) (rnd : Nat → Nat)
    (bg tpl : String) (templateY x : Int)
    (h : c.generateTrace lib rnd = some (.ok (bg, tpl, templateY, x)))
    (hW : isGoInt c.config.Width) (hH : isGoInt c.config.Height)
    (hTW : isGoInt c.config.TemplateWidth) (hTH : isGoInt c.config.TemplateHeight) :
    (0 < c.config.Width ∧ c.config.Width < 2 ^ 32) ∧
    (0 < c.config.Height ∧ c.config.Height < 2 ^ 32) ∧
    (-2 ^ 32 < c.config.TemplateWidth ∧ c.config.TemplateWidth < 2 ^ 32) ∧
    (-2 ^ 32 < c.config.TemplateHeight ∧ c.config.TemplateHeight < 2 ^ 32) ∧
    c.randomPosition (rnd 501) (wrapInt64 (c.config.Width - c.config.TemplateWidth)) = some x ∧
    ∃ d, randIntn (rnd 500)
        (wrapInt64 (wrapInt64 (c.config.Height - c.config.TemplateHeight) - 20)) = some d ∧
      templateY = wrapInt64 (d + 10) := by
  unfold isGoInt at hW hH hTW hTH
  unfold SlideCaptcha.generateTrace at h
  cases hb : c.createBackgroundImage rnd with
  | none => rw [hb] at h; cases h
  | some bgimg =>
    rw [hb] at h
    simp only [] at h
    cases ht : c.createTemplateImage (rnd 500) with
    | none => rw [ht] at h; cases h
    | some pair =>
      obtain ⟨timg, tY⟩ := pair
      rw [ht] at h
      simp only [] at h
      cases hp : c.randomPosition (rnd 501)
          (wrapInt64 (c.config.Width - c.config.TemplateWidth)) with
      | none => rw [hp] at h; cases h
      | some px =>
        rw [hp] at h
        simp only [] at h
        cases he1 : c.encodeImageToBase64 lib
            (c.cutHole bgimg px tY c.config.TemplateWidth c.config.TemplateHeight) with
        | error e => rw [he1] at h; cases h
        | ok s1 =>
          rw [he1] at h
          simp only [] at h
          cases he2 : c.encodeImageToBase64 lib timg with
          | error e => rw [he2] at h; cases h
          | ok s2 =>
            rw [he2] at h
            simp only [Option.some.injEq, Except.ok.injEq, Prod.mk.injEq] at h
            obtain ⟨_, _, hy, hx⟩ := h
            obtain ⟨hWpos, hHpos, hrect⟩ := createBackgroundImage_some c rnd bgimg hb
            obtain ⟨htrect, d, hd, hty⟩ := createTemplateImage_some c (rnd 500) timg tY ht
            have hs1 := encodeImageToBase64_ok lib c _ s1 he1
            have hs2 := encodeImageToBase64_ok lib c _ s2 he2
            have hcut : (c.cutHole bgimg px tY c.config.TemplateWidth
                c.config.TemplateHeight).rect = bgimg.rect := rfl
            obtain ⟨hdx1, hdy1⟩ := Image.Dx_of_rect _ _ _ _ _ (hcut.trans hrect)
            obtain ⟨hdx2, hdy2⟩ := Image.Dx_of_rect _ _ _ _ _ htrect
            rw [hdx1, hdy1, sub_zero, sub_zero,
              wrapInt64_of_range _ (by omega) (by omega),
              wrapInt64_of_range _ (by omega) (by omega)] at hs1
            rw [hdx2, hdy2] at hs2
            have habs : ∀ z : Int, -2 ^ 63 ≤ z → z < 2 ^ 63 →
                0 < wrapInt64 (max 0 z - min 0 z) → wrapInt64 (max 0 z - min 0 z) < 2 ^ 32 →
                -2 ^ 32 < z ∧ z < 2 ^ 32 := by
              intro z hz1 hz2 h1 h2
              by_cases hzmin : z = -2 ^ 63
              · rw [hzmin] at h1
                norm_num [wrapInt64] at h1
              · rw [wrapInt64_of_range _ (by omega) (by omega)] at h1 h2
                omega
            refine ⟨⟨hWpos, hs1.2.1⟩, ⟨hHpos, hs1.2.2.2⟩,
              habs _ hTW.1 hTW.2 hs2.1 hs2.2.1, habs _ hTH.1 hTH.2 hs2.2.2.1 hs2.2.2.2,
              ?_, d, hd, ?_⟩
            · rw [← hx]
            · rw [← hy]
              exact hty

theorem generate_of_trace (lib : ImageLib) (c : SlideCaptcha) (rnd : Nat → Nat)
    (bg tpl third : String) (x : Int)
    (h : c.Generate lib rnd = some (.ok (bg, tpl, third, x))) :
    ∃ templateY, c.generateTrace lib rnd = some (.ok (bg, tpl, templateY, x)) ∧ third = "" := by
  unfold SlideCaptcha.Generate at h
  cases ht : c.generateTrace lib rnd with
  | none => rw [ht] at h; cases h
  | some r =>
    rw [ht] at h
    cases r with
    | error e => cases h
    | ok v =>
      obtain ⟨b, t, tY, px⟩ := v
      simp only [Option.some.injEq, Except.ok.injEq, Prod.mk.injEq] at h
      obtain ⟨h1, h2, h3, h4⟩ := h
      exact ⟨tY, by rw [h1, h2, h4], h3.symm⟩

/-- C11: whenever `SlideCaptcha.Generate` returns a target X for a
configuration with `m = Width - TemplateWidth >= 2`, the target X lies between
`floor(0.3 m)` and `floor(0.7 m)`; for width 350 and template width 60 it lies
in `[87, 203]`, so it is neither 50 nor 250. -/
theorem slide_generate_targetX_range (lib : ImageLib) (c : SlideCaptcha) (rnd : Nat → Nat)
    (bg tpl third : String) (targetX : Int)
    (hW : isGoInt c.config.Width) (hH : isGoInt c.config.Height)
    (hTW : isGoInt c.config.TemplateWidth) (hTH : isGoInt c.config.TemplateHeight)
    (hgen : c.Generate lib rnd = some (.ok (bg, tpl, third, targetX)))
    (hm : 2 ≤ c.config.Width - c.config.TemplateWidth) :
    3 * (c.config.Width - c.config.TemplateWidth) / 10 ≤ targetX ∧
    targetX ≤ 7 * (c.config.Width - c.config.TemplateWidth) / 10 ∧
    (c.config.Width = 350 → c.config.TemplateWidth = 60 →
      87 ≤ targetX ∧ targetX ≤ 203 ∧ targetX ≠ 50 ∧ targetX ≠ 250) := by
  obtain ⟨templateY, htrace, _⟩ := generate_of_trace lib c rnd bg tpl third targetX hgen
  obtain ⟨hWr, _, hTWr, _, hpos, _⟩ :=
    generateTrace_ok lib c rnd bg tpl templateY targetX htrace hW hH hTW hTH
  rw [wrapInt64_of_range _ (by omega) (by omega)] at hpos
  obtain ⟨h1, h2⟩ := randomPosition_range c (rnd 501) _ targetX hpos (by omega) (by omega)
  refine ⟨h1, h2, ?_⟩
  intro hw350 htw60
  rw [hw350, htw60] at h1 h2
  omega

/-- `SlideCaptcha.Generate` returns for a configuration of ordinary size
whose draw for the notch position succeeds. -/
theorem generateTrace_returns (lib : ImageLib) (c : SlideCaptcha) (rnd : Nat → Nat)
    (hW : 0 < c.config.Width ∧ c.config.Width < 2 ^ 23)
    (hH : 0 < c.config.Height ∧ c.config.Height < 2 ^ 23)
    (hTW : 0 < c.config.TemplateWidth ∧ c.config.TemplateWidth < 2 ^ 23)
    (hTH : 0 < c.config.TemplateHeight ∧ c.config.TemplateHeight < 2 ^ 23)
    (hY : 20 < c.config.Height - c.config.TemplateHeight)
    (hp : ∃ x, c.randomPosition (rnd 501)
      (wrapInt64 (c.config.Width - c.config.TemplateWidth)) = some x) :
    ∃ bg tpl templateY x, c.generateTrace lib rnd = some (.ok (bg, tpl, templateY, x)) := by
  obtain ⟨bgimg, hb⟩ := createBackgroundImage_of_small c rnd hW hH
  obtain ⟨timg, tY, ht⟩ := createTemplateImage_of_small c (rnd 500)
    ⟨le_of_lt hTW.1, hTW.2⟩ ⟨le_of_lt hTH.1, hTH.2⟩ hH hY
  obtain ⟨px, hpx⟩ := hp
  obtain ⟨_, _, hrect⟩ := createBackgroundImage_some c rnd bgimg hb
  obtain ⟨htrect, _⟩ := createTemplateImage_some c (rnd 500) timg tY ht
  have hcut : (c.cutHole bgimg px tY c.config.TemplateWidth
      c.config.TemplateHeight).rect = bgimg.rect := rfl
  obtain ⟨hdx1, hdy1⟩ := Image.Dx_of_rect _ _ _ _ _ (hcut.trans hrect)
  obtain ⟨hdx2, hdy2⟩ := Image.Dx_of_rect _ _ _ _ _ htrect
  rw [sub_zero, wrapInt64_of_range _ (by omega) (by omega)] at hdx1 hdy1
  rw [wrapInt64_of_range _ (by omega) (by omega)] at hdx2 hdy2
  obtain ⟨s1, hs1⟩ := encodeImageToBase64_of_size lib c
    (c.cutHole bgimg px tY c.config.TemplateWidth c.config.TemplateHeight)
    (by rw [hdx1, hdy1]; omega)
  obtain ⟨s2, hs2⟩ := encodeImageToBase64_of_size lib c timg (by rw [hdx2, hdy2]; omega)
  refine ⟨s1, s2, tY, px, ?_⟩
  unfold SlideCaptcha.generateTrace
  rw [hb]
  simp only []
  rw [ht]
  simp only []
  rw [hpx]
  simp only []
  rw [hs1]
  simp only []
  rw [hs2]

theorem randomPosition_returns (c : SlideCaptcha) (r M : Nat) (hM : M < 2 ^ 53)
    (h : float64OfNat (M * 5404319552844595) / 2 ^ 54
      < float64OfNat (M * 6305039478318694) / 2 ^ 53) :
    ∃ x, c.randomPosition r (M : Int) = some x := by
  have hmaxle := trunc_seven_tenths_upper M hM
  unfold SlideCaptcha.randomPosition
  simp only [truncMulFloat_of_small M _ _ hM]
  generalize float64OfNat (M * 5404319552844595) / 2 ^ 54 = lo at h
  generalize float64OfNat (M * 6305039478318694) / 2 ^ 53 = hi at h hmaxle
  norm_num at hM
  rw [wrapInt64_of_range _ (by omega) (by omega), randIntn_of_pos _ _ (by omega)]
  exact ⟨_, rfl⟩

theorem randomPosition_290 (c : SlideCaptcha) (r : Nat) :
    ∃ x, c.randomPosition r ((290 : Nat) : Int) = some x := by
  have hmin : float64OfNat (290 * 5404319552844595) / 2 ^ 54 ≤ 87 := by
    apply Nat.div_le_of_le_mul
    rw [Nat.mul_comm (2 ^ 54) 87]
    exact float64OfNat_le _ _ _ (by norm_num) (by norm_num)
  have hmax : 202 ≤ float64OfNat (290 * 6305039478318694) / 2 ^ 53 := by
    rw [Nat.le_div_iff_mul_le (by norm_num)]
    exact float64OfNat_ge _ _ _ (by norm_num) (by norm_num)
  exact randomPosition_returns c r 290 (by norm_num) (lt_of_le_of_lt hmin (by omega))

theorem sampleSlideCaptcha_config :
    sampleSlideCaptcha.config = ⟨350, 200, 60, 60, fiveMinutes, "", ""⟩ := rfl

/-- On the example configuration (350 by 200, template 60 by 60)
`SlideCaptcha.Generate` returns, whatever the library and the draws. -/
theorem sample_slide_generateTrace (lib : ImageLib) (rnd : Nat → Nat) :
    ∃ bg tpl templateY x,
      sampleSlideCaptcha.generateTrace lib rnd = some (.ok (bg, tpl, templateY, x)) :=
  generateTrace_returns lib sampleSlideCaptcha rnd
    (by rw [sampleSlideCaptcha_config]; norm_num)
    (by rw [sampleSlideCaptcha_config]; norm_num)
    (by rw [sampleSlideCaptcha_config]; norm_num)
    (by rw [sampleSlideCaptcha_config]; norm_num)
    (by rw [sampleSlideCaptcha_config]; norm_num)
    (by
      have h : wrapInt64 (sampleSlideCaptcha.config.Width
          - sampleSlideCaptcha.config.TemplateWidth) = ((290 : Nat) : Int) := by
        rw [sampleSlideCaptcha_config]
        norm_num [wrapInt64]
      rw [h]
      exact randomPosition_290 sampleSlideCaptcha (rnd 501))

theorem generate_of_generateTrace (lib : ImageLib) (c : SlideCaptcha) (rnd : Nat → Nat)
    (bg tpl : String) (templateY x : Int)
    (h : c.generateTrace lib rnd = some (.ok (bg, tpl, templateY, x))) :
    c.Generate lib rnd = some (.ok (bg, tpl, "", x)) := by
  unfold SlideCaptcha.Generate
  rw [h]

theorem sample_slide_generate (lib : ImageLib) (rnd : Nat → Nat) :
    ∃ bg tpl x, sampleSlideCaptcha.Generate lib rnd = some (.ok (bg, tpl, "", x)) := by
  obtain ⟨bg, tpl, tY, x, h⟩ := sample_slide_generateTrace lib rnd
  exact ⟨bg, tpl, x, generate_of_generateTrace lib sampleSlideCaptcha rnd bg tpl tY x h⟩

/-- C11 on the example configuration (350 by 200, template 60 by 60):
`Generate` returns and its target X is in `[87, 203]`. -/
theorem slide_generate_targetX_range_witness :
    ∃ bg tpl x, sampleSlideCaptcha.Generate sampleImageLib (fun _ => 0)
        = some (.ok (bg, tpl, "", x)) ∧ 87 ≤ x ∧ x ≤ 203 := by
  obtain ⟨bg, tpl, x, h⟩ := sample_slide_generate sampleImageLib (fun _ => 0)
  have hr := ((slide_generate_targetX_range sampleImageLib sampleSlideCaptcha (fun _ => 0)
    bg tpl "" x (by rw [sampleSlideCaptcha_config]; norm_num [isGoInt])
    (by rw [sampleSlideCaptcha_config]; norm_num [isGoInt])
    (by rw [sampleSlideCaptcha_config]; norm_num [isGoInt])
    (by rw [sampleSlideCaptcha_config]; norm_num [isGoInt])
    h (by rw [sampleSlideCaptcha_config]; norm_num)).2.2 rfl rfl)
  exact ⟨bg, tpl, x, h, hr.1, hr.2.1⟩

/-! ### Service: slide response -/

theorem generate_slide_response (s : Service) (m : MemStore) (hs : s.store = Store.mem m)
    (captchaID : String) (now : Int) (g : Generators) (bg tpl third : String) (x : Int)
    (hg : g.slide (NewSlideCaptcha s.slideConfig) = .ok (bg, tpl, third, x)) :
    (s.Generate SlideTypeSelect captchaID now g).1 =
      .ok { CaptchaID := captchaID, CaptchaType := SlideTypeSelect,
            Data := CaptchaData.slide bg tpl 0 s.slideConfig.Width s.slideConfig.Height,
            ExpireTime := (now + s.slideConfig.ExpireTime) / 1000000000 } := by
  unfold Service.Generate
  have h1 : SlideTypeSelect ≠ CaptchaTypeCharacter := by decide
  have h2 : SlideTypeSelect ≠ CaptchaTypeImageSelect := by decide
  simp only [if_neg h1, if_neg h2, if_true, hg, hs, Store.Set, MemStore.Set]

theorem withSlide_slide (g : Generators) (lib : ImageLib) (rnd : Nat → Nat) (c : SlideCaptcha)
    (r : Except Err (String × String × String × Int)) (h : c.Generate lib rnd = some r) :
    (g.withSlide lib rnd).slide c = r := by
  unfold Generators.withSlide
  simp only [h]

theorem sampleSlideConfigService_captcha :
    NewSlideCaptcha sampleSlideConfigService.slideConfig = sampleSlideCaptcha := rfl

/-- C18 (the code at the failing input): on the example configuration the
notch is cut at a template Y of at least 10, whatever the draws, while the
`TemplateY` of the response of `Service.Generate` is the constant 0. -/
theorem slide_response_templateY_zero (lib : ImageLib) (rnd : Nat → Nat) (now : Int) :
    ∃ bg tpl templateY x,
      sampleSlideCaptcha.generateTrace lib rnd = some (.ok (bg, tpl, templateY, x)) ∧
      10 ≤ templateY ∧
      (sampleSlideConfigService.Generate SlideTypeSelect "id-2" now
          (sampleGenerators.withSlide lib rnd)).1 =
        .ok { CaptchaID := "id-2", CaptchaType := SlideTypeSelect,
              Data := CaptchaData.slide bg tpl 0 sampleSlideConfigService.slideConfig.Width
                sampleSlideConfigService.slideConfig.Height,
              ExpireTime := (now + sampleSlideConfigService.slideConfig.ExpireTime)
                / 1000000000 } := by
  obtain ⟨bg, tpl, tY, x, h⟩ := sample_slide_generateTrace lib rnd
  have hgen := generate_of_generateTrace lib sampleSlideCaptcha rnd bg tpl tY x h
  obtain ⟨_, _, _, _, _, d, hd, hty⟩ := generateTrace_ok lib sampleSlideCaptcha rnd bg tpl tY x h
    (by rw [sampleSlideCaptcha_config]; norm_num [isGoInt])
    (by rw [sampleSlideCaptcha_config]; norm_num [isGoInt])
    (by rw [sampleSlideCaptcha_config]; norm_num [isGoInt])
    (by rw [sampleSlideCaptcha_config]; norm_num [isGoInt])
  refine ⟨bg, tpl, tY, x, h, ?_, ?_⟩
  · obtain ⟨hn, hd0, hd1⟩ := randIntn_some _ _ _ hd
    have hval : wrapInt64 (wrapInt64 (sampleSlideCaptcha.config.Height
        - sampleSlideCaptcha.config.TemplateHeight) - 20) = 120 := by
      rw [sampleSlideCaptcha_config]
      norm_num [wrapInt64]
    rw [hval] at hd1
    rw [hty, wrapInt64_of_range _ (by omega) (by omega)]
    omega
  · have hg : (sampleGenerators.withSlide lib rnd).slide
        (NewSlideCaptcha sampleSlideConfigService.slideConfig) = .ok (bg, tpl, "", x) := by
      rw [sampleSlideConfigService_captcha]
      exact withSlide_slide sampleGenerators lib rnd sampleSlideCaptcha _ hgen
    exact generate_slide_response sampleSlideConfigService NewMemStore rfl "id-2" now _
      bg tpl "" x hg

/-! ### Placeholder images -/

theorem fillRect_rect (img : Image) (x0 x1 y0 y1 : Int) (c : RGBA) :
    (fillRect img x0 x1 y0 y1 c).rect = img.rect := rfl

theorem drawCircle_rect (img : Image) (cx cy r : Int) (c : RGBA) :
    (drawCircle img cx cy r c).rect = img.rect := rfl

theorem placeholderIcon_rect (i : Nat) (img : Image) : (placeholderIcon i img).rect = img.rect := by
  unfold placeholderIcon
  split <;> simp only [fillRect_rect, drawCircle_rect]

/-- One iteration of the loop of `generatePlaceholderImages` at an index that
has a label: the image is encoded and the loop goes on. -/
theorem placeholderLoop_step (lib : ImageLib) (c : ImageSelectCaptcha) (k i : Nat)
    (images : List String) (hi : i < 4) :
    ∃ b, ImageSelectCaptcha.placeholderLoop lib c (k + 1) i images
      = ImageSelectCaptcha.placeholderLoop lib c k (i + 1) (images ++ [b]) := by
  obtain ⟨img0, h0⟩ := NewRGBA_of_small 200 150 (by norm_num) (by norm_num)
  have hrect := NewRGBA_some _ _ _ h0
  obtain ⟨label, hlabel⟩ : ∃ label, placeholderLabels[i]? = some label := by
    have : i < placeholderLabels.length := by
      show i < 4
      exact hi
    exact ⟨_, List.getElem?_eq_getElem this⟩
  rw [ImageSelectCaptcha.placeholderLoop, h0]
  simp only [hlabel]
  have hr2 : Image.rect { placeholderIcon i (fillRect img0 img0.minX img0.maxX img0.minY
      img0.maxY ⟨255, 255, 255, 255⟩) with
      pix := lib.drawString (placeholderIcon i (fillRect img0 img0.minX img0.maxX img0.minY
        img0.maxY ⟨255, 255, 255, 255⟩)) ⟨0, 0, 0, 255⟩ label 85 135 } = (0, 0, 200, 150) := by
    have e : ∀ (a : Image) (p : Int → Int → RGBA), Image.rect { a with pix := p } = a.rect :=
      fun _ _ => rfl
    rw [e, placeholderIcon_rect, fillRect_rect, hrect]
    norm_num
  obtain ⟨hdx, hdy⟩ := Image.Dx_of_rect _ _ _ _ _ hr2
  have hdx2 : wrapInt64 (200 - 0) = 200 := by norm_num [wrapInt64]
  have hdy2 : wrapInt64 (150 - 0) = 150 := by norm_num [wrapInt64]
  rw [hdx2] at hdx
  rw [hdy2] at hdy
  unfold ImageSelectCaptcha.encodeImageToBase64 pngEncode
  rw [hdx, hdy, if_neg (by norm_num)]
  exact ⟨_, rfl⟩

theorem placeholderLoop_ok (lib : ImageLib) (c : ImageSelectCaptcha) :
    ∀ (k i : Nat) (images : List String), i + k ≤ 4 →
      ∃ res, ImageSelectCaptcha.placeholderLoop lib c k i images = some (.ok res) ∧
        res.length = images.length + k := by
  intro k
  induction k with
  | zero =>
    intro i images _
    exact ⟨images, rfl, rfl⟩
  | succ k ih =>
    intro i images h
    obtain ⟨b, hb⟩ := placeholderLoop_step lib c k i images (by omega)
    obtain ⟨res, hres, hlen⟩ := ih (i + 1) (images ++ [b]) (by omega)
    refine ⟨res, by rw [hb, hres], ?_⟩
    rw [hlen, List.length_append]
    simp only [List.length_singleton]
    omega

theorem placeholderLoop_panics (lib : ImageLib) (c : ImageSelectCaptcha) :
    ∀ (k i : Nat) (images : List String), i ≤ 4 → 4 < i + k →
      ImageSelectCaptcha.placeholderLoop lib c k i images = none := by
  intro k
  induction k with
  | zero =>
    intro i images h1 h2
    omega
  | succ k ih =>
    intro i images h1 h2
    by_cases hi : i < 4
    · obtain ⟨b, hb⟩ := placeholderLoop_step lib c k i images hi
      rw [hb]
      exact ih (i + 1) _ (by omega) (by omega)
    · have hi4 : i = 4 := by omega
      subst hi4
      obtain ⟨img0, h0⟩ := NewRGBA_of_small 200 150 (by norm_num) (by norm_num)
      rw [ImageSelectCaptcha.placeholderLoop, h0]
      rfl

/-- C17 (the code at the failing input): with `ImageCount` 5
`generatePlaceholderImages` renders four images and then panics on
`labels[4]`, whatever the image library; with `ImageCount` 4 it returns four
images. -/
theorem placeholder_images_panic_at_five (lib : ImageLib) :
    (NewImageSelectCaptcha ⟨5, 1, 0, "", ""⟩).generatePlaceholderImages lib = none ∧
    ∃ res, (NewImageSelectCaptcha ⟨4, 1, 0, "", ""⟩).generatePlaceholderImages lib
        = some (.ok res) ∧ res.length = 4 := by
  constructor
  · exact placeholderLoop_panics lib _ 5 0 [] (by norm_num) (by norm_num)
  · obtain ⟨res, h1, h2⟩ := placeholderLoop_ok lib (NewImageSelectCaptcha ⟨4, 1, 0, "", ""⟩)
      4 0 [] (by norm_num)
    exact ⟨res, h1, h2⟩

/-! ### Interference lines -/

/-- A state of the loop of `drawLine` that is not the end point and in which
neither branch fires is repeated for ever. -/
theorem drawLineLoop_stuck (c : CharacterCaptcha) (col : RGBA) (x2 y2 dx dy sx sy x1 y1 err : Int)
    (hne : ¬ (x1 = x2 ∧ y1 = y2)) (h1 : ¬ wrapInt64 (2 * err) > wrapInt64 (-dy))
    (h2 : ¬ wrapInt64 (2 * err) < dx) :
    ∀ (fuel : Nat) (img : Image),
      CharacterCaptcha.drawLineLoop c col x2 y2 dx dy sx sy fuel img x1 y1 err = none := by
  intro fuel
  induction fuel with
  | zero =>
    intro img
    rfl
  | succ n ih =>
    intro img
    rw [CharacterCaptcha.drawLineLoop]
    simp only [if_neg hne, if_neg h1, if_neg h2]
    exact ih _

/-- The line from `(0, 0)` to `(-2^63, 0)` is never finished, on any canvas:
`abs` of the wrapped difference is `-2^63`, twice the error term wraps to 0,
and no loop variable changes. -/
theorem drawLine_never_ends (c : CharacterCaptcha) (img : Image) (col : RGBA) (fuel : Nat) :
    c.drawLine img 0 0 (-2 ^ 63) 0 col fuel = none := by
  have hw : wrapInt64 (-2 ^ 63 - 0) = -2 ^ 63 := by norm_num [wrapInt64]
  have ha : abs (-2 ^ 63) = -2 ^ 63 := by
    unfold abs
    rw [if_pos (by norm_num)]
    norm_num [wrapInt64]
  have hb : abs (wrapInt64 (0 - 0)) = 0 := by norm_num [wrapInt64, abs]
  have he : wrapInt64 (-2 ^ 63 - 0) = -2 ^ 63 := hw
  unfold CharacterCaptcha.drawLine
  simp only [hw, ha, hb, he]
  apply drawLineLoop_stuck
  · norm_num
  · norm_num [wrapInt64]
  · norm_num [wrapInt64]

/-- C20 (counterexample): on the default canvas the line from `(0, 0)` to
`(-2^63, 0)` has no result, whatever the number of iterations allowed. -/
theorem drawLine_diverges :
    ¬ ∃ (fuel : Nat) (res : Image),
      (NewCharacterCaptcha ⟨200, 80, 4, 0, 2⟩).drawLine sampleLineCanvas 0 0 (-2 ^ 63) 0
        ⟨0, 0, 0, 255⟩ fuel = some res := by
  rintro ⟨fuel, res, h⟩
  rw [drawLine_never_ends] at h
  cases h

theorem abs_of_small (z : Int) (h : -2 ^ 61 ≤ z ∧ z ≤ 2 ^ 61) :
    abs (wrapInt64 z) = (z.natAbs : Int) := by
  rw [wrapInt64_of_range z (by omega) (by omega)]
  unfold abs
  split_ifs with hz
  · rw [wrapInt64_of_range (-z) (by omega) (by omega)]
    omega
  · omega

/-- The conditional `img.Set` at the head of the loop of `drawLine`. -/
theorem drawLine_plot (c : CharacterCaptcha) (img : Image) (x y : Int) (col : RGBA) :
    (if x ≥ 0 ∧ x < c.config.Width ∧ y ≥ 0 ∧ y < c.config.Height then img.Set x y col
      else img).rect = img.rect ∧
    ∀ a b, (if x ≥ 0 ∧ x < c.config.Width ∧ y ≥ 0 ∧ y < c.config.Height then img.Set x y col
      else img).pix a b =
      if (a = x ∧ b = y) ∧ (a ≥ 0 ∧ a < c.config.Width ∧ b ≥ 0 ∧ b < c.config.Height) ∧
          img.inBounds a b = true then col
      else img.pix a b := by
  constructor
  · split_ifs
    · exact Image.rect_Set _ _ _ _
    · rfl
  · intro a b
    by_cases hg : x ≥ 0 ∧ x < c.config.Width ∧ y ≥ 0 ∧ y < c.config.Height
    · rw [if_pos hg]
      unfold Image.Set
      by_cases hb : img.inBounds x y = true
      · rw [if_pos hb]
        by_cases hab : a = x ∧ b = y
        · obtain ⟨rfl, rfl⟩ := hab
          rw [if_pos ⟨⟨rfl, rfl⟩, hg, hb⟩]
          exact if_pos ⟨rfl, rfl⟩
        · simp only [if_neg hab]
          rw [if_neg (fun h => hab h.1)]
      · rw [if_neg hb]
        rw [if_neg]
        rintro ⟨⟨rfl, rfl⟩, _, h⟩
        exact hb h
    · rw [if_neg hg, if_neg]
      rintro ⟨⟨rfl, rfl⟩, h, _⟩
      exact hg h

/-- One iteration of the loop of `drawLine` away from the end point, with
`rx` and `ry` steps left along the two axes: the error term keeps its closed
form and its bounds, one of the two counters decreases, and no operation
wraps. -/
theorem drawLineLoop_step (c : CharacterCaptcha) (col : RGBA) (x2 y2 dx dy sx sy : Int)
    (hsx : sx = 1 ∨ sx = -1) (hsy : sy = 1 ∨ sy = -1)
    (hdx : 0 ≤ dx ∧ dx ≤ 2 ^ 61) (hdy : 0 ≤ dy ∧ dy ≤ 2 ^ 61)
    (hgx2 : isGoInt x2) (hgy2 : isGoInt y2)
    (n : Nat) (img : Image) (x y err : Int) (rx ry : Nat)
    (hpos : 0 < rx + ry) (hx : x2 = x + sx * rx) (hy : y2 = y + sy * ry)
    (hrx : (rx : Int) ≤ dx) (hry : (ry : Int) ≤ dy) (hgx : isGoInt x) (hgy : isGoInt y)
    (herr : err = dx - dy + rx * dy - ry * dx)
    (hlo : -3 * dy ≤ 2 * err) (hhi : 2 * err ≤ 3 * dx) :
    ∃ (x' y' err' : Int) (rx' ry' : Nat),
      CharacterCaptcha.drawLineLoop c col x2 y2 dx dy sx sy (n + 1) img x y err =
        CharacterCaptcha.drawLineLoop c col x2 y2 dx dy sx sy n
          (if x ≥ 0 ∧ x < c.config.Width ∧ y ≥ 0 ∧ y < c.config.Height then img.Set x y col
            else img) x' y' err' ∧
      rx' + ry' < rx + ry ∧ x2 = x' + sx * rx' ∧ y2 = y' + sy * ry' ∧
      (rx' : Int) ≤ dx ∧ (ry' : Int) ≤ dy ∧ isGoInt x' ∧ isGoInt y' ∧
      err' = dx - dy + rx' * dy - ry' * dx ∧ -3 * dy ≤ 2 * err' ∧ 2 * err' ≤ 3 * dx ∧
      (-1 ≤ x' - x ∧ x' - x ≤ 1) ∧ (-1 ≤ y' - y ∧ y' - y ≤ 1) := by
  unfold isGoInt at hgx hgy hgx2 hgy2 ⊢
  have hne : ¬ (x = x2 ∧ y = y2) := by
    rintro ⟨h1, h2⟩
    rcases hsx with rfl | rfl <;> rcases hsy with rfl | rfl <;> omega
  have h2e : wrapInt64 (2 * err) = 2 * err := wrapInt64_of_range _ (by omega) (by omega)
  have hndy : wrapInt64 (-dy) = -dy := wrapInt64_of_range _ (by omega) (by omega)
  have hA : rx = 0 → ¬ (2 * err > -dy) := by
    intro h0
    subst h0
    obtain ⟨k, rfl⟩ : ∃ k, ry = k + 1 := ⟨ry - 1, by omega⟩
    have hk : 0 ≤ (k : Int) * dx := mul_nonneg (Int.ofNat_nonneg k) hdx.1
    push_cast at herr
    have e : err = -dy - (k : Int) * dx := by rw [herr]; ring
    rw [e]
    intro hc
    linarith [hdy.1]
  have hB : ry = 0 → ¬ (2 * err < dx) := by
    intro h0
    subst h0
    obtain ⟨k, rfl⟩ : ∃ k, rx = k + 1 := ⟨rx - 1, by omega⟩
    have hk : 0 ≤ (k : Int) * dy := mul_nonneg (Int.ofNat_nonneg k) hdy.1
    push_cast at herr
    have e : err = dx + (k : Int) * dy := by rw [herr]; ring
    rw [e]
    intro hc
    linarith [hdx.1]
  by_cases hX : 2 * err > -dy
  · obtain ⟨k, rfl⟩ : ∃ k, rx = k + 1 := by
      rcases rx with _ | k
      · exact absurd hX (hA rfl)
      · exact ⟨k, rfl⟩
    have hgx' : -2 ^ 63 ≤ x + sx ∧ x + sx < 2 ^ 63 := by
      rcases hsx with rfl | rfl <;> push_cast at hx <;> omega
    have hwx : wrapInt64 (x + sx) = x + sx := wrapInt64_of_range _ hgx'.1 hgx'.2
    have hwe : wrapInt64 (err - dy) = err - dy := wrapInt64_of_range _ (by omega) (by omega)
    have hx' : x2 = x + sx + sx * (k : Int) := by
      rw [hx]
      push_cast
      ring
    have he' : err - dy = dx - dy + (k : Int) * dy - ry * dx := by
      rw [herr]
      push_cast
      ring
    have hstepx : -1 ≤ x + sx - x ∧ x + sx - x ≤ 1 := by
      rcases hsx with rfl | rfl <;> omega
    push_cast at hrx
    by_cases hY : 2 * err < dx
    · obtain ⟨j, rfl⟩ : ∃ j, ry = j + 1 := by
        rcases ry with _ | j
        · exact absurd hY (hB rfl)
        · exact ⟨j, rfl⟩
      have hgy' : -2 ^ 63 ≤ y + sy ∧ y + sy < 2 ^ 63 := by
        rcases hsy with rfl | rfl <;> push_cast at hy <;> omega
      have hwy : wrapInt64 (y + sy) = y + sy := wrapInt64_of_range _ hgy'.1 hgy'.2
      have hwe2 : wrapInt64 (err - dy + dx) = err - dy + dx :=
        wrapInt64_of_range _ (by omega) (by omega)
      have hy' : y2 = y + sy + sy * (j : Int) := by
        rw [hy]
        push_cast
        ring
      have he2 : err - dy + dx = dx - dy + (k : Int) * dy - (j : Int) * dx := by
        rw [herr]
        push_cast
        ring
      have hstepy : -1 ≤ y + sy - y ∧ y + sy - y ≤ 1 := by
        rcases hsy with rfl | rfl <;> omega
      push_cast at hry
      refine ⟨x + sx, y + sy, err - dy + dx, k, j, ?_, by omega, hx', hy', by omega, by omega,
        ?_, ?_, he2, by omega, by omega, hstepx, hstepy⟩
      · rw [CharacterCaptcha.drawLineLoop]
        simp only [if_neg hne, h2e, hndy, if_pos hX, if_pos hY, hwx, hwe, hwy, hwe2]
      · exact hgx'
      · exact hgy'
    · refine ⟨x + sx, y, err - dy, k, ry, ?_, by omega, hx', hy, by omega, hry,
        ?_, hgy, he', by omega, by omega, hstepx, by omega⟩
      · rw [CharacterCaptcha.drawLineLoop]
        simp only [if_neg hne, h2e, hndy, if_pos hX, if_neg hY, hwx, hwe]
      · exact hgx'
  · have hY : 2 * err < dx := by omega
    obtain ⟨j, rfl⟩ : ∃ j, ry = j + 1 := by
      rcases ry with _ | j
      · exact absurd hY (hB rfl)
      · exact ⟨j, rfl⟩
    have hgy' : -2 ^ 63 ≤ y + sy ∧ y + sy < 2 ^ 63 := by
      rcases hsy with rfl | rfl <;> push_cast at hy <;> omega
    have hwy : wrapInt64 (y + sy) = y + sy := wrapInt64_of_range _ hgy'.1 hgy'.2
    have hwe2 : wrapInt64 (err + dx) = err + dx := wrapInt64_of_range _ (by omega) (by omega)
    have hy' : y2 = y + sy + sy * (j : Int) := by
      rw [hy]
      push_cast
      ring
    have he2 : err + dx = dx - dy + (rx : Int) * dy - (j : Int) * dx := by
      rw [herr]
      push_cast
      ring
    have hstepy : -1 ≤ y + sy - y ∧ y + sy - y ≤ 1 := by
      rcases hsy with rfl | rfl <;> omega
    push_cast at hry
    refine ⟨x, y + sy, err + dx, rx, j, ?_, by omega, hx, hy', hrx, by omega,
      hgx, ?_, he2, by omega, by omega, by omega, hstepy⟩
    · rw [CharacterCaptcha.drawLineLoop]
      simp only [if_neg hne, h2e, hndy, if_neg hX, if_pos hY, hwy, hwe2]
    · exact hgy'

/-- A larger iteration budget does not change a result of the loop of
`drawLine`. -/
theorem drawLineLoop_mono (c : CharacterCaptcha) (col : RGBA) (x2 y2 dx dy sx sy : Int) :
    ∀ (fuel : Nat) (img : Image) (x y err : Int) (res : Image),
      CharacterCaptcha.drawLineLoop c col x2 y2 dx dy sx sy fuel img x y err = some res →
      ∀ k, CharacterCaptcha.drawLineLoop c col x2 y2 dx dy sx sy (fuel + k) img x y err
        = some res := by
  intro fuel
  induction fuel with
  | zero =>
    intro img x y err res h
    exact absurd h (by simp [CharacterCaptcha.drawLineLoop])
  | succ n ih =>
    intro img x y err res h k
    have e : n + 1 + k = (n + k) + 1 := by omega
    rw [e, CharacterCaptcha.drawLineLoop]
    rw [CharacterCaptcha.drawLineLoop] at h
    by_cases hend : x = x2 ∧ y = y2
    · simp only [if_pos hend] at h ⊢
      exact h
    · simp only [if_neg hend] at h ⊢
      exact ih _ _ _ _ _ h k

/-- The loop of `drawLine` from a state with `rx` and `ry` steps left: with a
budget above `rx + ry` it ends, and the pixels it sets are the points of a
path from the current point to the end point that lie on the canvas. -/
theorem drawLineLoop_path (c : CharacterCaptcha) (col : RGBA) (x2 y2 dx dy sx sy : Int)
    (hsx : sx = 1 ∨ sx = -1) (hsy : sy = 1 ∨ sy = -1)
    (hdx : 0 ≤ dx ∧ dx ≤ 2 ^ 61) (hdy : 0 ≤ dy ∧ dy ≤ 2 ^ 61)
    (hgx2 : isGoInt x2) (hgy2 : isGoInt y2) :
    ∀ (fuel : Nat) (img : Image) (x y err : Int) (rx ry : Nat),
      rx + ry < fuel → x2 = x + sx * rx → y2 = y + sy * ry →
      (rx : Int) ≤ dx → (ry : Int) ≤ dy → isGoInt x → isGoInt y →
      err = dx - dy + rx * dy - ry * dx → -3 * dy ≤ 2 * err → 2 * err ≤ 3 * dx →
      ∃ (path : List (Int × Int)) (res : Image),
        CharacterCaptcha.drawLineLoop c col x2 y2 dx dy sx sy fuel img x y err = some res ∧
        path.head? = some (x, y) ∧ path.getLast? = some (x2, y2) ∧
        List.Chain' (fun p q => (-1 ≤ q.1 - p.1 ∧ q.1 - p.1 ≤ 1) ∧
          (-1 ≤ q.2 - p.2 ∧ q.2 - p.2 ≤ 1)) path ∧
        res.rect = img.rect ∧
        ∀ a b, res.pix a b =
          if (a, b) ∈ path ∧ (a ≥ 0 ∧ a < c.config.Width ∧ b ≥ 0 ∧ b < c.config.Height) ∧
              img.inBounds a b = true then col
          else img.pix a b := by
  intro fuel
  induction fuel with
  | zero =>
    intro img x y err rx ry h
    omega
  | succ n ih =>
    intro img x y err rx ry hfuel hx hy hrx hry hgx hgy herr hlo hhi
    obtain ⟨hprect, hppix⟩ := drawLine_plot c img x y col
    by_cases hpos : 0 < rx + ry
    · obtain ⟨x', y', err', rx', ry', hloop, hlt, hx', hy', hrx', hry', hgx', hgy', herr',
        hlo', hhi', hsx', hsy'⟩ :=
        drawLineLoop_step c col x2 y2 dx dy sx sy hsx hsy hdx hdy hgx2 hgy2 n img x y err rx ry
          hpos hx hy hrx hry hgx hgy herr hlo hhi
      obtain ⟨path, res, hres, hhead, hlast, hchain, hrect, hpix⟩ :=
        ih _ x' y' err' rx' ry' (by omega) hx' hy' hrx' hry' hgx' hgy' herr' hlo' hhi'
      have hne : path ≠ [] := by
        intro h0
        rw [h0] at hhead
        exact absurd hhead (by simp)
      refine ⟨(x, y) :: path, res, by rw [hloop, hres], rfl, ?_, ?_, by rw [hrect, hprect], ?_⟩
      · have hl : ∀ (l : List (Int × Int)), l ≠ [] → ((x, y) :: l).getLast? = l.getLast? := by
          intro l hl
          cases l with
          | nil => exact absurd rfl hl
          | cons p ps => exact List.getLast?_cons_cons
        rw [hl path hne]
        exact hlast
      · rw [List.chain'_cons']
        refine ⟨?_, hchain⟩
        intro q hq
        rw [hhead] at hq
        simp only [Option.mem_def, Option.some.injEq] at hq
        rw [← hq]
        exact ⟨hsx', hsy'⟩
      · intro a b
        have hin : ∀ (i j : Image), i.rect = j.rect → i.inBounds a b = j.inBounds a b := by
          intro i j hij
          unfold Image.rect at hij
          simp only [Prod.mk.injEq] at hij
          obtain ⟨h1, h2, h3, h4⟩ := hij
          unfold Image.inBounds
          rw [h1, h2, h3, h4]
        rw [hpix a b, hin _ _ hprect, hppix a b]
        by_cases hg : (a ≥ 0 ∧ a < c.config.Width ∧ b ≥ 0 ∧ b < c.config.Height) ∧
            img.inBounds a b = true
        · by_cases hm : (a, b) ∈ path
          · rw [if_pos ⟨hm, hg⟩, if_pos ⟨List.mem_cons_of_mem _ hm, hg⟩]
          · rw [if_neg (fun h => hm h.1)]
            by_cases hxy : a = x ∧ b = y
            · rw [if_pos ⟨hxy, hg⟩, if_pos]
              obtain ⟨rfl, rfl⟩ := hxy
              exact ⟨List.mem_cons_self _ _, hg⟩
            · rw [if_neg (fun h => hxy h.1), if_neg]
              rintro ⟨hmem, _⟩
              rcases List.mem_cons.mp hmem with h | h
              · simp only [Prod.mk.injEq] at h
                exact hxy h
              · exact hm h
        · rw [if_neg (fun h => hg h.2), if_neg (fun h => hg h.2), if_neg (fun h => hg h.2)]
    · have hrx0 : rx = 0 := by omega
      have hry0 : ry = 0 := by omega
      subst hrx0
      subst hry0
      have hxe : x = x2 := by
        rw [hx]
        simp
      have hye : y = y2 := by
        rw [hy]
        simp
      refine ⟨[(x, y)], _, ?_, rfl, ?_, List.chain'_singleton _, hprect, ?_⟩
      · rw [CharacterCaptcha.drawLineLoop]
        simp only [if_pos (And.intro hxe hye)]
      · rw [hxe, hye]
        rfl
      · intro a b
        rw [hppix a b]
        by_cases hxy : a = x ∧ b = y
        · by_cases hg : (a ≥ 0 ∧ a < c.config.Width ∧ b ≥ 0 ∧ b < c.config.Height) ∧
              img.inBounds a b = true
          · rw [if_pos ⟨hxy, hg⟩, if_pos]
            obtain ⟨rfl, rfl⟩ := hxy
            exact ⟨List.mem_singleton_self _, hg⟩
          · rw [if_neg (fun h => hg h.2), if_neg (fun h => hg h.2)]
        · rw [if_neg (fun h => hxy h.1), if_neg]
          rintro ⟨hmem, _⟩
          rw [List.mem_singleton] at hmem
          simp only [Prod.mk.injEq] at hmem
          exact hxy hmem

/-- C20 (amended): for end points in the range of `int` whose coordinate
differences are at most `2^61` in absolute value, on every canvas `drawLine`
terminates (any budget above `|x2 - x1| + |y2 - y1|` gives the same image),
and the pixels it sets to the line colour are exactly the points, inside
both the configured canvas and the image, of a path that starts at
`(x1, y1)`, ends at `(x2, y2)` and moves by at most one pixel along each axis
per step; every other pixel and the bounds of the image are unchanged. -/
theorem drawLine_path (c : CharacterCaptcha) (img : Image) (x1 y1 x2 y2 : Int) (col : RGBA)
    (h1 : isGoInt x1) (h2 : isGoInt y1) (h3 : isGoInt x2) (h4 : isGoInt y2)
    (hdx : -2 ^ 61 ≤ x2 - x1 ∧ x2 - x1 ≤ 2 ^ 61)
    (hdy : -2 ^ 61 ≤ y2 - y1 ∧ y2 - y1 ≤ 2 ^ 61) :
    ∃ (path : List (Int × Int)) (res : Image),
      (∀ fuel, (x2 - x1).natAbs + (y2 - y1).natAbs < fuel →
        c.drawLine img x1 y1 x2 y2 col fuel = some res) ∧
      path.head? = some (x1, y1) ∧ path.getLast? = some (x2, y2) ∧
      List.Chain' (fun p q => (-1 ≤ q.1 - p.1 ∧ q.1 - p.1 ≤ 1) ∧
        (-1 ≤ q.2 - p.2 ∧ q.2 - p.2 ≤ 1)) path ∧
      res.rect = img.rect ∧
      ∀ a b, res.pix a b =
        if (a, b) ∈ path ∧ (a ≥ 0 ∧ a < c.config.Width ∧ b ≥ 0 ∧ b < c.config.Height) ∧
            img.inBounds a b = true then col
        else img.pix a b := by
  have hax := abs_of_small (x2 - x1) hdx
  have hay := abs_of_small (y2 - y1) hdy
  have hsx : (if x1 > x2 then (-1 : Int) else 1) = 1 ∨ (if x1 > x2 then (-1 : Int) else 1) = -1 := by
    split_ifs
    · exact Or.inr rfl
    · exact Or.inl rfl
  have hsy : (if y1 > y2 then (-1 : Int) else 1) = 1 ∨ (if y1 > y2 then (-1 : Int) else 1) = -1 := by
    split_ifs
    · exact Or.inr rfl
    · exact Or.inl rfl
  have hrx : x2 = x1 + (if x1 > x2 then (-1 : Int) else 1) * ((x2 - x1).natAbs : Int) := by
    split_ifs <;> omega
  have hry : y2 = y1 + (if y1 > y2 then (-1 : Int) else 1) * ((y2 - y1).natAbs : Int) := by
    split_ifs <;> omega
  have hdxr : (0 : Int) ≤ ((x2 - x1).natAbs : Int) ∧ ((x2 - x1).natAbs : Int) ≤ 2 ^ 61 := by
    omega
  have hdyr : (0 : Int) ≤ ((y2 - y1).natAbs : Int) ∧ ((y2 - y1).natAbs : Int) ≤ 2 ^ 61 := by
    omega
  have hwe : wrapInt64 (((x2 - x1).natAbs : Int) - ((y2 - y1).natAbs : Int))
      = ((x2 - x1).natAbs : Int) - ((y2 - y1).natAbs : Int) :=
    wrapInt64_of_range _ (by omega) (by omega)
  obtain ⟨path, res, hres, hhead, hlast, hchain, hrect, hpix⟩ :=
    drawLineLoop_path c col x2 y2 ((x2 - x1).natAbs : Int) ((y2 - y1).natAbs : Int) _ _
      hsx hsy hdxr hdyr h3 h4 ((x2 - x1).natAbs + (y2 - y1).natAbs + 1) img x1 y1
      (((x2 - x1).natAbs : Int) - ((y2 - y1).natAbs : Int)) (x2 - x1).natAbs (y2 - y1).natAbs
      (by omega) hrx hry le_rfl le_rfl h1 h2 (by ring) (by omega) (by omega)
  refine ⟨path, res, ?_, hhead, hlast, hchain, hrect, hpix⟩
  intro fuel hfuel
  obtain ⟨k, rfl⟩ : ∃ k, fuel = (x2 - x1).natAbs + (y2 - y1).natAbs + 1 + k :=
    ⟨fuel - ((x2 - x1).natAbs + (y2 - y1).natAbs + 1), by omega⟩
  unfold CharacterCaptcha.drawLine
  simp only [hax, hay, hwe]
  exact drawLineLoop_mono c col x2 y2 _ _ _ _ _ img x1 y1 _ res hres k

/-- Witness for C20 (amended): the line from `(-3, 2)`, left of the canvas, to
`(4, 5)` on the default canvas. -/
theorem drawLine_path_witness :
    (isGoInt (-3) ∧ isGoInt 2 ∧ isGoInt 4 ∧ isGoInt 5) ∧
    ∃ (path : List (Int × Int)) (res : Image),
      (∀ fuel, (4 - (-3) : Int).natAbs + (5 - 2 : Int).natAbs < fuel →
        (NewCharacterCaptcha ⟨200, 80, 4, 0, 2⟩).drawLine sampleLineCanvas (-3) 2 4 5
          ⟨0, 0, 0, 255⟩ fuel = some res) ∧
      path.head? = some (-3, 2) ∧ path.getLast? = some (4, 5) ∧
      res.rect = sampleLineCanvas.rect := by
  have hg : isGoInt (-3) ∧ isGoInt 2 ∧ isGoInt 4 ∧ isGoInt 5 := by
    unfold isGoInt
    norm_num
  obtain ⟨path, res, h1, h2, h3, _, h5, _⟩ :=
    drawLine_path (NewCharacterCaptcha ⟨200, 80, 4, 0, 2⟩) sampleLineCanvas (-3) 2 4 5
      ⟨0, 0, 0, 255⟩ hg.1 hg.2.1 hg.2.2.1 hg.2.2.2 (by norm_num) (by norm_num)
  exact ⟨hg, path, res, h1, h2, h3, h5⟩

/-! ### Template position -/

/-- An image that `NewRGBA` returned has a pixel buffer of at most `maxAlloc`
bytes. -/
theorem NewRGBA_size (x1 y1 : Int) (img : Image) (h : NewRGBA 0 0 x1 y1 = some img)
    (hx : isGoInt x1) (hy : isGoInt y1) :
    ∃ w t : Int, 0 ≤ w ∧ 0 ≤ t ∧ (w = x1 ∨ w = -x1) ∧ (t = y1 ∨ t = -y1) ∧
      4 * (w * t) ≤ 2 ^ 48 := by
  unfold isGoInt at hx hy
  unfold NewRGBA at h
  simp only [] at h
  have hxw : ∃ w : Int, wrapInt64 ((if (0 : Int) > x1 then 0 else x1)
      - (if (0 : Int) > x1 then x1 else 0)) = w ∧ (0 ≤ w → (w = x1 ∨ w = -x1)) := by
    refine ⟨_, rfl, ?_⟩
    unfold wrapInt64
    split_ifs <;> omega
  have hyw : ∃ t : Int, wrapInt64 ((if (0 : Int) > y1 then 0 else y1)
      - (if (0 : Int) > y1 then y1 else 0)) = t ∧ (0 ≤ t → (t = y1 ∨ t = -y1)) := by
    refine ⟨_, rfl, ?_⟩
    unfold wrapInt64
    split_ifs <;> omega
  obtain ⟨w, hw, hw2⟩ := hxw
  obtain ⟨t, ht, ht2⟩ := hyw
  rw [hw, ht] at h
  by_cases hneg : mul3NonNeg 4 w t < 0
  · rw [if_pos hneg] at h
    cases h
  · rw [if_neg hneg] at h
    by_cases hbig : mul3NonNeg 4 w t > maxAlloc
    · rw [if_pos hbig] at h
      cases h
    · unfold mul3NonNeg at hneg hbig
      unfold maxAlloc at hbig
      split_ifs at hneg hbig with c1 c2 c3 c4
      · exact absurd (by norm_num : (-1 : Int) < 0) hneg
      · exact absurd (by norm_num : (-1 : Int) < 0) hneg
      · exact absurd (by norm_num : (-1 : Int) < 0) hneg
      · exact absurd (by norm_num : (-1 : Int) < 0) hneg
      · have h4 : 4 * w * t = 4 * (w * t) := by ring
        rw [h4] at hbig
        exact ⟨w, t, by omega, by omega, hw2 (by omega), ht2 (by omega), by omega⟩

/-- In an image that `NewRGBA` returned with a non-zero width the height is
at most `2^46` in absolute value. -/
theorem NewRGBA_height (x1 y1 : Int) (img : Image) (h : NewRGBA 0 0 x1 y1 = some img)
    (hx : isGoInt x1) (hy : isGoInt y1) (hx0 : x1 ≠ 0) : -2 ^ 46 ≤ y1 ∧ y1 ≤ 2 ^ 46 := by
  obtain ⟨w, t, hw0, ht0, hw, ht, hsz⟩ := NewRGBA_size x1 y1 img h hx hy
  have hw1 : 1 ≤ w := by omega
  have hle : t ≤ w * t := by nlinarith
  omega

theorem newSlideCaptcha_templateWidth (cfg : SlideConfig) :
    (NewSlideCaptcha cfg).config.TemplateWidth ≠ 0 := by
  rcases cfg with ⟨w, h, tw, th, e, d1, d2⟩
  simp only [NewSlideCaptcha]
  by_cases hw : w = 0 <;> by_cases hh : h = 0 <;> by_cases htw : tw = 0 <;>
    by_cases hth : th = 0 <;> by_cases he : e = 0 <;> simp [hw, hh, htw, hth, he]

/-- The template Y of `createTemplateImage` on a generator whose background
image could be created and whose template is not of width zero. -/
theorem createTemplateImage_margin (c : SlideCaptcha) (rnd : Nat → Nat) (r : Nat)
    (bg img : Image) (templateY : Int)
    (hW : isGoInt c.config.Width) (hH : isGoInt c.config.Height)
    (hTW : isGoInt c.config.TemplateWidth) (hTH : isGoInt c.config.TemplateHeight)
    (hTW0 : c.config.TemplateWidth ≠ 0)
    (hbg : c.createBackgroundImage rnd = some bg)
    (htpl : c.createTemplateImage r = some (img, templateY)) :
    20 < c.config.Height - c.config.TemplateHeight ∧ 10 ≤ templateY ∧
      templateY + c.config.TemplateHeight ≤ c.config.Height - 10 := by
  obtain ⟨hWpos, hHpos, _⟩ := createBackgroundImage_some c rnd bg hbg
  have hHle : c.config.Height ≤ 2 ^ 46 := by
    unfold SlideCaptcha.createBackgroundImage at hbg
    cases hn : NewRGBA 0 0 c.config.Width c.config.Height with
    | none => rw [hn] at hbg; cases hbg
    | some img0 => exact (NewRGBA_height _ _ img0 hn hW hH (by omega)).2
  have hTHb : -2 ^ 46 ≤ c.config.TemplateHeight ∧ c.config.TemplateHeight ≤ 2 ^ 46 := by
    have htpl2 := htpl
    unfold SlideCaptcha.createTemplateImage at htpl2
    cases hd : randIntn r
        (wrapInt64 (wrapInt64 (c.config.Height - c.config.TemplateHeight) - 20)) with
    | none => rw [hd] at htpl2; cases htpl2
    | some d =>
      rw [hd] at htpl2
      simp only [] at htpl2
      cases hn : NewRGBA 0 0 c.config.TemplateWidth c.config.TemplateHeight with
      | none => rw [hn] at htpl2; cases htpl2
      | some img0 => exact NewRGBA_height _ _ img0 hn hTW hTH hTW0
  obtain ⟨_, d, hd, hty⟩ := createTemplateImage_some c r img templateY htpl
  rw [wrapInt64_of_range (c.config.Height - c.config.TemplateHeight) (by omega) (by omega),
    wrapInt64_of_range (c.config.Height - c.config.TemplateHeight - 20) (by omega) (by omega)]
    at hd
  obtain ⟨hn, hd0, hd1⟩ := randIntn_some _ _ _ hd
  rw [wrapInt64_of_range (d + 10) (by omega) (by omega)] at hty
  omega

/-- C22: for every slide configuration given to `NewSlideCaptcha` and every
draw, when `createTemplateImage` is reached (the background image was
created) and returns a template Y, then `Height - TemplateHeight > 20`,
`10 <= templateY` and `templateY + TemplateHeight <= Height - 10`: the whole
template lies on the canvas with a margin of 10 pixels above and below. -/
theorem createTemplateImage_templateY_margin (cfg : SlideConfig) (rnd : Nat → Nat) (r : Nat)
    (bg img : Image) (templateY : Int)
    (hW : isGoInt (NewSlideCaptcha cfg).config.Width)
    (hH : isGoInt (NewSlideCaptcha cfg).config.Height)
    (hTW : isGoInt (NewSlideCaptcha cfg).config.TemplateWidth)
    (hTH : isGoInt (NewSlideCaptcha cfg).config.TemplateHeight)
    (hbg : (NewSlideCaptcha cfg).createBackgroundImage rnd = some bg)
    (htpl : (NewSlideCaptcha cfg).createTemplateImage r = some (img, templateY)) :
    20 < (NewSlideCaptcha cfg).config.Height - (NewSlideCaptcha cfg).config.TemplateHeight ∧
    10 ≤ templateY ∧
    templateY + (NewSlideCaptcha cfg).config.TemplateHeight
      ≤ (NewSlideCaptcha cfg).config.Height - 10 :=
  createTemplateImage_margin (NewSlideCaptcha cfg) rnd r bg img templateY hW hH hTW hTH
    (newSlideCaptcha_templateWidth cfg) hbg htpl

/-- C22 on the example configuration, canvas 350 by 200 and template 60 by
60: the background is created, the template is returned, and its Y is between
10 and 130. -/
theorem createTemplateImage_templateY_margin_witness :
    ∃ bg img templateY,
      (NewSlideCaptcha ⟨350, 200, 60, 60, 0, "", ""⟩).createBackgroundImage (fun _ => 0)
        = some bg ∧
      (NewSlideCaptcha ⟨350, 200, 60, 60, 0, "", ""⟩).createTemplateImage 7
        = some (img, templateY) ∧
      10 ≤ templateY ∧ templateY + 60 ≤ 200 - 10 := by
  have hc : (NewSlideCaptcha ⟨350, 200, 60, 60, 0, "", ""⟩).config
      = ⟨350, 200, 60, 60, fiveMinutes, "", ""⟩ := rfl
  obtain ⟨bg, hbg⟩ := createBackgroundImage_of_small
    (NewSlideCaptcha ⟨350, 200, 60, 60, 0, "", ""⟩) (fun _ => 0)
    (by rw [hc]; norm_num) (by rw [hc]; norm_num)
  obtain ⟨img, templateY, htpl⟩ := createTemplateImage_of_small
    (NewSlideCaptcha ⟨350, 200, 60, 60, 0, "", ""⟩) 7
    (by rw [hc]; norm_num) (by rw [hc]; norm_num) (by rw [hc]; norm_num) (by rw [hc]; norm_num)
  have h := createTemplateImage_templateY_margin ⟨350, 200, 60, 60, 0, "", ""⟩ (fun _ => 0) 7
    bg img templateY (by rw [hc]; norm_num [isGoInt]) (by rw [hc]; norm_num [isGoInt])
    (by rw [hc]; norm_num [isGoInt]) (by rw [hc]; norm_num [isGoInt]) hbg htpl
  rw [hc] at h
  exact ⟨bg, img, templateY, hbg, htpl, h.2.1, h.2.2⟩

/-! ### Image-select generation -/

/-- Whether `selectTargetIndexes` panics depends on the configuration only. -/
theorem selectTargetIndexes_isSome (c : ImageSelectCaptcha) (rnd1 rnd2 : Nat → Nat) :
    (c.selectTargetIndexes rnd1).isSome = (c.selectTargetIndexes rnd2).isSome := by
  unfold ImageSelectCaptcha.selectTargetIndexes
  split_ifs <;> rfl

/-- C23: for a fixed library, file system and fixed draws for the file and
question choice, `loadImages` returns the same for any two `targetIndexes`
arguments, and the question and images (or the error or panic) of
`ImageSelectCaptcha.Generate` are the same for any two outcomes of the
shuffle that picks the target indexes. -/
theorem imageSelect_payload_independent_of_targets (lib : ImageLib) (fs : FileSystem)
    (c : ImageSelectCaptcha) (rndT1 rndT2 rndF : Nat → Nat) (rq : Nat) :
    (∀ t1 t2 : List Int, c.loadImages lib fs t1 rndF = c.loadImages lib fs t2 rndF) ∧
    visiblePayload (c.Generate lib fs rndT1 rndF rq)
      = visiblePayload (c.Generate lib fs rndT2 rndF rq) := by
  refine ⟨fun _ _ => rfl, ?_⟩
  have hs := selectTargetIndexes_isSome c rndT1 rndT2
  unfold ImageSelectCaptcha.Generate
  cases h1 : c.selectTargetIndexes rndT1 with
  | none =>
    cases h2 : c.selectTargetIndexes rndT2 with
    | none => rfl
    | some t2 =>
      rw [h1, h2] at hs
      cases hs
  | some t1 =>
    cases h2 : c.selectTargetIndexes rndT2 with
    | none =>
      rw [h1, h2] at hs
      cases hs
    | some t2 =>
      simp only []
      have hl : c.loadImages lib fs t1 rndF = c.loadImages lib fs t2 rndF := rfl
      rw [hl]
      cases c.loadImages lib fs t2 rndF with
      | none => rfl
      | some r =>
        cases r with
        | error err => rfl
        | ok images => rfl

theorem loadImages_returns (lib : ImageLib) (fs : FileSystem) (c : ImageSelectCaptcha)
    (t : List Int) (rnd : Nat → Nat) (h : c.config.ImageCount ≤ 4) :
    ∃ imgs, c.loadImages lib fs t rnd = some (.ok imgs) := by
  have hp : ∃ imgs, c.generatePlaceholderImages lib = some (.ok imgs) := by
    obtain ⟨res, hres, _⟩ := placeholderLoop_ok lib c c.config.ImageCount.toNat 0 [] (by omega)
    exact ⟨res, hres⟩
  unfold ImageSelectCaptcha.loadImages
  cases c.loadRealImages lib fs rnd with
  | error err => exact hp
  | ok realImages =>
    simp only []
    split_ifs
    · exact ⟨realImages, rfl⟩
    · exact hp

/-- With at most four images and a select count between 0 and the image
count, `ImageSelectCaptcha.Generate` returns a question, images and the
target indexes that `selectTargetIndexes` drew. -/
theorem imageSelect_generate_returns (lib : ImageLib) (fs : FileSystem) (c : ImageSelectCaptcha)
    (rndT rndF : Nat → Nat) (rq : Nat) (hk : 0 ≤ c.config.SelectCount)
    (hkn : c.config.SelectCount ≤ c.config.ImageCount) (hn : c.config.ImageCount ≤ 4) :
    ∃ imgs t, c.Generate lib fs rndT rndF rq = some (.ok (c.generateQuestion rq, imgs, t)) ∧
      c.selectTargetIndexes rndT = some t := by
  obtain ⟨t, _, ht, _⟩ := selectTargetIndexes_spec c rndT hk hkn
  obtain ⟨imgs, himgs⟩ := loadImages_returns lib fs c t rndF hn
  refine ⟨imgs, t, ?_, ht⟩
  unfold ImageSelectCaptcha.Generate
  rw [ht]
  simp only [himgs]

theorem withImageSelect_imageSelect (g : Generators) (lib : ImageLib) (fs : FileSystem)
    (rndT rndF : Nat → Nat) (rq : Nat) (c : ImageSelectCaptcha)
    (r : Except Err (String × List String × List Int))
    (h : c.Generate lib fs rndT rndF rq = some r) :
    (g.withImageSelect lib fs rndT rndF rq).imageSelect c = r := by
  unfold Generators.withImageSelect
  simp only [h]

/-- The response and the store of `Service.Generate` for an image-select
challenge over the in-memory store. -/
theorem generate_imageSelect_result (s : Service) (m : MemStore) (hs : s.store = Store.mem m)
    (captchaID : String) (now : Int) (g : Generators) (q : String) (imgs : List String)
    (t : List Int)
    (hg : g.imageSelect (NewImageSelectCaptcha s.imageSelectConfig) = .ok (q, imgs, t)) :
    s.Generate CaptchaTypeImageSelect captchaID now g =
      (.ok { CaptchaID := captchaID, CaptchaType := CaptchaTypeImageSelect,
             Data := CaptchaData.imageSelect q "bus" imgs s.imageSelectConfig.SelectCount,
             ExpireTime := (now + s.imageSelectConfig.ExpireTime) / 1000000000 },
       { s with store := Store.mem (m.Set captchaID
           (SecretData.imageSelect { TargetIndexes := t, Question := q })
           s.imageSelectConfig.ExpireTime).2 }) := by
  unfold Service.Generate
  have h1 : CaptchaTypeImageSelect ≠ CaptchaTypeCharacter := by decide
  simp only [if_neg h1, if_true, hg, hs, Store.Set, MemStore.Set]

/-- Decoding of a stored image-select secret with one target index. -/
theorem unmarshalStored_imageSelect_singleton (T : SimpleFoldTable) (x : Int) (q : String)
    (hx : -2 ^ 63 ≤ x ∧ x < 2 ^ 63) :
    unmarshalStored (unmarshalImageSelectData T)
        (Blob.json (marshalSecret (SecretData.imageSelect
          { TargetIndexes := [x], Question := q }))) =
      .ok { TargetIndexes := [x], Question := q } := by
  have k1 : keyMatches T "targetIndexes" "targetIndexes" = true := rfl
  have k2 : keyMatches T "targetIndexes" "question" = false := rfl
  have k3 : keyMatches T "question" "question" = true := rfl
  have hx2 : -9223372036854775808 ≤ x ∧ x < 9223372036854775808 := by omega
  simp [unmarshalStored, unmarshalImageSelectData, marshalSecret, unmarshalStruct, k1, k2, k3,
    unmarshalIntSlice, unmarshalIntElems, unmarshalInt, unmarshalString, hx2]

/-- The verification of a stored image-select challenge with one target index
against the empty selection and against the selection of that index. -/
theorem verifyImageSelect_singleton (T : SimpleFoldTable) (s : Service) (x : Int) (q : String)
    (hx : -2 ^ 63 ≤ x ∧ x < 2 ^ 63) :
    s.verifyImageSelect T (Blob.json (marshalSecret (SecretData.imageSelect
        { TargetIndexes := [x], Question := q })))
        (Payload.encodes (JSON.obj [("selectedIndexes", JSON.arr [])])) =
      ((NewImageSelectCaptcha s.imageSelectConfig).Verify [x] [], none) ∧
    s.verifyImageSelect T (Blob.json (marshalSecret (SecretData.imageSelect
        { TargetIndexes := [x], Question := q })))
        (Payload.encodes (JSON.obj [("selectedIndexes", JSON.arr [JSON.num x])])) =
      ((NewImageSelectCaptcha s.imageSelectConfig).Verify [x] [x], none) := by
  have k1 : keyMatches T "selectedIndexes" "selectedIndexes" = true := rfl
  have hx2 : -9223372036854775808 ≤ x ∧ x < 9223372036854775808 := by omega
  unfold Service.verifyImageSelect
  rw [unmarshalStored_imageSelect_singleton T x q hx]
  constructor
  · simp [jsonMarshal, unmarshalImageSelectAnswer, unmarshalStruct, k1, unmarshalIntSlice]
  · simp [jsonMarshal, unmarshalImageSelectAnswer, unmarshalStruct, k1, unmarshalIntSlice,
      unmarshalIntElems, unmarshalInt, hx2]

theorem sampleService_imageSelect_captcha :
    (NewImageSelectCaptcha sampleService.imageSelectConfig).config
      = ⟨4, 1, fiveMinutes, "", ""⟩ := rfl

/-- C24 (the code at the failing input): the sample service has an
image-select configuration with `SelectCount` left at zero. Whatever the
library, the files and the draws, the response of `Service.Generate` reports
`SelectCount` 0, the stored secret has exactly one target index, and
`Service.Verify` rejects the empty selection (the reported size) and accepts
the selection of the one target. -/
theorem imageSelect_selectCount_mismatch (T : SimpleFoldTable) (lib : ImageLib)
    (fs : FileSystem) (rndT rndF : Nat → Nat) (rq : Nat) (now : Int) :
    sampleService.imageSelectConfig.SelectCount = 0 ∧
    ∃ (q : String) (imgs : List String) (x : Int),
      (sampleService.Generate CaptchaTypeImageSelect "id-3" now
          (sampleGenerators.withImageSelect lib fs rndT rndF rq)).1 =
        .ok { CaptchaID := "id-3", CaptchaType := CaptchaTypeImageSelect,
              Data := CaptchaData.imageSelect q "bus" imgs 0,
              ExpireTime := (now + sampleService.imageSelectConfig.ExpireTime) / 1000000000 } ∧
      (sampleService.Generate CaptchaTypeImageSelect "id-3" now
          (sampleGenerators.withImageSelect lib fs rndT rndF rq)).2.store.contents "id-3" =
        some (Blob.json (marshalSecret (SecretData.imageSelect
          { TargetIndexes := [x], Question := q }))) ∧
      (sampleService.Generate CaptchaTypeImageSelect "id-3" now
          (sampleGenerators.withImageSelect lib fs rndT rndF rq)).2.Verify T
        { CaptchaID := "id-3", CaptchaType := CaptchaTypeImageSelect,
          Answer := Payload.encodes (JSON.obj [("selectedIndexes", JSON.arr [])]) }
        = (false, none) ∧
      (sampleService.Generate CaptchaTypeImageSelect "id-3" now
          (sampleGenerators.withImageSelect lib fs rndT rndF rq)).2.Verify T
        { CaptchaID := "id-3", CaptchaType := CaptchaTypeImageSelect,
          Answer := Payload.encodes (JSON.obj [("selectedIndexes", JSON.arr [JSON.num x])]) }
        = (true, none) := by
  refine ⟨rfl, ?_⟩
  have hcfg := sampleService_imageSelect_captcha
  obtain ⟨imgs, t, hgen, hsel⟩ := imageSelect_generate_returns lib fs
    (NewImageSelectCaptcha sampleService.imageSelectConfig) rndT rndF rq
    (by rw [hcfg]; norm_num) (by rw [hcfg]; norm_num) (le_of_eq (by rw [hcfg]))
  generalize (NewImageSelectCaptcha sampleService.imageSelectConfig).generateQuestion rq = q
    at hgen
  obtain ⟨t2, _, ht2, _, _, hlen, _, hrange⟩ := selectTargetIndexes_spec
    (NewImageSelectCaptcha sampleService.imageSelectConfig) rndT
    (by rw [hcfg]; norm_num) (by rw [hcfg]; norm_num)
  rw [hsel] at ht2
  cases ht2
  rw [hcfg] at hlen hrange
  obtain ⟨x, rfl⟩ : ∃ x, t = [x] := by
    have h1 : t.length = 1 := by
      simp only [] at hlen
      omega
    exact List.length_eq_one.mp h1
  have hx : -2 ^ 63 ≤ x ∧ x < 2 ^ 63 := by
    have := hrange x (List.mem_singleton_self x)
    simp only [] at this
    omega
  have hg := withImageSelect_imageSelect sampleGenerators lib fs rndT rndF rq _ _ hgen
  have hres := generate_imageSelect_result sampleService NewMemStore rfl "id-3" now _ _ imgs [x] hg
  obtain ⟨hv1, hv2⟩ := verifyImageSelect_singleton T
    (sampleService.Generate CaptchaTypeImageSelect "id-3" now
      (sampleGenerators.withImageSelect lib fs rndT rndF rq)).2 x q hx
  have hget : (sampleService.Generate CaptchaTypeImageSelect "id-3" now
      (sampleGenerators.withImageSelect lib fs rndT rndF rq)).2.store.Get "id-3" =
      .ok (Blob.json (marshalSecret
        (SecretData.imageSelect { TargetIndexes := [x], Question := q }))) := by
    rw [hres]
    simp [Store.Get, MemStore.Get, MemStore.Set]
  have hc2 : (NewImageSelectCaptcha (sampleService.Generate CaptchaTypeImageSelect "id-3" now
      (sampleGenerators.withImageSelect lib fs rndT rndF rq)).2.imageSelectConfig).config
      = ⟨4, 1, fiveMinutes, "", ""⟩ := by
    rw [hres]
    rfl
  have hne : CaptchaTypeImageSelect ≠ CaptchaTypeCharacter := by decide
  refine ⟨q, imgs, x, ?_, ?_, ?_, ?_⟩
  · rw [hres]
    rfl
  · rw [hres]
    simp [Store.contents, MemStore.Set]
  · unfold Service.Verify
    simp only [hget, if_neg hne, if_true]
    rw [hv1]
    unfold ImageSelectCaptcha.Verify
    rw [hc2]
    simp
  · unfold Service.Verify
    simp only [hget, if_neg hne, if_true]
    rw [hv2]
    unfold ImageSelectCaptcha.Verify
    rw [hc2]
    simp [allTargetsSelected, buildSelectedMap]

/-! ### Text rendering -/

theorem Image.inBounds_of_rect (i j : Image) (h : i.rect = j.rect) (a b : Int) :
    i.inBounds a b = j.inBounds a b := by
  unfold Image.rect at h
  simp only [Prod.mk.injEq] at h
  obtain ⟨h1, h2, h3, h4⟩ := h
  unfold Image.inBounds
  rw [h1, h2, h3, h4]

theorem paintedBy_refl (img : Image) (col : RGBA) : img.paintedBy img col (fun _ _ => False) :=
  ⟨rfl, fun _ _ => ⟨fun h => absurd h.1 id, fun _ => rfl⟩⟩

theorem paintedBy_congr (res img : Image) (col : RGBA) (Q Q' : Int → Int → Prop)
    (h : res.paintedBy img col Q) (hq : ∀ a b, Q a b ↔ Q' a b) : res.paintedBy img col Q' := by
  refine ⟨h.1, fun a b => ⟨fun h2 => (h.2 a b).1 ⟨(hq a b).mpr h2.1, h2.2⟩, fun h2 => ?_⟩⟩
  exact (h.2 a b).2 (fun h3 => h2 ⟨(hq a b).mp h3.1, h3.2⟩)

theorem paintedBy_trans (r1 r2 img : Image) (col : RGBA) (Q1 Q2 : Int → Int → Prop)
    (h1 : r1.paintedBy img col Q1) (h2 : r2.paintedBy r1 col Q2) :
    r2.paintedBy img col (fun a b => Q1 a b ∨ Q2 a b) := by
  refine ⟨h2.1.trans h1.1, fun a b => ?_⟩
  have hin := Image.inBounds_of_rect r1 img h1.1 a b
  constructor
  · rintro ⟨hq, hb⟩
    by_cases hq2 : Q2 a b
    · exact (h2.2 a b).1 ⟨hq2, by rw [hin]; exact hb⟩
    · rw [(h2.2 a b).2 (fun h => hq2 h.1)]
      rcases hq with hq1 | hq2'
      · exact (h1.2 a b).1 ⟨hq1, hb⟩
      · exact absurd hq2' hq2
  · intro hn
    rw [(h2.2 a b).2 (fun h => hn ⟨Or.inr h.1, by rw [← hin]; exact h.2⟩)]
    exact (h1.2 a b).2 (fun h => hn ⟨Or.inl h.1, h.2⟩)

theorem paintedBy_set_if (img : Image) (x y : Int) (col : RGBA) (cond : Prop) [Decidable cond] :
    (if cond then img.Set x y col else img).paintedBy img col
      (fun a b => cond ∧ a = x ∧ b = y) := by
  constructor
  · split_ifs
    · exact Image.rect_Set _ _ _ _
    · rfl
  · intro a b
    by_cases hc : cond
    · rw [if_pos hc]
      unfold Image.Set
      constructor
      · rintro ⟨⟨_, rfl, rfl⟩, hb⟩
        rw [if_pos hb]
        exact if_pos ⟨rfl, rfl⟩
      · intro hn
        by_cases hb : img.inBounds x y = true
        · rw [if_pos hb]
          have hne : ¬ (a = x ∧ b = y) := by
            rintro ⟨rfl, rfl⟩
            exact hn ⟨⟨hc, rfl, rfl⟩, hb⟩
          exact if_neg hne
        · rw [if_neg hb]
    · rw [if_neg hc]
      exact ⟨fun h => absurd h.1.1 hc, fun _ => rfl⟩

theorem paintedBy_if (res img : Image) (col : RGBA) (Q : Int → Int → Prop) (cond : Prop)
    [Decidable cond] (h : cond → res.paintedBy img col Q) :
    (if cond then res else img).paintedBy img col (fun a b => cond ∧ Q a b) := by
  by_cases hc : cond
  · rw [if_pos hc]
    exact paintedBy_congr _ _ _ _ _ (h hc) (fun a b => ⟨fun hq => ⟨hc, hq⟩, fun hq => hq.2⟩)
  · rw [if_neg hc]
    exact paintedBy_congr _ _ _ _ _ (paintedBy_refl img col)
      (fun a b => ⟨fun hq => absurd hq id, fun hq => hc hq.1⟩)

/-- A loop whose every iteration sets points to the colour `col` sets the
union of these points. -/
theorem paintedBy_foldl {α : Type} (col : RGBA) (f : Image → α → Image)
    (P : α → Int → Int → Prop) (hf : ∀ im t, (f im t).paintedBy im col (P t)) :
    ∀ (L : List α) (img : Image),
      (L.foldl f img).paintedBy img col (fun a b => ∃ t, t ∈ L ∧ P t a b) := by
  intro L
  induction L with
  | nil =>
    intro img
    exact paintedBy_congr _ _ _ _ _ (paintedBy_refl img col)
      (fun a b => ⟨fun h => absurd h id, fun ⟨_, h, _⟩ => absurd h (List.not_mem_nil _)⟩)
  | cons t L ih =>
    intro img
    rw [List.foldl_cons]
    refine paintedBy_congr _ _ _ _ _ (paintedBy_trans _ _ _ _ _ _ (hf img t) (ih (f img t))) ?_
    intro a b
    constructor
    · rintro (h | ⟨u, hu, hp⟩)
      · exact ⟨t, List.mem_cons_self _ _, h⟩
      · exact ⟨u, List.mem_cons_of_mem _ hu, hp⟩
    · rintro ⟨u, hu, hp⟩
      rcases List.mem_cons.mp hu with rfl | hu
      · exact Or.inl hp
      · exact Or.inr ⟨u, hu, hp⟩

/-- The value `int(float64(t) * 2.5)` is `floor(5 t / 2)`. -/
theorem truncMulFloat_scale (t : Nat) (h : t < 2 ^ 50) :
    truncMulFloat (t : Int) 5 1 = ((t * 5 / 2 : Nat) : Int) := by
  rw [truncMulFloat_of_small t 5 1 (by omega), float64OfNat_small _ (by omega)]
  rfl

/-- The points that the two innermost loops of `drawText` set for the source
pixel `(tx, ty)`. -/
theorem stampPixel_paintedBy (c : CharacterCaptcha) (col : RGBA) (x y : Int) (tx ty : Nat)
    (img : Image) :
    (c.stampPixel col x y tx ty img).paintedBy img col (fun a b =>
      ∃ sy, sy ∈ List.range 2 ∧ ∃ sx, sx ∈ List.range 2 ∧
        (wrapInt64 (wrapInt64 (x + truncMulFloat (tx : Int) 5 1) + (sx : Int)) < c.config.Width ∧
          wrapInt64 (wrapInt64 (y + truncMulFloat (ty : Int) 5 1) + (sy : Int))
            < c.config.Height ∧
          wrapInt64 (wrapInt64 (y + truncMulFloat (ty : Int) 5 1) + (sy : Int)) ≥ 0) ∧
        a = wrapInt64 (wrapInt64 (x + truncMulFloat (tx : Int) 5 1) + (sx : Int)) ∧
        b = wrapInt64 (wrapInt64 (y + truncMulFloat (ty : Int) 5 1) + (sy : Int))) := by
  unfold CharacterCaptcha.stampPixel
  exact paintedBy_foldl col _
    (fun (sy : Nat) a b => ∃ sx, sx ∈ List.range 2 ∧
        (wrapInt64 (wrapInt64 (x + truncMulFloat (tx : Int) 5 1) + (sx : Int)) < c.config.Width ∧
          wrapInt64 (wrapInt64 (y + truncMulFloat (ty : Int) 5 1) + (sy : Int))
            < c.config.Height ∧
          wrapInt64 (wrapInt64 (y + truncMulFloat (ty : Int) 5 1) + (sy : Int)) ≥ 0) ∧
        a = wrapInt64 (wrapInt64 (x + truncMulFloat (tx : Int) 5 1) + (sx : Int)) ∧
        b = wrapInt64 (wrapInt64 (y + truncMulFloat (ty : Int) 5 1) + (sy : Int)))
    (fun im sy => paintedBy_foldl col _
      (fun (sx : Nat) a b =>
        (wrapInt64 (wrapInt64 (x + truncMulFloat (tx : Int) 5 1) + (sx : Int)) < c.config.Width ∧
          wrapInt64 (wrapInt64 (y + truncMulFloat (ty : Int) 5 1) + (sy : Int))
            < c.config.Height ∧
          wrapInt64 (wrapInt64 (y + truncMulFloat (ty : Int) 5 1) + (sy : Int)) ≥ 0) ∧
        a = wrapInt64 (wrapInt64 (x + truncMulFloat (tx : Int) 5 1) + (sx : Int)) ∧
        b = wrapInt64 (wrapInt64 (y + truncMulFloat (ty : Int) 5 1) + (sy : Int)))
      (fun im2 sx => paintedBy_set_if im2 _ _ col _) (List.range 2) im) (List.range 2) img

/-- The points that `drawText` sets for one glyph: for every source pixel
`(tx, ty)` of the temporary image with a positive alpha, the points of
`stampPixel`. -/
theorem stampGlyph_paintedBy (c : CharacterCaptcha) (img tmpImg : Image) (x y : Int)
    (col : RGBA) :
    (c.stampGlyph img tmpImg x y col).paintedBy img col (fun a b =>
      ∃ ty, ty ∈ List.range 13 ∧ ∃ tx, tx ∈ List.range 8 ∧
        (tmpImg.At (tx : Int) (ty : Int)).alpha16 > 0 ∧
        ∃ sy, sy ∈ List.range 2 ∧ ∃ sx, sx ∈ List.range 2 ∧
        (wrapInt64 (wrapInt64 (x + truncMulFloat (tx : Int) 5 1) + (sx : Int)) < c.config.Width ∧
          wrapInt64 (wrapInt64 (y + truncMulFloat (ty : Int) 5 1) + (sy : Int))
            < c.config.Height ∧
          wrapInt64 (wrapInt64 (y + truncMulFloat (ty : Int) 5 1) + (sy : Int)) ≥ 0) ∧
        a = wrapInt64 (wrapInt64 (x + truncMulFloat (tx : Int) 5 1) + (sx : Int)) ∧
        b = wrapInt64 (wrapInt64 (y + truncMulFloat (ty : Int) 5 1) + (sy : Int))) := by
  unfold CharacterCaptcha.stampGlyph
  exact paintedBy_foldl col _
    (fun (ty : Nat) a b => ∃ tx, tx ∈ List.range 8 ∧
        (tmpImg.At (tx : Int) (ty : Int)).alpha16 > 0 ∧
        ∃ sy, sy ∈ List.range 2 ∧ ∃ sx, sx ∈ List.range 2 ∧
        (wrapInt64 (wrapInt64 (x + truncMulFloat (tx : Int) 5 1) + (sx : Int)) < c.config.Width ∧
          wrapInt64 (wrapInt64 (y + truncMulFloat (ty : Int) 5 1) + (sy : Int))
            < c.config.Height ∧
          wrapInt64 (wrapInt64 (y + truncMulFloat (ty : Int) 5 1) + (sy : Int)) ≥ 0) ∧
        a = wrapInt64 (wrapInt64 (x + truncMulFloat (tx : Int) 5 1) + (sx : Int)) ∧
        b = wrapInt64 (wrapInt64 (y + truncMulFloat (ty : Int) 5 1) + (sy : Int)))
    (fun im ty => paintedBy_foldl col _
      (fun (tx : Nat) a b =>
        (tmpImg.At (tx : Int) (ty : Int)).alpha16 > 0 ∧
        ∃ sy, sy ∈ List.range 2 ∧ ∃ sx, sx ∈ List.range 2 ∧
        (wrapInt64 (wrapInt64 (x + truncMulFloat (tx : Int) 5 1) + (sx : Int)) < c.config.Width ∧
          wrapInt64 (wrapInt64 (y + truncMulFloat (ty : Int) 5 1) + (sy : Int))
            < c.config.Height ∧
          wrapInt64 (wrapInt64 (y + truncMulFloat (ty : Int) 5 1) + (sy : Int)) ≥ 0) ∧
        a = wrapInt64 (wrapInt64 (x + truncMulFloat (tx : Int) 5 1) + (sx : Int)) ∧
        b = wrapInt64 (wrapInt64 (y + truncMulFloat (ty : Int) 5 1) + (sy : Int)))
      (fun im2 tx => paintedBy_if _ im2 col _ _
        (fun _ => stampPixel_paintedBy c col x y tx ty im2)) (List.range 8) im)
    (List.range 13) img

/-- No glyph stamped at `(x, y)` touches the column `x + 4`: the blocks of the
source columns 1 and 2 start at `x + 2` and `x + 5` and are 2 wide. -/
theorem stampGlyph_column_gap (c : CharacterCaptcha) (img tmpImg : Image) (x y : Int)
    (col : RGBA) (hx : -2 ^ 62 ≤ x ∧ x ≤ 2 ^ 62) (b : Int) :
    (c.stampGlyph img tmpImg x y col).pix (x + 4) b = img.pix (x + 4) b := by
  apply ((stampGlyph_paintedBy c img tmpImg x y col).2 (x + 4) b).2
  rintro ⟨⟨ty, _, tx, htx, _, sy, _, sx, hsx, _, ha, _⟩, _⟩
  rw [List.mem_range] at htx hsx
  rw [truncMulFloat_scale tx (by omega),
    wrapInt64_of_range (x + ((tx * 5 / 2 : Nat) : Int)) (by omega) (by omega),
    wrapInt64_of_range _ (by omega) (by omega)] at ha
  interval_cases tx <;> simp at ha <;> omega

/-- A source pixel `(tx, ty)` with a positive alpha is stamped as the 2 by 2
block at `(x + floor(5 tx / 2), y + floor(5 ty / 2))`, as far as the block
lies on the canvas and in the image. -/
theorem stampGlyph_ink (c : CharacterCaptcha) (img tmpImg : Image) (x y : Int) (col : RGBA)
    (hx : -2 ^ 62 ≤ x ∧ x ≤ 2 ^ 62) (hy : -2 ^ 62 ≤ y ∧ y ≤ 2 ^ 62)
    (tx ty sx sy : Nat) (a b : Int) (htx : tx < 8) (hty : ty < 13) (hsx : sx < 2) (hsy : sy < 2)
    (ha : a = x + ((tx * 5 / 2 : Nat) : Int) + (sx : Int))
    (hb : b = y + ((ty * 5 / 2 : Nat) : Int) + (sy : Int))
    (hink : (tmpImg.At (tx : Int) (ty : Int)).alpha16 > 0)
    (hW : a < c.config.Width) (hH : b < c.config.Height) (h0 : 0 ≤ b)
    (hin : img.inBounds a b = true) :
    (c.stampGlyph img tmpImg x y col).pix a b = col := by
  subst ha
  subst hb
  apply ((stampGlyph_paintedBy c img tmpImg x y col).2 _ _).1
  refine ⟨⟨ty, List.mem_range.mpr hty, tx, List.mem_range.mpr htx, hink, sy,
    List.mem_range.mpr hsy, sx, List.mem_range.mpr hsx, ?_⟩, hin⟩
  rw [truncMulFloat_scale tx (by omega), truncMulFloat_scale ty (by omega),
    wrapInt64_of_range (x + ((tx * 5 / 2 : Nat) : Int)) (by omega) (by omega),
    wrapInt64_of_range (x + ((tx * 5 / 2 : Nat) : Int) + (sx : Int)) (by omega) (by omega),
    wrapInt64_of_range (y + ((ty * 5 / 2 : Nat) : Int)) (by omega) (by omega),
    wrapInt64_of_range (y + ((ty * 5 / 2 : Nat) : Int) + (sy : Int)) (by omega) (by omega)]
  exact ⟨⟨hW, hH, h0⟩, rfl, rfl⟩

/-- The call `drawText(img, "A")` on the default generator: one glyph,
stamped at `x = 10 + Intn(10)`, `y = 15 + Intn(5)`. -/
theorem drawText_single (lib : ImageLib) (img : Image) (rnd : Nat → Nat) :
    ∃ tmp0, NewRGBA 0 0 8 13 = some tmp0 ∧
      (NewCharacterCaptcha ⟨0, 0, 0, 0, 0⟩).drawText lib img "A" rnd =
        some ((NewCharacterCaptcha ⟨0, 0, 0, 0, 0⟩).stampGlyph img
          { tmp0 with
            pix := lib.drawString tmp0
                     ⟨uint8 ((rnd 2 : Int) % 128), uint8 ((rnd 3 : Int) % 128),
                       uint8 ((rnd 4 : Int) % 128), 255⟩ "A" 0 12 }
          (10 + (rnd 0 : Int) % 10) (15 + (rnd 1 : Int) % 5)
          ⟨uint8 ((rnd 2 : Int) % 128), uint8 ((rnd 3 : Int) % 128),
            uint8 ((rnd 4 : Int) % 128), 255⟩) := by
  obtain ⟨tmp0, h0⟩ := NewRGBA_of_small 8 13 (by norm_num) (by norm_num)
  refine ⟨tmp0, h0, ?_⟩
  have hc : (NewCharacterCaptcha ⟨0, 0, 0, 0, 0⟩).config = ⟨160, 60, 4, fiveMinutes, 2⟩ := rfl
  have hw : intDiv (wrapInt64 (160 - 20)) 4 = some 35 := by
    norm_num [intDiv, wrapInt64]
    decide
  have hh : intDiv 60 4 = some 15 := by
    norm_num [intDiv, wrapInt64]
    decide
  have hl : "A".toList = ['A'] := rfl
  have hs : String.singleton 'A' = "A" := rfl
  have hd0 := Int.emod_nonneg (rnd 0 : Int) (by norm_num : (10 : Int) ≠ 0)
  have hd0' := Int.emod_lt_of_pos (rnd 0 : Int) (by norm_num : (0 : Int) < 10)
  have hd1 := Int.emod_nonneg (rnd 1 : Int) (by norm_num : (5 : Int) ≠ 0)
  have hd1' := Int.emod_lt_of_pos (rnd 1 : Int) (by norm_num : (0 : Int) < 5)
  have hx : wrapInt64 (wrapInt64 (10 + wrapInt64 (((0 : Nat) : Int) * 35)) + (rnd 0 : Int) % 10)
      = 10 + (rnd 0 : Int) % 10 := by
    have e1 : wrapInt64 (((0 : Nat) : Int) * 35) = 0 := by norm_num [wrapInt64]
    have e2 : wrapInt64 (10 + 0) = 10 := by norm_num [wrapInt64]
    rw [e1, e2, wrapInt64_of_range _ (by omega) (by omega)]
  have hy : wrapInt64 (15 + (rnd 1 : Int) % 5) = 15 + (rnd 1 : Int) % 5 :=
    wrapInt64_of_range _ (by omega) (by omega)
  unfold CharacterCaptcha.drawText
  rw [hc]
  simp only [hw, hh, hl, Option.bind_eq_bind, Option.some_bind, Option.pure_def,
    CharacterCaptcha.drawTextLoop, randIntn_of_pos _ 10 (by norm_num),
    randIntn_of_pos _ 5 (by norm_num), randIntn_of_pos _ 128 (by norm_num), h0, hs,
    Nat.mul_zero, Nat.zero_add, hx, hy]

theorem solid_glyph_ink (tmp0 : Image) (h0 : NewRGBA 0 0 8 13 = some tmp0) (r g b : Nat)
    (s : String) (tx ty : Nat) (htx : tx < 8) (hty : ty < 13) :
    (Image.At { tmp0 with pix := solidImageLib.drawString tmp0 ⟨r, g, b, 255⟩ s 0 12 }
      (tx : Int) (ty : Int)).alpha16 > 0 := by
  have hrect := NewRGBA_some _ _ _ h0
  unfold Image.rect at hrect
  simp only [Prod.mk.injEq] at hrect
  obtain ⟨h1, h2, h3, h4⟩ := hrect
  have hin : Image.inBounds { tmp0 with pix := solidImageLib.drawString tmp0 ⟨r, g, b, 255⟩ s 0 12 }
      (tx : Int) (ty : Int) = true := by
    unfold Image.inBounds
    simp only [decide_eq_true_eq, h1, h2, h3, h4]
    omega
  unfold Image.At
  rw [if_pos hin]
  show 255 * 257 > 0
  norm_num

/-- C21 (the code at the failing input): the default generator draws the
one-character code `A` at `x = 10 + Intn(10)`, `y = 15 + Intn(5)`. Whatever
the glyph and the image, the column `x + 4` is left as it was, although its
source column is `floor(4 / 2.5) = 1`. With a glyph that is ink everywhere,
on the white canvas, the pixels `(x + 3, y)` and `(x + 5, y)` take the text
colour and the pixel `(x + 4, y)` between them stays white. -/
theorem drawText_leaves_gaps (rnd : Nat → Nat) :
    (∀ (lib : ImageLib) (img : Image), ∃ res,
      (NewCharacterCaptcha ⟨0, 0, 0, 0, 0⟩).drawText lib img "A" rnd = some res ∧
      ∀ b, res.pix (10 + (rnd 0 : Int) % 10 + 4) b = img.pix (10 + (rnd 0 : Int) % 10 + 4) b) ∧
    ∃ res,
      (NewCharacterCaptcha ⟨0, 0, 0, 0, 0⟩).drawText solidImageLib sampleTextCanvas "A" rnd
        = some res ∧
      res.pix (10 + (rnd 0 : Int) % 10 + 3) (15 + (rnd 1 : Int) % 5) =
        ⟨uint8 ((rnd 2 : Int) % 128), uint8 ((rnd 3 : Int) % 128),
          uint8 ((rnd 4 : Int) % 128), 255⟩ ∧
      res.pix (10 + (rnd 0 : Int) % 10 + 4) (15 + (rnd 1 : Int) % 5) = ⟨255, 255, 255, 255⟩ ∧
      res.pix (10 + (rnd 0 : Int) % 10 + 5) (15 + (rnd 1 : Int) % 5) =
        ⟨uint8 ((rnd 2 : Int) % 128), uint8 ((rnd 3 : Int) % 128),
          uint8 ((rnd 4 : Int) % 128), 255⟩ ∧
      (⟨uint8 ((rnd 2 : Int) % 128), uint8 ((rnd 3 : Int) % 128),
          uint8 ((rnd 4 : Int) % 128), 255⟩ : RGBA) ≠ ⟨255, 255, 255, 255⟩ := by
  have hd0 := Int.emod_nonneg (rnd 0 : Int) (by norm_num : (10 : Int) ≠ 0)
  have hd0' := Int.emod_lt_of_pos (rnd 0 : Int) (by norm_num : (0 : Int) < 10)
  have hd1 := Int.emod_nonneg (rnd 1 : Int) (by norm_num : (5 : Int) ≠ 0)
  have hd1' := Int.emod_lt_of_pos (rnd 1 : Int) (by norm_num : (0 : Int) < 5)
  have hx : -2 ^ 62 ≤ 10 + (rnd 0 : Int) % 10 ∧ 10 + (rnd 0 : Int) % 10 ≤ 2 ^ 62 := by omega
  have hy : -2 ^ 62 ≤ 15 + (rnd 1 : Int) % 5 ∧ 15 + (rnd 1 : Int) % 5 ≤ 2 ^ 62 := by omega
  have hc : (NewCharacterCaptcha ⟨0, 0, 0, 0, 0⟩).config = ⟨160, 60, 4, fiveMinutes, 2⟩ := rfl
  constructor
  · intro lib img
    obtain ⟨tmp0, _, h⟩ := drawText_single lib img rnd
    exact ⟨_, h, fun b => stampGlyph_column_gap _ img _ _ _ _ hx b⟩
  · obtain ⟨tmp0, h0, h⟩ := drawText_single solidImageLib sampleTextCanvas rnd
    have hin : ∀ a b : Int, 0 ≤ a → a < 160 → 0 ≤ b → b < 60 →
        sampleTextCanvas.inBounds a b = true := by
      intro a b h1 h2 h3 h4
      unfold Image.inBounds sampleTextCanvas
      simp only [decide_eq_true_eq]
      omega
    have hink := fun tx ty htx hty => solid_glyph_ink tmp0 h0
      (uint8 ((rnd 2 : Int) % 128)) (uint8 ((rnd 3 : Int) % 128)) (uint8 ((rnd 4 : Int) % 128))
      "A" tx ty htx hty
    refine ⟨_, h, ?_, ?_, ?_, ?_⟩
    · exact stampGlyph_ink _ sampleTextCanvas _ _ _ _ hx hy 1 0 1 0 _ _ (by norm_num)
        (by norm_num) (by norm_num) (by norm_num) (by omega) (by omega)
        (hink 1 0 (by norm_num) (by norm_num))
        (by rw [hc]; show _ < (160 : Int); omega) (by rw [hc]; show _ < (60 : Int); omega)
        (by omega) (hin _ _ (by omega) (by omega) (by omega) (by omega))
    · rw [stampGlyph_column_gap _ sampleTextCanvas _ _ _ _ hx]
      rfl
    · exact stampGlyph_ink _ sampleTextCanvas _ _ _ _ hx hy 2 0 0 0 _ _ (by norm_num)
        (by norm_num) (by norm_num) (by norm_num) (by omega) (by omega)
        (hink 2 0 (by norm_num) (by norm_num))
        (by rw [hc]; show _ < (160 : Int); omega) (by rw [hc]; show _ < (60 : Int); omega)
        (by omega) (hin _ _ (by omega) (by omega) (by omega) (by omega))
    · intro heq
      have hR := congrArg RGBA.R heq
      simp only [uint8] at hR
      have h2 := Int.emod_nonneg (rnd 2 : Int) (by norm_num : (128 : Int) ≠ 0)
      have h2' := Int.emod_lt_of_pos (rnd 2 : Int) (by norm_num : (0 : Int) < 128)
      omega

end Captcha
